import Mathlib

/-!
# Takeoff performance calculator — shallow embedding

A shallow embedding of the takeoff performance calculator
(`A380482xTakeoffPerformanceCalculator`, `src/unnamed/part_000`) together with
theorems settling the specification claims.

Modelling conventions:
* JavaScript numbers are modelled as `ℚ`.  The one transcendental operation in the
  source (`(qnh / 1013.25) ** 0.190263` in `calculatePressureAltitude`) is modelled
  by `qnhPowTerm` below, see its doc comment.
* JavaScript `NaN` is modelled as `Option.none` at the places the source can
  produce it (the temperature/wind weight corrections return `NaN` above the flex
  envelope, and it then flows into derived weight ceilings and the MTOW).  JS
  comparisons involving `NaN` are `false`; the `o*` helpers below implement that.
* The lookup-table classes (`LerpLookupTable`, `LerpVectorLookupTable`) and
  `MathUtils` come from the external `msfs-sdk` library, not from this repository;
  they are modelled from the spec's contract (§4.1): piecewise-linear interpolation
  over presorted samples, clamped to the boundary values outside the key range, the
  two-key variant resolving its keys independently (first key outer).
-/

set_option maxRecDepth 100000

namespace Takeoff

/-! ## JavaScript arithmetic primitives -/

/-- JS `Math.round` (round half toward positive infinity). -/
def jsRound (x : ℚ) : ℚ := (⌊x + 1/2⌋ : ℤ)

/-- JS `Math.ceil`. -/
def jsCeil (x : ℚ) : ℚ := (⌈x⌉ : ℤ)

/-- JS `Math.trunc` (round toward zero). -/
def jsTrunc (x : ℚ) : ℚ := if 0 ≤ x then ((⌊x⌋ : ℤ) : ℚ) else ((⌈x⌉ : ℤ) : ℚ)

/-- JS `Math.sign` restricted to non-`NaN` inputs (`-0` and `0` both map to `0`,
which is what the `===` comparison in the source observes). -/
def jsSign (x : ℚ) : ℤ := if 0 < x then 1 else if x < 0 then -1 else 0

/-! `Option ℚ` stands for a JS number that may be `NaN` (`none` = `NaN`).
Arithmetic propagates `NaN`; every comparison with `NaN` is `false`. -/

/-- Subtraction propagating `NaN`. -/
def oSub (a b : Option ℚ) : Option ℚ :=
  match a, b with
  | some x, some y => some (x - y)
  | _, _ => Option.none

/-- JS `a <= b` where `a` may be `NaN`. -/
def oLeL (a : Option ℚ) (b : ℚ) : Bool :=
  match a with
  | some x => x ≤ b
  | _ => false

/-- JS `a <= b` where `b` may be `NaN`. -/
def oLeR (a : ℚ) (b : Option ℚ) : Bool :=
  match b with
  | some y => a ≤ y
  | _ => false

/-- JS `a < b` where `b` may be `NaN`. -/
def oLtR (a : ℚ) (b : Option ℚ) : Bool :=
  match b with
  | some y => a < y
  | _ => false

/-- JS `a < b` where `a` may be `NaN`. -/
def oLtL (a : Option ℚ) (b : ℚ) : Bool :=
  match a with
  | some x => x < b
  | _ => false

/-! ## Lookup tables (modelled from spec §4.1; the classes live in the external msfs-sdk) -/

/-- Linear interpolation of `x` between the samples `(x0, y0)` and `(x1, y1)`. -/
def lerp1 (x x0 x1 y0 y1 : ℚ) : ℚ :=
  if x1 = x0 then y0 else y0 + (y1 - y0) * (x - x0) / (x1 - x0)

/-- `LerpLookupTable.get` for a single-key scalar table.  Entries are `(value, key)`
pairs in the constructor order of the source, keys ascending.  Outside the key
range the boundary value is returned; inside, linear interpolation between the
bracketing samples. -/
def lerpGet : List (ℚ × ℚ) → ℚ → ℚ
  | [], _ => 0
  | [(v, _)], _ => v
  | (v0, k0) :: (v1, k1) :: rest, key =>
    if key ≤ k0 then v0
    else if key ≤ k1 then lerp1 key k0 k1 v0 v1
    else lerpGet ((v1, k1) :: rest) key

/-- `LerpVectorLookupTable.get` for 2-component vectors, componentwise. -/
def lerpGetVec2 : List ((ℚ × ℚ) × ℚ) → ℚ → ℚ × ℚ
  | [], _ => (0, 0)
  | [(v, _)], _ => v
  | (v0, k0) :: (v1, k1) :: rest, key =>
    if key ≤ k0 then v0
    else if key ≤ k1 then (lerp1 key k0 k1 v0.1 v1.1, lerp1 key k0 k1 v0.2 v1.2)
    else lerpGetVec2 ((v1, k1) :: rest) key

/-- `LerpVectorLookupTable.get` for 3-component vectors, componentwise. -/
def lerpGetVec3 : List ((ℚ × ℚ × ℚ) × ℚ) → ℚ → ℚ × ℚ × ℚ
  | [], _ => (0, 0, 0)
  | [(v, _)], _ => v
  | (v0, k0) :: (v1, k1) :: rest, key =>
    if key ≤ k0 then v0
    else if key ≤ k1 then
      (lerp1 key k0 k1 v0.1 v1.1, lerp1 key k0 k1 v0.2.1 v1.2.1, lerp1 key k0 k1 v0.2.2 v1.2.2)
    else lerpGetVec3 ((v1, k1) :: rest) key

/-- `LerpVectorLookupTable.get` for 4-component vectors, componentwise. -/
def lerpGetVec4 : List ((ℚ × ℚ × ℚ × ℚ) × ℚ) → ℚ → ℚ × ℚ × ℚ × ℚ
  | [], _ => (0, 0, 0, 0)
  | [(v, _)], _ => v
  | (v0, k0) :: (v1, k1) :: rest, key =>
    if key ≤ k0 then v0
    else if key ≤ k1 then
      (lerp1 key k0 k1 v0.1 v1.1, lerp1 key k0 k1 v0.2.1 v1.2.1,
        lerp1 key k0 k1 v0.2.2.1 v1.2.2.1, lerp1 key k0 k1 v0.2.2.2 v1.2.2.2)
    else lerpGetVec4 ((v1, k1) :: rest) key

/-- The distinct first keys of a two-key table, in order of appearance. -/
def dedupConsec : List ℚ → List ℚ
  | [] => []
  | [x] => [x]
  | x :: y :: r => if x = y then dedupConsec (y :: r) else x :: dedupConsec (y :: r)

/-- Interpolate `f` over an ascending key list at `x`, clamped to the ends. -/
def lerpOverKeys : List ℚ → (ℚ → ℚ) → ℚ → ℚ
  | [], _, _ => 0
  | [k], f, _ => f k
  | k0 :: k1 :: rest, f, x =>
    if x ≤ k0 then f k0
    else if x ≤ k1 then lerp1 x k0 k1 (f k0) (f k1)
    else lerpOverKeys (k1 :: rest) f x

/-- `LerpLookupTable.get(key1, key2)` for a two-key scalar table with rows
`(value, key1, key2)`: the keys are resolved independently, first key outer. -/
def lerpGet2 (table : List (ℚ × ℚ × ℚ)) (k1 k2 : ℚ) : ℚ :=
  let outers := dedupConsec (table.map fun r => r.2.1)
  let innerAt := fun o =>
    lerpGet ((table.filter fun r => r.2.1 = o).map fun r => (r.1, r.2.2)) k2
  lerpOverKeys outers innerAt k1

/-- msfs-sdk `MathUtils.lerp(x, x0, x1, y0, y1, clampStart, clampEnd)`: maps `x`
from `[x0, x1]` to `[y0, y1]` linearly, optionally clamping the interpolation
parameter at either end (modelled from the external library's contract). -/
def mathUtilsLerp (x x0 x1 y0 y1 : ℚ) (clampStart clampEnd : Bool) : ℚ :=
  let t := (x - x0) / (x1 - x0)
  let t := if clampStart ∧ t < 0 then 0 else t
  let t := if clampEnd ∧ 1 < t then 1 else t
  y0 + t * (y1 - y0)

/-! ## Data model -/

/-- Validated high-lift configuration (the raw input is a plain JS number). -/
inductive Conf
  | one
  | two
  | three
deriving DecidableEq, Repr

/-- Lineup angle, one of the three discrete values 0°/90°/180°. -/
inductive LineupAngle
  | deg0
  | deg90
  | deg180
deriving DecidableEq, Repr

/-- Anti-ice bleed setting. -/
inductive TakeoffAntiIceSetting
  | off
  | engine
  | engineWing
deriving DecidableEq, Repr

/-- Runway condition: dry, wet, or one of nine contamination states. -/
inductive RunwayCondition
  | dry
  | wet
  | contaminated6mmWater
  | contaminated13mmWater
  | contaminated6mmSlush
  | contaminated13mmSlush
  | contaminatedCompactedSnow
  | contaminated5mmWetSnow
  | contaminated15mmWetSnow
  | contaminated30mmWetSnow
  | contaminated10mmDrySnow
  | contaminated100mmDrySnow
deriving DecidableEq, Repr

/-- The four limiting factors. -/
inductive LimitingFactor
  | runway
  | secondSegment
  | brakeEnergy
  | vmcg
deriving DecidableEq, Repr

/-- Error taxonomy (name spelling as in the source). -/
inductive TakeoffPerfomanceError
  | none
  | invalidData
  | structuralMtow
  | maximumPressureAlt
  | maximumTemperature
  | operatingEmptyWeight
  | cgOutOfLimits
  | maximumTailwind
  | maximumRunwaySlope
  | tooLight
  | tooHeavy
  | vmcgVmcaLimits
  | maximumTireSpeed
deriving DecidableEq, Repr

/-- The caller-supplied inputs (`TakeoffPerformanceInputs`). -/
structure TakeoffPerformanceInputs where
  tow : ℚ
  forwardCg : Bool
  cg : Option ℚ
  conf : ℚ
  tora : ℚ
  slope : ℚ
  lineupAngle : LineupAngle
  wind : ℚ
  elevation : ℚ
  qnh : ℚ
  oat : ℚ
  antiIce : TakeoffAntiIceSetting
  packs : Bool
  forceToga : Bool
  runwayCondition : RunwayCondition
deriving DecidableEq, Repr

/-- Derived parameters (`TakeoffPerformanceParameters`); `flexLimitingFactor` is
filled in lazily by the flex-temperature search. -/
structure TakeoffPerformanceParameters where
  adjustedTora : ℚ
  pressureAlt : ℚ
  isaTemp : ℚ
  tRef : ℚ
  tMax : ℚ
  tFlexMax : ℚ
  headwind : ℚ
  flexLimitingFactor : Option LimitingFactor
deriving DecidableEq, Repr

/-- Weight-limit breakdown for a single limiting factor (`LimitWeight`).  The
temperature-dependent ceilings can be `NaN` in the source (probe temperature
beyond the flex envelope), hence `Option ℚ`. -/
structure LimitWeight where
  baseLimit : ℚ
  deltaSlope : ℚ
  slopeLimit : ℚ
  deltaAlt : ℚ
  altLimit : ℚ
  oatDeltaTemp : Option ℚ
  oatDeltaWind : Option ℚ
  oatLimitNoBleed : Option ℚ
  oatLimit : Option ℚ
  tRefDeltaTemp : Option ℚ
  tRefDeltaWind : Option ℚ
  tRefLimitNoBleed : Option ℚ
  tRefLimit : Option ℚ
  tMaxDeltaTemp : Option ℚ
  tMaxDeltaWind : Option ℚ
  tMaxLimitNoBleed : Option ℚ
  tMaxLimit : Option ℚ
  tFlexMaxDeltaTemp : Option ℚ
  tFlexMaxDeltaWind : Option ℚ
  tFlexMaxLimitNoBleed : Option ℚ
  tFlexMaxLimit : Option ℚ
deriving DecidableEq, Repr

/-- The per-factor weight limits (source: `result.limits`, a record keyed by
`LimitingFactor`). -/
structure LimitsRecord where
  runway : LimitWeight
  secondSegment : LimitWeight
  brakeEnergy : LimitWeight
  vmcg : LimitWeight
deriving DecidableEq, Repr

def LimitsRecord.get (l : LimitsRecord) : LimitingFactor → LimitWeight
  | .runway => l.runway
  | .secondSegment => l.secondSegment
  | .brakeEnergy => l.brakeEnergy
  | .vmcg => l.vmcg

/-- The reference-temperature selector used by `getLimitingFactor` (the source
passes the field name `'oatLimit' | 'tRefLimit' | 'tMaxLimit' | 'tFlexMaxLimit'`). -/
inductive LimitKey
  | oatLimit
  | tRefLimit
  | tMaxLimit
  | tFlexMaxLimit
deriving DecidableEq, Repr

/-- Field access `weights[temp]` (the with-bleed ceilings). -/
def LimitWeight.limitAt (w : LimitWeight) : LimitKey → Option ℚ
  | .oatLimit => w.oatLimit
  | .tRefLimit => w.tRefLimit
  | .tMaxLimit => w.tMaxLimit
  | .tFlexMaxLimit => w.tFlexMaxLimit

/-- The corresponding no-bleed ceilings. -/
def LimitWeight.limitAtNoBleed (w : LimitWeight) : LimitKey → Option ℚ
  | .oatLimit => w.oatLimitNoBleed
  | .tRefLimit => w.tRefLimitNoBleed
  | .tMaxLimit => w.tMaxLimitNoBleed
  | .tFlexMaxLimit => w.tFlexMaxLimitNoBleed

/-- Scratch and final V-speed values (`TakeoffPerformanceSpeeds`).  The scratch
fields mirror the `Partial<>` object the source fills in incrementally; the
`dry*` fields are always assigned (from `reconcileVSpeeds`) before the record is
stored on the result. -/
structure TakeoffPerformanceSpeeds where
  v2Base : Option ℚ
  v2DeltaRunway : Option ℚ
  v2DeltaAlt : Option ℚ
  v2DeltaSlope : Option ℚ
  v2DeltaWind : Option ℚ
  v2Table2Threshold : Option ℚ
  v2Table1NoWind : Option ℚ
  vRBase : Option ℚ
  vRDeltaRunway : Option ℚ
  vRDeltaAlt : Option ℚ
  vRDeltaSlope : Option ℚ
  vRDeltaWind : Option ℚ
  v1Base : Option ℚ
  v1DeltaRunway : Option ℚ
  v1DeltaAlt : Option ℚ
  v1DeltaSlope : Option ℚ
  v1DeltaWind : Option ℚ
  v1Table2 : Option ℚ
  dryV1 : ℚ
  dryVR : ℚ
  dryV2 : ℚ
deriving DecidableEq, Repr

/-- The empty scratch speeds object (`const speeds: Partial<...> = {}`; the
`dry*` placeholders are overwritten before the record is ever read). -/
def emptySpeeds : TakeoffPerformanceSpeeds :=
  ⟨Option.none, Option.none, Option.none, Option.none, Option.none, Option.none,
    Option.none, Option.none, Option.none, Option.none, Option.none, Option.none,
    Option.none, Option.none, Option.none, Option.none, Option.none, Option.none,
    0, 0, 0⟩

/-- The calculation result (`TakeoffPerformanceResult`).  Fields the source leaves
`undefined` (or that can be `NaN`, in the case of `mtow`) are `Option`s. -/
structure TakeoffPerformanceResult where
  inputs : TakeoffPerformanceInputs
  params : TakeoffPerformanceParameters
  error : TakeoffPerfomanceError
  limits : Option LimitsRecord
  oatLimitingFactor : Option LimitingFactor
  tRefLimitingFactor : Option LimitingFactor
  tMaxLimitingFactor : Option LimitingFactor
  tFlexMaxLimitingFactor : Option LimitingFactor
  tvmcg : Option ℚ
  mtow : Option ℚ
  flex : Option ℚ
  v1 : Option ℚ
  vR : Option ℚ
  v2 : Option ℚ
  intermediateSpeeds : Option TakeoffPerformanceSpeeds
  stabTrim : Option ℚ
deriving DecidableEq, Repr

/-! ## Coefficient tables (transcribed from the source class constants) -/

/-- Max flex temp as a delta from ISA in °C. -/
def tMaxFlexDisa : ℚ := 59

def lineUpDistances : LineupAngle → ℚ
  | .deg0 => 0
  | .deg90 => 20.5
  | .deg180 => 41

def tRefTable : List (ℚ × ℚ) :=
  [(48, (-2000)),
    (44, 0),
    (43, 500),
    (42, 1000),
    (40, 2000),
    (36.4, 3000),
    (35, 3479),
    (16.4, 8348),
    (13.5, 9200)]

def tMaxTable : List (ℚ × ℚ) :=
  [(55, (-2000)),
    (55, 0),
    (38, 9200)]

def runwayPerfLimitConf1 : List (ℚ × ℚ) :=
  [(349975, 1000),
    (384324, 1219),
    (445246, 1604),
    (490613, 1959),
    (512000, 2134),
    (522370, 2239),
    (542461, 2459),
    (550886, 2559),
    (558663, 2709),
    (562876, 2918),
    (576810, 3000),
    (587828, 3180),
    (659119, 3800),
    (699949, 5000)]

def runwayPerfLimitConf2 : List (ℚ × ℚ) :=
  [(353215, 1000),
    (392101, 1219),
    (460152, 1604),
    (508111, 1959),
    (526906, 2134),
    (537276, 2239),
    (554127, 2459),
    (565792, 2709),
    (570329, 2879),
    (571107, 2987),
    (619585, 3600),
    (629954, 3800),
    (634491, 3900),
    (686987, 5000)]

def runwayPerfLimitConf3 : List (ℚ × ℚ) :=
  [(344142, 1000),
    (390157, 1219),
    (470522, 1604),
    (517833, 1959),
    (539220, 2134),
    (541165, 2239),
    (551534, 2459),
    (569033, 2709),
    (575514, 2839),
    (594309, 3180),
    (632547, 3800),
    (680506, 5000)]

def runwaySlopeFactor : Conf → ℚ
  | .one => 0.00084
  | .two => 0.00096
  | .three => 0.0011

def runwayPressureAltFactor : Conf → ℚ × ℚ
  | .one => (3.43e-8, 0.001192)
  | .two => (1.15e-8, 0.001216)
  | .three => ((-4.6e-9), 0.001245)

def runwayTemperatureFactor : Conf → ℚ × ℚ × ℚ × ℚ × ℚ × ℚ
  | .one => (0.00001, 0.095175, 0.000207, 0.040242, 0.00024, 0.066189)
  | .two => ((-0.00001), 0.131948, 0.000155, 0.162938, 0.000225, 0.150363)
  | .three => ((-0.0000438), 0.198845, 0.000188, 0.14547, 0.0002, 0.232529)

def runwayHeadWindFactor : Conf → ℚ × ℚ × ℚ × ℚ
  | .one => (0.000029, (-0.233075), 0.00242, 0.003772)
  | .two => (0.000051, (-0.277863), 0.0018, 0.003366)
  | .three => (0.000115, (-0.3951), 0.002357, 0.002125)

def runwayTailWindFactor : Conf → ℚ × ℚ × ℚ × ℚ
  | .one => (0.000065, (-0.684701), 0.00498, 0.0808)
  | .two => (0.000198, (-1.017), 0.00711, 0.009)
  | .three => (0.000271, (-1.11506), 0.0078, 0.00875)

def secondSegmentBaseFactor : Conf → ℚ × ℚ
  | .one => (0.00391, 75.366)
  | .two => (0.005465, 72.227)
  | .three => (0.00495, 72.256)

def secondSegmentSlopeFactor : Conf → ℚ
  | .one => 0.000419
  | .two => 0.000641
  | .three => 0.000459

def secondSegmentPressureAltFactor : Conf → ℚ × ℚ
  | .one => ((-6.5e-8), 0.001769)
  | .two => (1.05e-7, 0.00055)
  | .three => (7.48e-8, 0.000506)

def secondSegmentTemperatureFactor : Conf → ℚ × ℚ × ℚ × ℚ × ℚ × ℚ
  | .one => (0.000025, 0.001, 0.000155, 0.211445, 0.000071, 0.556741)
  | .two => (0.0000121, 0.042153, 0.0001256, 0.325925, 0.000082, 0.546259)
  | .three => ((-0.0000294), 0.13903, 0.0000693, 0.480536, 0.000133, 0.480536)

def secondSegmentHeadWindFactor : Conf → ℚ × ℚ × ℚ × ℚ
  | .one => (0.000019, (-0.13052), 0.000813636, 0.000145238)
  | .two => (0.0000454, (-0.20585), 0.000416667, 0.001778293)
  | .three => (0.000085, (-0.30209), 0.001189394, 0.0038996)

def secondSegmentTailWindFactor : Conf → ℚ × ℚ × ℚ × ℚ
  | .one => (0.000104, (-0.705693), 0.009, 0.00648)
  | .two => (0.000154, (-0.8052), 0.009, 0.002444)
  | .three => (0.000054, (-0.462), 0.00875, 0.006606505)

def brakeEnergyBaseFactor : Conf → ℚ × ℚ
  | .one => (0.00503, 72.524)
  | .two => (0.00672, 68.28)
  | .three => (0.00128, 83.951)

def brakeEnergySlopeFactor : Conf → ℚ
  | .one => 0.000045
  | .two => 0.000068
  | .three => 0.000045

def brakeEnergyPressureAltFactor : Conf → ℚ × ℚ
  | .one => (5.5e-8, 0.000968)
  | .two => (1.17e-7, 0.000595)
  | .three => (4.65e-8, 0.000658)

def brakeEnergyTemperatureFactor : Conf → ℚ × ℚ
  | .one => (0.06, 0.54)
  | .two => (0.058, 0.545)
  | .three => (0.04642, 0.6)

def brakeEnergyHeadWindFactor : Conf → ℚ × ℚ × ℚ × ℚ
  | .one => (0.0000311, (-0.1769), 0.001125, 0)
  | .two => (0.0000316, (-0.1799), 0.001182, 0)
  | .three => (0.0000147, (-0.0928), 0.001111, 0)

def brakeEnergyTailWindFactor : Conf → ℚ × ℚ × ℚ × ℚ
  | .one => (0.000117, (-0.8024), 0.0117879, 0.006667)
  | .two => (0.000157, (-0.849), 0.0066818, 0.006667)
  | .three => (0.00013, (-0.6946), 0.0068333, 0.006667)

def vmcgBaseFactor : Conf → ℚ × ℚ
  | .one => (0.0644, (-19.526))
  | .two => (0.082005, (-39.27))
  | .three => (0.0704, (-25.6868))

def vmcgSlopeFactor : Conf → ℚ
  | .one => 0.00084
  | .two => 0.001054
  | .three => 0.001068

def vmcgPressureAltFactor : Conf → ℚ × ℚ
  | .one => ((-8.35e-7), 0.00589)
  | .two => ((-7.58e-7), 0.00703)
  | .three => (1.95e-7, 0.00266)

def vmcgTemperatureFactor : Conf → ℚ × ℚ × ℚ × ℚ × ℚ × ℚ
  | .one => ((-0.00133), 2.104, 0.000699, (-0.128144), (-0.000718), 1.8103)
  | .two => ((-0.00097), 1.613, 0.000242, 0.462005, (-0.000547), 1.603)
  | .three => ((-0.000923), 1.6087, 0.00061, 0.002239, (-0.000335), 1.2716)

def vmcgHeadWindFactor : Conf → ℚ × ℚ × ℚ × ℚ × ℚ × ℚ × ℚ × ℚ
  | .one => (0.001198, (-1.80539), 0.000097, (-0.15121), (-0.000255), 0.337391, 0.000066, (-0.079718))
  | .two => (0.000697, (-1.17473), 0.000031, (-0.057504), (-0.000184), 0.246185, 0.000012, 0.0216)
  | .three => (0.0023, (-3.468), (-0.000037), 0.033946, (-0.000156), 0.213953, (-0.000757), 1.094)

def vmcgTailWindFactor : Conf → ℚ × ℚ × ℚ × ℚ × ℚ × ℚ
  | .one => (0.00218, (-5.489), (-0.000106), 0.145473, 0.031431, (-0.0356))
  | .two => (0.001892, (-5.646), (-0.000059), 0.079539, 0.009948, (-0.010763))
  | .three => (0.000613, (-3.165), (-0.000022), 0.020622, 0.049286, (-0.0396))

def takeoffCgLimits : List ((ℚ × ℚ) × ℚ) :=
  [((15, 32.5), 262481),
    ((15, 37), 324051),
    ((15, (mathUtilsLerp 343494 324051 435524 37 40 false false)), 343494),
    ((17, (mathUtilsLerp 408304 324051 435524 37 40 false false)), 408304),
    ((17, 40), 435524),
    ((17, 40), 466633),
    (((mathUtilsLerp 474410 466633 499038 17 24 false false), 40), 474410),
    ((24, 37.2), 499038)]

def cgFactors : Conf → ℚ × ℚ
  | .one => ((-0.041448), 3.357)
  | .two => ((-0.03277), 2.686)
  | .three => ((-0.0249), 2.086)

def minimumV1Vmc : List (ℚ × ℚ) :=
  [(122, (-2000)),
    (121, 0),
    (121, 2000),
    (120, 3000),
    (120, 4000),
    (118, 6000),
    (116, 8000),
    (115, 9200),
    (107, 14000),
    (106, 15000)]

def minimumVrVmc : List (ℚ × ℚ) :=
  [(123, (-2000)),
    (122, 0),
    (122, 3000),
    (121, 4000),
    (120, 6000),
    (117, 8000),
    (116, 9200),
    (107, 14000),
    (106, 15000)]

def minimumV2Vmc : Conf → List (ℚ × ℚ)
  | .one =>
    [(127, (-2000)),
    (126, 0),
    (126, 1000),
    (125, 2000),
    (125, 3000),
    (124, 4000),
    (123, 6000),
    (120, 8000),
    (118, 9200),
    (109, 14000),
    (107, 15000)]
  | .two =>
    [(127, (-2000)),
    (126, 0),
    (126, 1000),
    (125, 2000),
    (125, 3000),
    (124, 4000),
    (123, 6000),
    (120, 8000),
    (118, 9200),
    (109, 14000),
    (107, 15000)]
  | .three =>
    [(126, (-2000)),
    (125, 0),
    (125, 1000),
    (124, 2000),
    (124, 3000),
    (123, 4000),
    (122, 6000),
    (119, 8000),
    (117, 9200),
    (108, 14000),
    (106, 15000)]

def minimumV2Vmu : Conf → List (ℚ × ℚ × ℚ)
  | .one =>
    [(127, (-2000), 291646),
    (127, (-2000), 324051),
    (127, (-2000), 356456),
    (132, (-2000), 388861),
    (137, (-2000), 421266),
    (142, (-2000), 453671),
    (146, (-2000), 486076),
    (151, (-2000), 518481),
    (126, (-1000), 291646),
    (126, (-1000), 324051),
    (127, (-1000), 356456),
    (132, (-1000), 388861),
    (137, (-1000), 421266),
    (142, (-1000), 453671),
    (147, (-1000), 486076),
    (151, (-1000), 518481),
    (126, 0, 291646),
    (126, 0, 324051),
    (127, 0, 356456),
    (132, 0, 388861),
    (137, 0, 421266),
    (142, 0, 453671),
    (147, 0, 486076),
    (151, 0, 518481),
    (126, 1000, 291646),
    (126, 1000, 324051),
    (127, 1000, 356456),
    (132, 1000, 388861),
    (137, 1000, 421266),
    (142, 1000, 453671),
    (147, 1000, 486076),
    (151, 1000, 518481),
    (125, 2000, 291646),
    (125, 2000, 324051),
    (127, 2000, 356456),
    (132, 2000, 388861),
    (137, 2000, 421266),
    (142, 2000, 453671),
    (147, 2000, 486076),
    (151, 2000, 518481),
    (125, 3000, 291646),
    (125, 3000, 324051),
    (127, 3000, 356456),
    (132, 3000, 388861),
    (137, 3000, 421266),
    (142, 3000, 453671),
    (147, 3000, 486076),
    (151, 3000, 518481),
    (124, 4000, 291646),
    (124, 4000, 324051),
    (127, 4000, 356456),
    (132, 4000, 388861),
    (137, 4000, 421266),
    (142, 4000, 453671),
    (147, 4000, 486076),
    (152, 4000, 518481),
    (124, 5000, 291646),
    (124, 5000, 324051),
    (127, 5000, 356456),
    (132, 5000, 388861),
    (137, 5000, 421266),
    (142, 5000, 453671),
    (147, 5000, 486076),
    (152, 5000, 518481),
    (123, 6000, 291646),
    (123, 6000, 324051),
    (127, 6000, 356456),
    (132, 6000, 388861),
    (137, 6000, 421266),
    (142, 6000, 453671),
    (147, 6000, 486076),
    (152, 6000, 518481),
    (122, 7000, 291646),
    (122, 7000, 324051),
    (127, 7000, 356456),
    (132, 7000, 388861),
    (137, 7000, 421266),
    (142, 7000, 453671),
    (147, 7000, 486076),
    (152, 7000, 518481),
    (120, 8000, 291646),
    (121, 8000, 324051),
    (127, 8000, 356456),
    (132, 8000, 388861),
    (137, 8000, 421266),
    (143, 8000, 453671),
    (148, 8000, 486076),
    (152, 8000, 518481),
    (119, 9000, 291646),
    (121, 9000, 324051),
    (127, 9000, 356456),
    (132, 9000, 388861),
    (137, 9000, 421266),
    (143, 9000, 453671),
    (148, 9000, 486076),
    (153, 9000, 518481),
    (117, 10000, 291646),
    (121, 10000, 324051),
    (127, 10000, 356456),
    (132, 10000, 388861),
    (137, 10000, 421266),
    (143, 10000, 453671),
    (148, 10000, 486076),
    (153, 10000, 518481),
    (115, 11000, 291646),
    (121, 11000, 324051),
    (127, 11000, 356456),
    (132, 11000, 388861),
    (138, 11000, 421266),
    (143, 11000, 453671),
    (149, 11000, 486076),
    (154, 11000, 518481),
    (115, 12000, 291646),
    (121, 12000, 324051),
    (127, 12000, 356456),
    (132, 12000, 388861),
    (138, 12000, 421266),
    (143, 12000, 453671),
    (149, 12000, 486076),
    (154, 12000, 518481),
    (115, 13000, 291646),
    (121, 13000, 324051),
    (127, 13000, 356456),
    (132, 13000, 388861),
    (138, 13000, 421266),
    (144, 13000, 453671),
    (149, 13000, 486076),
    (154, 13000, 518481),
    (115, 14100, 291646),
    (121, 14100, 324051),
    (127, 14100, 356456),
    (132, 14100, 388861),
    (138, 14100, 421266),
    (144, 14100, 453671),
    (150, 14100, 486076),
    (155, 14100, 518481),
    (115, 15100, 291646),
    (121, 15100, 324051),
    (127, 15100, 356456),
    (133, 15100, 388861),
    (139, 15100, 421266),
    (144, 15100, 453671),
    (150, 15100, 486076),
    (155, 15100, 518481)]
  | .two =>
    [(127, (-2000), 291646),
    (127, (-2000), 324051),
    (127, (-2000), 356456),
    (127, (-2000), 388861),
    (132, (-2000), 421266),
    (136, (-2000), 453671),
    (141, (-2000), 486076),
    (145, (-2000), 518481),
    (126, (-1000), 291646),
    (126, (-1000), 324051),
    (126, (-1000), 356456),
    (127, (-1000), 388861),
    (132, (-1000), 421266),
    (136, (-1000), 453671),
    (141, (-1000), 486076),
    (145, (-1000), 518481),
    (126, 0, 291646),
    (126, 0, 324051),
    (126, 0, 356456),
    (127, 0, 388861),
    (132, 0, 421266),
    (137, 0, 453671),
    (141, 0, 486076),
    (146, 0, 518481),
    (126, 1000, 291646),
    (126, 1000, 324051),
    (126, 1000, 356456),
    (127, 1000, 388861),
    (132, 1000, 421266),
    (137, 1000, 453671),
    (141, 1000, 486076),
    (146, 1000, 518481),
    (125, 2000, 291646),
    (125, 2000, 324051),
    (125, 2000, 356456),
    (127, 2000, 388861),
    (132, 2000, 421266),
    (137, 2000, 453671),
    (141, 2000, 486076),
    (146, 2000, 518481),
    (125, 3000, 291646),
    (125, 3000, 324051),
    (125, 3000, 356456),
    (127, 3000, 388861),
    (132, 3000, 421266),
    (137, 3000, 453671),
    (142, 3000, 486076),
    (146, 3000, 518481),
    (124, 4000, 291646),
    (124, 4000, 324051),
    (124, 4000, 356456),
    (127, 4000, 388861),
    (132, 4000, 421266),
    (137, 4000, 453671),
    (142, 4000, 486076),
    (146, 4000, 518481),
    (124, 5000, 291646),
    (124, 5000, 324051),
    (124, 5000, 356456),
    (127, 5000, 388861),
    (132, 5000, 421266),
    (137, 5000, 453671),
    (142, 5000, 486076),
    (146, 5000, 518481),
    (123, 6000, 291646),
    (123, 6000, 324051),
    (123, 6000, 356456),
    (127, 6000, 388861),
    (132, 6000, 421266),
    (137, 6000, 453671),
    (142, 6000, 486076),
    (146, 6000, 518481),
    (122, 7000, 291646),
    (122, 7000, 324051),
    (122, 7000, 356456),
    (127, 7000, 388861),
    (132, 7000, 421266),
    (137, 7000, 453671),
    (142, 7000, 486076),
    (146, 7000, 518481),
    (120, 8000, 291646),
    (120, 8000, 324051),
    (122, 8000, 356456),
    (127, 8000, 388861),
    (132, 8000, 421266),
    (137, 8000, 453671),
    (142, 8000, 486076),
    (146, 8000, 518481),
    (119, 9000, 291646),
    (119, 9000, 324051),
    (122, 9000, 356456),
    (127, 9000, 388861),
    (132, 9000, 421266),
    (137, 9000, 453671),
    (142, 9000, 486076),
    (147, 9000, 518481),
    (117, 10000, 291646),
    (117, 10000, 324051),
    (122, 10000, 356456),
    (127, 10000, 388861),
    (132, 10000, 421266),
    (137, 10000, 453671),
    (142, 10000, 486076),
    (147, 10000, 518481),
    (115, 11000, 291646),
    (117, 11000, 324051),
    (122, 11000, 356456),
    (127, 11000, 388861),
    (132, 11000, 421266),
    (137, 11000, 453671),
    (142, 11000, 486076),
    (147, 11000, 518481),
    (113, 12000, 291646),
    (117, 12000, 324051),
    (122, 12000, 356456),
    (127, 12000, 388861),
    (132, 12000, 421266),
    (138, 12000, 453671),
    (143, 12000, 486076),
    (147, 12000, 518481),
    (111, 13000, 291646),
    (116, 13000, 324051),
    (122, 13000, 356456),
    (127, 13000, 388861),
    (133, 13000, 421266),
    (138, 13000, 453671),
    (143, 13000, 486076),
    (148, 13000, 518481),
    (111, 14100, 291646),
    (116, 14100, 324051),
    (122, 14100, 356456),
    (127, 14100, 388861),
    (133, 14100, 421266),
    (138, 14100, 453671),
    (143, 14100, 486076),
    (148, 14100, 518481),
    (111, 15100, 291646),
    (116, 15100, 324051),
    (122, 15100, 356456),
    (127, 15100, 388861),
    (133, 15100, 421266),
    (138, 15100, 453671),
    (143, 15100, 486076),
    (148, 15100, 518481)]
  | .three =>
    [(126, (-2000), 291646),
    (126, (-2000), 324051),
    (126, (-2000), 356456),
    (126, (-2000), 388861),
    (128, (-2000), 421266),
    (132, (-2000), 453671),
    (137, (-2000), 486076),
    (141, (-2000), 518481),
    (125, (-1000), 291646),
    (125, (-1000), 324051),
    (125, (-1000), 356456),
    (125, (-1000), 388861),
    (128, (-1000), 421266),
    (132, (-1000), 453671),
    (137, (-1000), 486076),
    (141, (-1000), 518481),
    (125, 0, 291646),
    (125, 0, 324051),
    (125, 0, 356456),
    (125, 0, 388861),
    (128, 0, 421266),
    (132, 0, 453671),
    (137, 0, 486076),
    (141, 0, 518481),
    (125, 1000, 291646),
    (125, 1000, 324051),
    (125, 1000, 356456),
    (125, 1000, 388861),
    (128, 1000, 421266),
    (132, 1000, 453671),
    (137, 1000, 486076),
    (141, 1000, 518481),
    (124, 2000, 291646),
    (124, 2000, 324051),
    (124, 2000, 356456),
    (124, 2000, 388861),
    (128, 2000, 421266),
    (132, 2000, 453671),
    (137, 2000, 486076),
    (141, 2000, 518481),
    (124, 3000, 291646),
    (124, 3000, 324051),
    (124, 3000, 356456),
    (124, 3000, 388861),
    (128, 3000, 421266),
    (133, 3000, 453671),
    (137, 3000, 486076),
    (141, 3000, 518481),
    (123, 4000, 291646),
    (123, 4000, 324051),
    (123, 4000, 356456),
    (123, 4000, 388861),
    (128, 4000, 421266),
    (133, 4000, 453671),
    (137, 4000, 486076),
    (141, 4000, 518481),
    (123, 5000, 291646),
    (123, 5000, 324051),
    (123, 5000, 356456),
    (123, 5000, 388861),
    (128, 5000, 421266),
    (133, 5000, 453671),
    (137, 5000, 486076),
    (142, 5000, 518481),
    (122, 6000, 291646),
    (122, 6000, 324051),
    (122, 6000, 356456),
    (123, 6000, 388861),
    (128, 6000, 421266),
    (133, 6000, 453671),
    (137, 6000, 486076),
    (142, 6000, 518481),
    (121, 7000, 291646),
    (121, 7000, 324051),
    (121, 7000, 356456),
    (123, 7000, 388861),
    (128, 7000, 421266),
    (133, 7000, 453671),
    (138, 7000, 486076),
    (142, 7000, 518481),
    (119, 8000, 291646),
    (119, 8000, 324051),
    (119, 8000, 356456),
    (123, 8000, 388861),
    (128, 8000, 421266),
    (133, 8000, 453671),
    (138, 8000, 486076),
    (142, 8000, 518481),
    (118, 9000, 291646),
    (118, 9000, 324051),
    (118, 9000, 356456),
    (123, 9000, 388861),
    (128, 9000, 421266),
    (133, 9000, 453671),
    (138, 9000, 486076),
    (142, 9000, 518481),
    (116, 10000, 291646),
    (116, 10000, 324051),
    (118, 10000, 356456),
    (123, 10000, 388861),
    (128, 10000, 421266),
    (133, 10000, 453671),
    (138, 10000, 486076),
    (142, 10000, 518481),
    (114, 11000, 291646),
    (114, 11000, 324051),
    (118, 11000, 356456),
    (123, 11000, 6000),
    (128, 11000, 421266),
    (133, 11000, 453671),
    (138, 11000, 486076),
    (142, 11000, 518481),
    (112, 12000, 291646),
    (113, 12000, 324051),
    (118, 12000, 356456),
    (123, 12000, 388861),
    (128, 12000, 421266),
    (133, 12000, 453671),
    (138, 12000, 486076),
    (143, 12000, 518481),
    (110, 13000, 291646),
    (113, 13000, 324051),
    (118, 13000, 356456),
    (123, 13000, 388861),
    (128, 13000, 421266),
    (133, 13000, 453671),
    (138, 13000, 486076),
    (143, 13000, 518481),
    (108, 14100, 291646),
    (113, 14100, 324051),
    (118, 14100, 356456),
    (123, 14100, 388861),
    (128, 14100, 421266),
    (134, 14100, 453671),
    (139, 14100, 486076),
    (143, 14100, 518481),
    (107, 15100, 291646),
    (113, 15100, 324051),
    (118, 15100, 356456),
    (123, 15100, 388861),
    (129, 15100, 421266),
    (134, 15100, 453671),
    (139, 15100, 486076),
    (143, 15100, 518481)]

def v2RunwayVmcgBaseFactors : Conf → ℚ × ℚ
  | .one => (0.920413, 77.3469)
  | .two => (0.87805, 75.1346)
  | .three => (0.96131, 65.525)

def v2RunwayVmcgAltFactors : Conf → ℚ × ℚ
  | .one => (0.00002333, (-0.00144))
  | .two => (0.00001713, (-0.001057))
  | .three => (0.00001081, (-0.0006236))

def vRRunwayVmcgBaseFactors : Conf → ℚ × ℚ
  | .one => (0.83076, 81.086)
  | .two => (0.728085, 84.111)
  | .three => (0.742761, 78.721)

def vRRunwayVmcgRunwayFactors : Conf → ℚ × ℚ × ℚ
  | .one => (2280, 0.0001718, (-0.01585))
  | .two => (2280, 0.0003239, (-0.027272))
  | .three => (1900, 0.00057992, (-0.045646))

def vRRunwayVmcgAltFactors : Conf → ℚ × ℚ
  | .one => (0.000029048, (-0.001958))
  | .two => (0.000035557, (-0.0025644))
  | .three => (1.02964e-5, (-0.000545643))

def vRRunwayVmcgSlopeFactors : Conf → ℚ
  | .one => 0.000887
  | .two => 0.000887
  | .three => 0.000887

def vRRunwayVmcgHeadwindFactors : Conf → ℚ × ℚ
  | .one => (0, 0)
  | .two => ((-0.027617), 2.1252)
  | .three => (0.003355, (-0.263036))

def vRRunwayVmcgTailwindFactors : Conf → ℚ × ℚ
  | .one => ((-0.008052), 0.6599)
  | .two => ((-0.010709), 0.90273)
  | .three => ((-0.027796), 2.107178)

def v1RunwayVmcgBaseFactors : Conf → ℚ × ℚ
  | .one => (0.4259042, 106.763)
  | .two => (0.398826, 106.337)
  | .three => (0.469648, 95.776)

def v1RunwayVmcgRunwayFactors : Conf → ℚ × ℚ × ℚ
  | .one => (2280, 0.0003156, (-0.03189))
  | .two => (2280, 0.0004396, (-0.041238))
  | .three => (1900, 0.00144, (-0.112592))

def v1RunwayVmcgAltFactors : Conf → ℚ × ℚ
  | .one => (0.00003416, (-0.0028035))
  | .two => (0.00004354, (-0.0035876))
  | .three => (0.0000847, (-0.006666))

def v1RunwayVmcgSlopeFactors : Conf → ℚ
  | .one => 0.000887
  | .two => 0.000887
  | .three => 0.000887

def v1RunwayVmcgHeadwindFactors : Conf → ℚ × ℚ
  | .one => (0.00526, (-0.2105))
  | .two => (0.00974, (-0.53))
  | .three => (0.002333, (-0.079528))

def v1RunwayVmcgTailwindFactors : Conf → ℚ × ℚ
  | .one => ((-0.009243), 1.108)
  | .two => ((-0.008207), 1.07)
  | .three => ((-0.043516), 3.423)

def v2SecondSegBrakeThresholds : Conf → ℚ × ℚ
  | .one => ((-0.009368), 186.79)
  | .two => (0.02346, 68.33)
  | .three => (0.022112, 83.141)

def v2SecondSegBrakeBaseTable1 : Conf → ℚ × ℚ
  | .one => (0.72637, 101.077)
  | .two => (0.74005, 97.073)
  | .three => (0.3746, 130.078)

def v2SecondSegBrakeBaseTable2 : Conf → ℚ × ℚ
  | .one => (0.63964, 102.127)
  | .two => (0.692636, 92.9863)
  | .three => (0.859926, 82.4377)

def v2SecondSegBrakeRunwayTable1 : Conf → ℚ × ℚ
  | .one => (3180, (-0.015997))
  | .two => (3180, (-0.014862))
  | .three => (3180, (-0.019296))

def v2SecondSegBrakeRunwayTable2 : Conf → ℚ × ℚ
  | .one => (3180, (-0.003612))
  | .two => (3180, (-0.007))
  | .three => (3180, (-0.013))

def v2SecondSegBrakeAltFactors : Conf → ℚ × ℚ × ℚ × ℚ
  | .one => ((-0.00000924), (-0.00075879), 0.000546, (-1.075))
  | .two => ((-0.00000387), (-0.0009333), 0.000546, (-1.075))
  | .three => (0.000034, (-0.004043), 0.000468, (-0.778471))

def v2SecondSegBrakeSlopeFactors : Conf → ℚ × ℚ
  | .one => (0.0000571, (-0.008306))
  | .two => (0.0000286, (-0.00415))
  | .three => (0.000001, (-0.000556))

def v2SecondSegBrakeHeadwindFactors : Conf → ℚ
  | .one => 0.2
  | .two => 0.2
  | .three => 0.2

def v2SecondSegBrakeTailwindFactors : Conf → ℚ
  | .one => 0.65
  | .two => 0.5
  | .three => 0.7

def vRSecondSegBrakeBaseTable1 : Conf → ℚ × ℚ
  | .one => (0.701509, 102.667)
  | .two => (0.696402, 100.226)
  | .three => (0.381534, 129.61)

def vRSecondSegBrakeBaseTable2 : Conf → ℚ × ℚ
  | .one => (0.573107, 105.783)
  | .two => (0.932193, 115.336)
  | .three => (0.572407, 105.428)

def vRSecondSegBrakeRunwayTable1 : Conf → ℚ × ℚ × ℚ
  | .one => (3180, (-0.000181), (-0.005195))
  | .two => (3180, (-0.000225), (-0.000596))
  | .three => (3180, 0.000054, (-0.024442))

def vRSecondSegBrakeRunwayTable2 : Conf → ℚ × ℚ × ℚ
  | .one => (3180, 0.004582, (-0.395175))
  | .two => (3180, 0.000351, (-0.03216))
  | .three => (3180, (-0.000263), 0.014135)

def vRSecondSegBrakeAltTable1 : Conf → ℚ × ℚ × ℚ × ℚ
  | .one => ((-0.000034), 0.001018, 0.000154, 0.415385)
  | .two => ((-0.00001), (-0.000253), 0.000328, (-0.24493))
  | .three => (0.000017, (-0.003017), 0.000398, (-0.5117))

def vRSecondSegBrakeAltTable2 : Conf → ℚ × ℚ × ℚ × ℚ
  | .one => (0.000574, (-0.047508), 0.000154, 0.415385)
  | .two => (0.000253, (-0.019907), 0.000328, (-0.24493))
  | .three => (0.000247, (-0.019502), 0.000398, (-0.5117))

def vRSecondSegBrakeSlopeFactors : Conf → ℚ × ℚ
  | .one => (0.000293, (-0.023877))
  | .two => (0.000309, (-0.025884))
  | .three => (0.000049, (-0.005035))

def vRSecondSegBrakeHeadwindFactors : Conf → ℚ × ℚ
  | .one => (0.00668, (-0.30215))
  | .two => (0.015247, (-0.946949))
  | .three => (0.028496, (-1.808403))

def vRSecondSegBrakeTailwindFactors : Conf → ℚ × ℚ
  | .one => (0.014683, (-0.347428))
  | .two => (0.019024, (-0.725293))
  | .three => ((-0.002393), 0.994507)

def v1SecondSegBrakeBaseTable1 : Conf → ℚ × ℚ
  | .one => (0.580888, 111.076)
  | .two => (0.663598, 102.54)
  | .three => (0.112254, 147.272)

def v1SecondSegBrakeBaseTable2 : Conf → ℚ × ℚ
  | .one => (0.460256, 104.849)
  | .two => (0.583566, 84.342)
  | .three => (0.527615, 95.085)

def v1SecondSegBrakeRunwayTable1 : Conf → ℚ × ℚ × ℚ
  | .one => (3180, (-0.000218), (-0.003633))
  | .two => (3180, (-0.000473), 0.015987)
  | .three => (3180, 0.000017, (-0.022792))

def v1SecondSegBrakeRunwayTable2 : Conf → ℚ × ℚ × ℚ
  | .one => (3180, 0.005044, (-0.418865))
  | .two => (3180, 0.00052, (-0.024703))
  | .three => (3180, 0.000688, (-0.048497))

def v1SecondSegBrakeAltTable1 : Conf → ℚ × ℚ × ℚ × ℚ
  | .one => ((-0.000084), 0.00393, 0.000231, 0.123077)
  | .two => ((-0.0000086), (-0.000333), 0.000172, 0.347893)
  | .three => (0.000159, (-0.012122), 0.000382, (-0.452242))

def v1SecondSegBrakeAltTable2 : Conf → ℚ × ℚ × ℚ × ℚ
  | .one => (0.000957, (-0.077197), 0.000231, 0.123077)
  | .two => (0.000354, (-0.025738), 0.000172, 0.347893)
  | .three => (0.000927, (-0.072365), 0.000382, (-0.452242))

def v1SecondSegBrakeSlopeFactors : Conf → ℚ × ℚ
  | .one => (0.00003, (-0.001069))
  | .two => (0.00003, (-0.001069))
  | .three => (0.0000431, (-0.003239))

def v1SecondSegBrakeHeadwindFactors : Conf → ℚ × ℚ
  | .one => (0.019515, (-1.23885))
  | .two => (0.019515, (-1.23886))
  | .three => (0.065846, (-4.365037))

def v1SecondSegBrakeTailwindFactors : Conf → ℚ × ℚ
  | .one => (0.032069, (-1.44))
  | .two => (0.030147, (-1.4286))
  | .three => ((-0.001744), 1.0938)

def tvmcgFactors : Conf → List ((ℚ × ℚ) × ℚ)
  | .one =>
    [((0.06485, (-99.47)), (-15)),
    ((0.9895, (-116.54)), 0),
    ((0.13858, (-171.15)), 10)]
  | .two =>
    [((0.06573, (-102.97)), (-15)),
    ((0.10579, (-132.96)), 0),
    ((0.06575, (-64.4)), 10)]
  | .three =>
    [((0.07002, (-106.62)), (-15)),
    ((0.08804, (-108.42)), 0),
    ((0.07728, (-82.08)), 10)]

def wetTowAdjustmentFactorsAtOrBelowTvmcg : Conf → List ((ℚ × ℚ × ℚ × ℚ) × ℚ)
  | .one =>
    [((0.05498, (-126.98), 0.00903, (-28.35)), (-15)),
    ((0.02391, (-48.94), 0.00043, (-1.64)), 0),
    ((0.01044, (-21.53), 0.00022, (-1.12)), 10)]
  | .two =>
    [((0.03856, (-94.674), 0.00965, (-30.09)), (-15)),
    ((0.02686, (-48.63), (-0.00011), (-0.08)), 0),
    ((0.00057, (-2.94), (-0.00004), (-0.13)), 10)]
  | .three =>
    [((0.01924, (-57.58), 0, 0), (-15)),
    ((0.02184, (-44.91), (-0.00019), 0.1), 0),
    ((0.00057, (-2.94), 0.00047, (-1.6)), 10)]

def wetTowAdjustmentFactorsAboveTvmcg : Conf → List ((ℚ × ℚ × ℚ × ℚ) × ℚ)
  | .one =>
    [((0.0197, (-61.23), 0, 0), (-15)),
    ((0.01887, (-48.47), 0, 0), 0),
    ((0.045, (-86.32), 0, 0), 10)]
  | .two =>
    [((0.01941, (-60.02), 0, 0), (-15)),
    ((0.02797, (-61.99), 0, 0), 0),
    ((0.03129, (-63.61), 0, 0), 10)]
  | .three =>
    [((0.01978, (-61.43), 0, 0), (-15)),
    ((0.02765, (-61.88), 0, 0), 0),
    ((0.03662, (-72.45), 0, 0), 10)]

def wetFlexAdjustmentFactorsAtOrBelowTvmcg : Conf → List ((ℚ × ℚ × ℚ × ℚ) × ℚ)
  | .one =>
    [((0.07933, (-190.57), 0.02074, (-65.05)), (-15)),
    ((0.04331, (-90.86), 0.00098, (-3.88)), 0),
    ((0.0233, (-48.8), 0.00072, (-3.14)), 10)]
  | .two =>
    [((0.029, (-89.9), 0.0099, (-38.42)), (-15)),
    ((0.03845, (-80.2), (-1), 0), 0),
    ((0.00167, (-7.01), 0.000266, (-1.61)), 10)]
  | .three =>
    [((0.03993, (-94.09), 0, 0), (-15)),
    ((0.03845, (-80.2), (-1), 0), 0),
    ((0.00835, (-18.34), (-1), 0), 10)]

def wetFlexAdjustmentFactorsAboveTvmcg : Conf → List ((ℚ × ℚ × ℚ × ℚ) × ℚ)
  | .one =>
    [(((-0.03716), 31.85, 0.08618, (-234.92)), (-15)),
    (((-0.05861), 51.01, 0.04322, (-113.39)), 0),
    ((0.1012, (-195.48), 0, 0), 10)]
  | .two =>
    [(((-0.0285), 19.43, 0.06951, (-193.38)), (-15)),
    (((-0.04698), 37.58, 0.06438, (-139.9)), 0),
    ((0.06159, (-126.56), 0, 0), 10)]
  | .three =>
    [(((-0.0024), 4.25, (-0.02118), 46.2), (-15)),
    (((-0.02645), 9.81, 0.06116, (-131.79)), 0),
    ((0.04841, (-104.22), 0, 0), 10)]

def wetV1AdjustmentFactorsAtOrBelowTvmcg : Conf → List ((ℚ × ℚ × ℚ × ℚ) × ℚ)
  | .one =>
    [((0.01428, (-32.58), 0.00048, (-2.03)), (-15)),
    (((-0.00786), 6.81, 0.00234, (-14.23)), 0),
    (((-0.00246), (-3.68), 0.00145, (-11.32)), 10)]
  | .two =>
    [(((-0.01563), 28.93, (-0.00559), 6.36), (-15)),
    (((-0.00474), 6.98, 0.0024, (-13.2)), 0),
    ((0.00236, (-11.92), 0, 0), 10)]
  | .three =>
    [(((-0.01018), 18.83, 0, 0), (-15)),
    (((-0.00931), 10.01, 0.00017, (-8.5)), 0),
    (((-0.00005), (-7.98), 0, 0), 10)]

def wetV1AdjustmentFactorsAboveTvmcg : Conf → List ((ℚ × ℚ × ℚ × ℚ) × ℚ)
  | .one =>
    [(((-0.00131), 0.91, (-0.02013), 42.56), (-15)),
    ((0.10383, (-169.42), (-0.00529), 6.73), 0),
    (((-0.01594), 21.8, 0, 0), 10)]
  | .two =>
    [(((-0.00789), 15.29, 0, 0), (-15)),
    (((-0.00971), 14, 0, 0), 0),
    (((-0.00684), 8.43, 0, 0), 10)]
  | .three =>
    [(((-0.0024), 4.25, (-0.02118), 46.2), (-15)),
    (((-0.00727), 10.12, 0, 0), 0),
    (((-0.00671), 8.65, (-0.0333), 50.84), 10)]

def wetVRAdjustmentFactorsAtOrBelowTvmcg : Conf → List ((ℚ × ℚ × ℚ × ℚ) × ℚ)
  | .one =>
    [((0.01428, (-32.58), 0.00048, (-2.03)), (-15)),
    ((0.00353, (-7.19), 0.00022, (-0.64)), 0),
    ((0.0022, (-4.14), 0.00053, (-1.54)), 10)]
  | .two =>
    [((0.00693, (-16.96), (-0.00559), 6.36), (-15)),
    ((0.00864, (-17.08), 0, 0), 0),
    ((0, 0, 0, 0), 10)]
  | .three =>
    [((0.00151, (-6.16), 0, 0), (-15)),
    (((-0.00557), (-11.68), (-0.0004), 0.54), 0),
    (((-0.0001), (-0.11), 0, 0), 10)]

def wetV2AdjustmentFactorsAtOrBelowTvmcg : Conf → List ((ℚ × ℚ × ℚ × ℚ) × ℚ)
  | .one =>
    [((0.01936, (-43.79), 0.000483, (-2.03)), (-15)),
    ((0.00353, (-7.19), 0.00022, (-0.64)), 0),
    ((0.0022, (-4.14), 0.00053, (-1.54)), 10)]
  | .two =>
    [((0.01198, (-28.31), 0, 0), (-15)),
    ((0.00864, (-17.08), 0, 0), 0),
    ((0, 0, 0, 0), 10)]
  | .three =>
    [((0.00246, (-8.65), 0, 0), (-15)),
    ((0.00114, (-3.52), 0, 0), 0),
    (((-0.0001), (-0.11), 0, 0), 10)]

def weightCorrectionContaminated6mmWater : Conf → List (ℚ × ℚ)
  | .one =>
    [(97215, 2500),
    (93327, 3000),
    (68051, 3500),
    (6800, 4000)]
  | .two =>
    [(112770, 2000),
    (112770, 2500),
    (100456, 3000)]
  | .three =>
    [(121195, 1750),
    (121195, 2000),
    (112770, 2500)]

def minCorrectedTowContaminated6mmWater : Conf → ℚ
  | .one => 374603
  | .two => 368122
  | .three => 370714

def mtowContaminated6mmWater : Conf → List (ℚ × ℚ)
  | .one =>
    [(308496, 374603),
    (343494, 382380),
    (393397, 393397),
    (512000, 512000)]
  | .two =>
    [(308496, 368122),
    (382380, 382380),
    (512000, 512000)]
  | .three =>
    [(308496, 370714),
    (362937, 382380),
    (387565, 387565),
    (512000, 512000)]

def vSpeedsContaminated6mmWater : Conf → List ((ℚ × ℚ × ℚ) × ℚ)
  | .one =>
    [((122, 125, 127), 308496),
    ((122, 127, 129), 317570),
    ((122, 133, 135), 349975),
    ((122, 139, 141), 382380),
    ((122, 141, 143), 393397),
    ((126, 145, 147), 414785),
    ((132, 151, 153), 447190),
    ((137, 156, 158), 479595),
    ((142, 161, 163), 512000)]
  | .two =>
    [((122, 126, 127), 308496),
    ((122, 128, 129), 317570),
    ((122, 134, 135), 349975),
    ((122, 141, 142), 382380),
    ((127, 146, 147), 414785),
    ((133, 152, 153), 447190),
    ((139, 158, 159), 479595),
    ((144, 163, 164), 512000)]
  | .three =>
    [((122, 126, 126), 308496),
    ((122, 128, 128), 317570),
    ((122, 134, 134), 349975),
    ((122, 140, 140), 382380),
    ((122, 141, 141), 387565),
    ((127, 146, 146), 414785),
    ((133, 152, 152), 447190),
    ((139, 158, 158), 479595),
    ((144, 163, 163), 512000)]

def weightCorrectionContaminated13mmWater : Conf → List (ℚ × ℚ)
  | .one =>
    [(121195, 2500),
    (113418, 3000),
    (88142, 3500),
    (9700, 4000)]
  | .two =>
    [(136101, 2000),
    (134805, 2500),
    (119899, 3000)]
  | .three =>
    [(141934, 1750),
    (141934, 2000),
    (132861, 2500)]

def minCorrectedTowContaminated13mmWater : Conf → ℚ
  | .one => 345438
  | .two => 345438
  | .three => 366177

def mtowContaminated13mmWater : Conf → List (ℚ × ℚ)
  | .one =>
    [(308496, 345438),
    (330532, 349975),
    (355159, 355159),
    (512000, 512000)]
  | .two =>
    [(308496, 345438),
    (330532, 349975),
    (354511, 354511),
    (512000, 512000)]
  | .three =>
    [(308496, 366177),
    (382380, 382380),
    (512000, 512000)]

def vSpeedsContaminated13mmWater : Conf → List ((ℚ × ℚ × ℚ) × ℚ)
  | .one =>
    [((122, 125, 127), 308496),
    ((122, 127, 129), 317570),
    ((122, 133, 135), 349975),
    ((122, 134, 136), 355159),
    ((127, 139, 141), 382380),
    ((133, 145, 147), 414785),
    ((132, 151, 153), 447190),
    ((144, 156, 158), 479595),
    ((149, 161, 163), 512000)]
  | .two =>
    [((122, 126, 127), 308496),
    ((122, 128, 129), 317570),
    ((122, 134, 135), 349975),
    ((122, 135, 136), 354511),
    ((128, 141, 142), 382380),
    ((133, 146, 147), 414785),
    ((139, 152, 153), 447190),
    ((145, 158, 159), 479595),
    ((150, 163, 164), 512000)]
  | .three =>
    [((122, 126, 126), 308496),
    ((122, 128, 128), 317570),
    ((122, 134, 134), 349975),
    ((122, 140, 140), 382380),
    ((128, 146, 146), 414785),
    ((134, 152, 152), 447190),
    ((140, 158, 158), 479595),
    ((145, 163, 163), 512000)]

def weightCorrectionContaminated6mmSlush : Conf → List (ℚ × ℚ)
  | .one =>
    [(99808, 2500),
    (92030, 3000),
    (67403, 3500),
    (6600, 4000)]
  | .two =>
    [(116010, 2000),
    (115362, 2500),
    (100456, 3000)]
  | .three =>
    [(124435, 1750),
    (123139, 2000),
    (111473, 2500)]

def minCorrectedTowContaminated6mmSlush : Conf → ℚ
  | .one => 370714
  | .two => 364233
  | .three => 345438

def mtowContaminated6mmSlush : Conf → List (ℚ × ℚ)
  | .one =>
    [(308496, 370714),
    (362937, 382380),
    (387565, 387565),
    (512000, 512000)]
  | .two =>
    [(308496, 364233),
    (362937, 382380),
    (512000, 512000)]
  | .three =>
    [(308496, 345438),
    (330532, 349975),
    (355159, 355159),
    (512000, 512000)]

def vSpeedsContaminated6mmSlush : Conf → List ((ℚ × ℚ × ℚ) × ℚ)
  | .one =>
    [((122, 125, 127), 308496),
    ((122, 127, 129), 317570),
    ((122, 133, 135), 349975),
    ((127, 139, 141), 382380),
    ((127, 140, 142), 387565),
    ((127, 145, 147), 414785),
    ((133, 151, 153), 447190),
    ((138, 156, 158), 479595),
    ((143, 161, 163), 512000)]
  | .two =>
    [((122, 126, 127), 308496),
    ((122, 128, 129), 317570),
    ((122, 134, 135), 349975),
    ((122, 140, 141), 377843),
    ((123, 141, 142), 382380),
    ((128, 146, 147), 414785),
    ((134, 152, 153), 447190),
    ((140, 158, 159), 479595),
    ((145, 163, 164), 512000)]
  | .three =>
    [((122, 126, 126), 308496),
    ((122, 128, 128), 317570),
    ((122, 134, 134), 349975),
    ((122, 135, 135), 355159),
    ((127, 140, 140), 382380),
    ((133, 146, 146), 414785),
    ((139, 152, 152), 447190),
    ((145, 158, 158), 479595),
    ((150, 163, 163), 512000)]

def weightCorrectionContaminated13mmSlush : Conf → List (ℚ × ℚ)
  | .one =>
    [(125732, 2500),
    (115362, 3000),
    (88790, 3500),
    (10000, 4000)]
  | .two =>
    [(142582, 2000),
    (139990, 2500),
    (121843, 3000)]
  | .three =>
    [(117954, 1750),
    (146471, 2000),
    (135453, 2500)]

def minCorrectedTowContaminated13mmSlush : Conf → ℚ
  | .one => 340901
  | .two => 337013
  | .three => 337013

def mtowContaminated13mmSlush : Conf → List (ℚ × ℚ)
  | .one =>
    [(308496, 340901),
    (349975, 349975),
    (512000, 512000)]
  | .two =>
    [(308496, 337013),
    (344790, 344790),
    (512000, 512000)]
  | .three =>
    [(308496, 337013),
    (344790, 344790),
    (512000, 512000)]

def vSpeedsContaminated13mmSlush : Conf → List ((ℚ × ℚ × ℚ) × ℚ)
  | .one =>
    [((122, 126, 127), 308496),
    ((122, 128, 129), 317570),
    ((122, 134, 135), 349975),
    ((128, 140, 141), 382380),
    ((134, 146, 147), 414785),
    ((140, 152, 153), 447190),
    ((145, 157, 158), 479595),
    ((150, 162, 163), 512000)]
  | .two =>
    [((122, 126, 127), 308496),
    ((122, 128, 129), 317570),
    ((122, 133, 134), 344790),
    ((123, 134, 135), 349975),
    ((130, 141, 142), 382380),
    ((135, 146, 147), 414785),
    ((141, 152, 153), 447190),
    ((147, 158, 159), 479595),
    ((152, 163, 164), 512000)]
  | .three =>
    [((122, 126, 126), 308496),
    ((122, 128, 128), 317570),
    ((122, 133, 133), 344790),
    ((123, 134, 134), 349975),
    ((129, 140, 140), 382380),
    ((135, 146, 146), 414785),
    ((141, 152, 152), 447190),
    ((147, 158, 158), 479595),
    ((152, 163, 163), 512000)]

def weightCorrectionContaminatedCompactedSnow : Conf → List (ℚ × ℚ)
  | .one =>
    [(66106, 2500),
    (9000, 3000),
    (4700, 3500),
    (3000, 4000)]
  | .two =>
    [(86197, 2000),
    (82309, 2500),
    (66754, 3000)]
  | .three =>
    [(97863, 1750),
    (95919, 2000),
    (82309, 2500)]

def minCorrectedTowContaminatedCompactedSnow : Conf → ℚ
  | .one => 370714
  | .two => 364233
  | .three => 366177

def mtowContaminatedCompactedSnow : Conf → List (ℚ × ℚ)
  | .one =>
    [(308496, 370714),
    (362937, 382380),
    (387565, 387565),
    (512000, 512000)]
  | .two =>
    [(308496, 364233),
    (377843, 377843),
    (512000, 512000)]
  | .three =>
    [(308496, 366177),
    (382380, 382380),
    (512000, 512000)]

def vSpeedsContaminatedCompactedSnow : Conf → List ((ℚ × ℚ × ℚ) × ℚ)
  | .one =>
    [((122, 126, 127), 308496),
    ((122, 128, 129), 317570),
    ((122, 134, 135), 349975),
    ((122, 140, 141), 382380),
    ((122, 141, 142), 387565),
    ((127, 146, 147), 414785),
    ((133, 152, 153), 447190),
    ((138, 157, 158), 479595),
    ((143, 162, 163), 512000)]
  | .two =>
    [((122, 126, 127), 308496),
    ((122, 128, 129), 317570),
    ((122, 134, 135), 349975),
    ((122, 140, 141), 377843),
    ((123, 141, 142), 382380),
    ((128, 146, 147), 414785),
    ((134, 152, 153), 447190),
    ((140, 158, 159), 479595),
    ((145, 163, 164), 512000)]
  | .three =>
    [((122, 126, 126), 308496),
    ((122, 128, 128), 317570),
    ((122, 134, 134), 349975),
    ((122, 140, 140), 382380),
    ((128, 146, 146), 414785),
    ((134, 152, 152), 447190),
    ((140, 158, 158), 479595),
    ((145, 163, 163), 512000)]

def weightCorrectionContaminated5mmWetSnow : Conf → List (ℚ × ℚ)
  | .one =>
    [(73884, 2500),
    (68051, 3000),
    (6000, 3500),
    (3000, 4000)]
  | .two =>
    [(97215, 2000),
    (92030, 2500),
    (77124, 3000)]
  | .three =>
    [(113418, 1750),
    (110825, 2000),
    (92678, 2500)]

def minCorrectedTowContaminated5mmWetSnow : Conf → ℚ
  | .one => 366177
  | .two => 372010
  | .three => 374603

def mtowContaminated5mmWetSnow : Conf → List (ℚ × ℚ)
  | .one =>
    [(308496, 366177),
    (382380, 382380),
    (512000, 512000)]
  | .two =>
    [(308496, 372010),
    (362937, 382380),
    (388861, 388861),
    (512000, 512000)]
  | .three =>
    [(308496, 374603),
    (343494, 382380),
    (393397, 393397),
    (512000, 512000)]

def vSpeedsContaminated5mmWetSnow : Conf → List ((ℚ × ℚ × ℚ) × ℚ)
  | .one =>
    [((122, 126, 127), 308496),
    ((122, 128, 129), 317570),
    ((122, 134, 135), 349975),
    ((122, 140, 141), 382380),
    ((128, 146, 147), 414785),
    ((134, 152, 153), 447190),
    ((139, 157, 158), 479595),
    ((144, 162, 163), 512000)]
  | .two =>
    [((122, 126, 127), 308496),
    ((122, 128, 129), 317570),
    ((122, 134, 135), 349975),
    ((122, 141, 142), 382380),
    ((122, 142, 143), 388861),
    ((126, 146, 147), 414785),
    ((132, 152, 153), 447190),
    ((138, 158, 159), 479595),
    ((143, 163, 164), 512000)]
  | .three =>
    [((122, 126, 126), 308496),
    ((122, 128, 128), 317570),
    ((122, 134, 134), 349975),
    ((122, 140, 140), 382380),
    ((122, 142, 142), 393397),
    ((126, 146, 146), 414785),
    ((132, 152, 152), 447190),
    ((138, 158, 158), 479595),
    ((143, 163, 163), 512000)]

def weightCorrectionContaminated15mmWetSnow : Conf → List (ℚ × ℚ)
  | .one =>
    [(105641, 2500),
    (96567, 3000),
    (70643, 3500),
    (7100, 4000)]
  | .two =>
    [(123139, 2000),
    (121195, 2500),
    (104344, 3000)]
  | .three =>
    [(130916, 1750),
    (129620, 2000),
    (117306, 2500)]

def minCorrectedTowContaminated15mmWetSnow : Conf → ℚ
  | .one => 349327
  | .two => 345438
  | .three => 345438

def mtowContaminated15mmWetSnow : Conf → List (ℚ × ℚ)
  | .one =>
    [(308496, 349327),
    (311089, 349975),
    (360992, 360992),
    (512000, 512000)]
  | .two =>
    [(308496, 345438),
    (330532, 349975),
    (354511, 354511),
    (512000, 512000)]
  | .three =>
    [(308496, 345438),
    (330532, 349975),
    (355159, 355159),
    (512000, 512000)]

def vSpeedsContaminated15mmWetSnow : Conf → List ((ℚ × ℚ × ℚ) × ℚ)
  | .one =>
    [((122, 126, 127), 308496),
    ((122, 128, 129), 317570),
    ((122, 134, 135), 349975),
    ((122, 136, 137), 360992),
    ((126, 140, 141), 382380),
    ((132, 146, 147), 414785),
    ((138, 152, 153), 447190),
    ((143, 157, 158), 479595),
    ((148, 162, 163), 512000)]
  | .two =>
    [((122, 126, 127), 308496),
    ((122, 128, 129), 317570),
    ((122, 134, 135), 349975),
    ((122, 135, 136), 354511),
    ((128, 141, 142), 382380),
    ((133, 146, 147), 414785),
    ((139, 152, 153), 447190),
    ((145, 158, 159), 479595),
    ((150, 163, 164), 512000)]
  | .three =>
    [((122, 126, 126), 308496),
    ((122, 128, 128), 317570),
    ((122, 134, 134), 349975),
    ((122, 135, 135), 355159),
    ((127, 140, 140), 382380),
    ((133, 146, 146), 414785),
    ((139, 152, 152), 447190),
    ((145, 158, 158), 479595),
    ((150, 163, 163), 512000)]

def weightCorrectionContaminated30mmWetSnow : Conf → List (ℚ × ℚ)
  | .one =>
    [(149063, 2500),
    (136749, 3000),
    (124435, 3500),
    (124435, 4000)]
  | .two =>
    [(160081, 2000),
    (158137, 2500),
    (145175, 3000)]
  | .three =>
    [(163322, 1750),
    (162025, 2000),
    (153600, 2500)]

def minCorrectedTowContaminated30mmWetSnow : Conf → ℚ
  | .one => 311737
  | .two => 308496
  | .three => 308496

def mtowContaminated30mmWetSnow : Conf → List (ℚ × ℚ)
  | .one =>
    [(308496, 311737),
    (313033, 313033),
    (512000, 512000)]
  | .two =>
    [(308496, 308496),
    (512000, 512000)]
  | .three =>
    [(308496, 308496),
    (512000, 512000)]

def vSpeedsContaminated30mmWetSnow : Conf → List ((ℚ × ℚ × ℚ) × ℚ)
  | .one =>
    [((122, 126, 127), 308496),
    ((122, 127, 128), 313033),
    ((123, 128, 129), 317570),
    ((130, 134, 135), 349975),
    ((137, 141, 142), 382380),
    ((142, 146, 147), 414785),
    ((148, 152, 153), 447190),
    ((154, 158, 159), 479595),
    ((159, 163, 164), 512000)]
  | .two =>
    [((122, 126, 127), 308496),
    ((124, 128, 129), 317570),
    ((130, 134, 135), 349975),
    ((137, 141, 142), 382380),
    ((142, 146, 147), 414785),
    ((148, 152, 153), 447190),
    ((154, 158, 159), 479595),
    ((159, 163, 164), 512000)]
  | .three =>
    [((122, 126, 126), 308496),
    ((124, 128, 128), 317570),
    ((130, 134, 134), 349975),
    ((136, 140, 140), 382380),
    ((142, 146, 146), 414785),
    ((148, 152, 152), 447190),
    ((154, 158, 158), 479595),
    ((159, 163, 163), 512000)]

def weightCorrectionContaminated10mmDrySnow : Conf → List (ℚ × ℚ)
  | .one =>
    [(73884, 2500),
    (68051, 3000),
    (6000, 3500),
    (3000, 4000)]
  | .two =>
    [(97215, 2000),
    (92030, 2500),
    (76476, 3000)]
  | .three =>
    [(113418, 1750),
    (110825, 2000),
    (92678, 2500)]

def minCorrectedTowContaminated10mmDrySnow : Conf → ℚ
  | .one => 366177
  | .two => 372010
  | .three => 374603

def mtowContaminated10mmDrySnow : Conf → List (ℚ × ℚ)
  | .one =>
    [(308496, 366177),
    (382380, 382380),
    (512000, 512000)]
  | .two =>
    [(308496, 372010),
    (362937, 382380),
    (388861, 388861),
    (512000, 512000)]
  | .three =>
    [(308496, 374603),
    (343494, 382380),
    (393397, 393397),
    (512000, 512000)]

def vSpeedsContaminated10mmDrySnow : Conf → List ((ℚ × ℚ × ℚ) × ℚ)
  | .one =>
    [((122, 126, 127), 308496),
    ((122, 128, 129), 317570),
    ((122, 134, 135), 349975),
    ((122, 140, 141), 382380),
    ((128, 146, 147), 414785),
    ((134, 152, 153), 447190),
    ((139, 157, 158), 479595),
    ((144, 162, 163), 512000)]
  | .two =>
    [((122, 126, 127), 308496),
    ((122, 128, 129), 317570),
    ((122, 134, 135), 349975),
    ((122, 141, 142), 382380),
    ((122, 142, 143), 388861),
    ((126, 146, 147), 414785),
    ((132, 152, 153), 447190),
    ((138, 158, 159), 479595),
    ((143, 163, 164), 512000)]
  | .three =>
    [((122, 126, 126), 308496),
    ((122, 128, 128), 317570),
    ((122, 134, 134), 349975),
    ((122, 140, 140), 382380),
    ((122, 142, 142), 393397),
    ((126, 146, 146), 414785),
    ((132, 152, 152), 447190),
    ((138, 158, 158), 479595),
    ((143, 163, 163), 512000)]

def weightCorrectionContaminated100mmDrySnow : Conf → List (ℚ × ℚ)
  | .one =>
    [(125084, 2500),
    (127028, 3000),
    (113418, 3500),
    (102400, 4000)]
  | .two =>
    [(136749, 2000),
    (142582, 2500),
    (138694, 3000)]
  | .three =>
    [(143230, 1750),
    (144527, 2000),
    (141286, 2500)]

def minCorrectedTowContaminated100mmDrySnow : Conf → ℚ
  | .one => 315625
  | .two => 313033
  | .three => 315625

def mtowContaminated100mmDrySnow : Conf → List (ℚ × ℚ)
  | .one =>
    [(308496, 315625),
    (317570, 317570),
    (512000, 512000)]
  | .two =>
    [(308496, 311737),
    (313033, 313033),
    (512000, 512000)]
  | .three =>
    [(308496, 315625),
    (317570, 317570),
    (512000, 512000)]

def vSpeedsContaminated100mmDrySnow : Conf → List ((ℚ × ℚ × ℚ) × ℚ)
  | .one =>
    [((122, 126, 127), 308496),
    ((122, 128, 129), 317570),
    ((128, 134, 135), 349975),
    ((134, 140, 141), 382380),
    ((140, 146, 147), 414785),
    ((146, 152, 153), 447190),
    ((151, 157, 158), 479595),
    ((156, 162, 163), 512000)]
  | .two =>
    [((122, 126, 127), 308496),
    ((122, 127, 128), 313033),
    ((123, 128, 129), 317570),
    ((129, 134, 135), 349975),
    ((136, 141, 142), 382380),
    ((141, 146, 147), 414785),
    ((147, 152, 153), 447190),
    ((153, 158, 159), 479595),
    ((158, 163, 164), 512000)]
  | .three =>
    [((122, 126, 126), 308496),
    ((122, 128, 128), 317570),
    ((128, 134, 134), 349975),
    ((134, 140, 140), 382380),
    ((140, 146, 146), 414785),
    ((146, 152, 152), 447190),
    ((152, 158, 158), 479595),
    ((157, 163, 163), 512000)]

/-! ## Engine constants (public readonly fields of the calculator class) -/

def structuralMtow : ℚ := 512000

def maxPressureAlt : ℚ := 9200

def oew : ℚ := 275443

def maxHeadwind : ℚ := 45

def maxTailwind : ℚ := 15

/-! ## Derived parameters -/

/-- `calculateIsaTemp`. -/
def calculateIsaTemp (elevation : ℚ) : ℚ := 15 - elevation * 0.0019812

/-- `calculateTref`. -/
def calculateTref (elevation : ℚ) : ℚ := lerpGet tRefTable elevation

/-- The factor `(qnh / 1013.25) ** 0.190263` of `calculatePressureAltitude`.
The source computes a JS floating-point power, a transcendental function with no
exact rational embedding; it is modelled here by its first-order expansion around
the standard-pressure ratio `1`, where the two agree exactly (every concrete
evaluation in this file uses `qnh = 1013.25`, i.e. ratio `1`; the universal
theorems below do not depend on the values of this function). -/
def qnhPowTerm (ratio : ℚ) : ℚ := 1 + 0.190263 * (ratio - 1)

/-- `calculatePressureAltitude`. -/
def calculatePressureAltitude (elevation qnh : ℚ) : ℚ :=
  elevation + 145442.15 * (1 - qnhPowTerm (qnh / 1013.25))

/-- `calculateTmax`. -/
def calculateTmax (pressureAlt : ℚ) : ℚ := lerpGet tMaxTable pressureAlt

/-- `calculateTflexMax`. -/
def calculateTflexMax (isa : ℚ) : ℚ := isa + tMaxFlexDisa

/-- `computeParams`: the `result.params` record assembled at the top of
`calculateTakeoffPerformance` (headwind credit is limited to 45 knots). -/
def computeParams (inputs : TakeoffPerformanceInputs) : TakeoffPerformanceParameters :=
  let isaTemp := calculateIsaTemp inputs.elevation
  let tRef := calculateTref inputs.elevation
  let pressureAlt := calculatePressureAltitude inputs.elevation inputs.qnh
  let tMax := calculateTmax pressureAlt
  let tFlexMax := calculateTflexMax isaTemp
  let headwind := min maxHeadwind inputs.wind
  { adjustedTora := inputs.tora - lineUpDistances inputs.lineupAngle
    pressureAlt := pressureAlt
    isaTemp := isaTemp
    tRef := tRef
    tMax := tMax
    tFlexMax := tFlexMax
    headwind := headwind
    flexLimitingFactor := Option.none }

/-! ## Input validation -/

/-- `isCgWithinLimits`. -/
def isCgWithinLimits (cg tow : ℚ) : Bool :=
  let cgLimits := lerpGetVec2 takeoffCgLimits tow
  decide (cgLimits.1 ≤ cg) && decide (cg ≤ cgLimits.2)

/-- The source condition `inputs.cg !== undefined && !this.isCgWithinLimits(...)`. -/
def cgSuppliedAndOutOfLimits (cg : Option ℚ) (tow : ℚ) : Bool :=
  match cg with
  | some c => !(isCgWithinLimits c tow)
  | Option.none => false

/-- `checkInputs`. -/
def checkInputs (inputs : TakeoffPerformanceInputs) (params : TakeoffPerformanceParameters) :
    TakeoffPerfomanceError :=
  if inputs.conf ≠ 1 ∧ inputs.conf ≠ 2 ∧ inputs.conf ≠ 3 then .invalidData
  else if structuralMtow < inputs.tow then .structuralMtow
  else if maxPressureAlt < params.pressureAlt then .maximumPressureAlt
  else if params.tMax < inputs.oat then .maximumTemperature
  else if inputs.tow < oew then .operatingEmptyWeight
  else if cgSuppliedAndOutOfLimits inputs.cg inputs.tow then .cgOutOfLimits
  else if inputs.wind < -maxTailwind then .maximumTailwind
  else if 2 < |inputs.slope| then .maximumRunwaySlope
  else .none

/-- `isContaminated`. -/
def isContaminated (runwayCondition : RunwayCondition) : Bool :=
  decide (runwayCondition ≠ RunwayCondition.dry) && decide (runwayCondition ≠ RunwayCondition.wet)

/-- The raw JS configuration number resolved to a `Conf` (the source keeps using
the number as a record key; `checkInputs` guarantees it is 1, 2, or 3 on every
path that reaches a table access). -/
def confOf (conf : ℚ) : Option Conf :=
  if conf = 1 then some .one
  else if conf = 2 then some .two
  else if conf = 3 then some .three
  else Option.none

/-! ## Weight-limit pipeline -/

/-- `calculateBaseRunwayPerfLimit` (the source's `default: return NaN` branch is
unreachable here because `Conf` is already validated). -/
def calculateBaseRunwayPerfLimit (length : ℚ) (conf : Conf) : ℚ :=
  match conf with
  | .one => lerpGet runwayPerfLimitConf1 length
  | .two => lerpGet runwayPerfLimitConf2 length
  | .three => lerpGet runwayPerfLimitConf3 length

/-- `calculateBaseLimit`. -/
def calculateBaseLimit (length : ℚ) (conf : Conf) (factors : Conf → ℚ × ℚ) : ℚ :=
  let (factor1, factor2) := factors conf
  1000 * (length * factor1 + factor2)

/-- `calculateRunwayTempDelta` (returns `NaN` above the flex envelope, modelled as
`Option.none`). -/
def calculateRunwayTempDelta (temp : ℚ) (conf : Conf)
    (tRef tMax tFlexMax runwayLength pressureAlt isaTemp : ℚ) : Option ℚ :=
  if tFlexMax < temp then Option.none
  else
    let (t0, t1, t2, t3, t4, t5) := runwayTemperatureFactor conf
    let runwayAltFactor := runwayLength - pressureAlt / 12
    let weightDelta := 1000 * (runwayAltFactor * t0 + t1) * (min temp tRef - isaTemp)
    let weightDelta := weightDelta +
      (if tRef < temp then 1000 * (runwayAltFactor * t2 + t3) * (min temp tMax - tRef) else 0)
    let weightDelta := weightDelta +
      (if tMax < temp then 1000 * (runwayAltFactor * t4 + t5) * (temp - tMax) else 0)
    some weightDelta

/-- `calculateSecondSegmentTempDelta`. -/
def calculateSecondSegmentTempDelta (temp : ℚ) (conf : Conf)
    (tRef tMax tFlexMax runwayLength pressureAlt isaTemp : ℚ) : Option ℚ :=
  if tFlexMax < temp then Option.none
  else
    let (t0, t1, t2, t3, t4, t5) := secondSegmentTemperatureFactor conf
    let weightDelta :=
      1000 * ((runwayLength - pressureAlt / 5) * t0 + t1) * (min temp tRef - isaTemp)
    let weightDelta := weightDelta +
      (if tRef < temp then
        1000 * ((runwayLength - pressureAlt / 5) * t2 + t3) * (min temp tMax - tRef) else 0)
    let weightDelta := weightDelta +
      (if tMax < temp then 1000 * ((runwayLength - pressureAlt / 5) * t4 + t5) * (temp - tMax) else 0)
    some weightDelta

/-- `calculateBrakeEnergyTempDelta` (no correction above Tmax). -/
def calculateBrakeEnergyTempDelta (temp : ℚ) (conf : Conf)
    (tRef tMax tFlexMax runwayLength pressureAlt isaTemp : ℚ) : Option ℚ :=
  if tFlexMax < temp then Option.none
  else
    let (t0, t1) := brakeEnergyTemperatureFactor conf
    let weightDelta := 1000 * t0 * (min temp tRef - isaTemp)
    let weightDelta := weightDelta +
      (if tRef < temp then 1000 * t1 * (min temp tMax - tRef) else 0)
    some weightDelta

/-- `calculateVmcgTempDelta`. -/
def calculateVmcgTempDelta (temp : ℚ) (conf : Conf)
    (tRef tMax tFlexMax runwayLength pressureAlt isaTemp : ℚ) : Option ℚ :=
  if tFlexMax < temp then Option.none
  else
    let (t0, t1, t2, t3, t4, t5) := vmcgTemperatureFactor conf
    let weightDelta := 1000 * (runwayLength * t0 + t1) * (min temp tRef - isaTemp)
    let weightDelta := weightDelta +
      (if tRef < temp then 1000 * (runwayLength * t2 + t3) * (min temp tMax - tRef) else 0)
    let weightDelta := weightDelta +
      (if tMax < temp then 1000 * (runwayLength * t4 + t5) * (temp - tMax) else 0)
    some weightDelta

/-- `calculateRunwayWindDelta` (with the sign-consistency guard near the table
edges: a delta with the same sign as the wind is discarded). -/
def calculateRunwayWindDelta (temp : ℚ) (conf : Conf)
    (isaTemp tRef tMax tFlexMax runwayLength wind : ℚ) : Option ℚ :=
  if tFlexMax < temp then Option.none
  else
    let (w0, w1, w2, w3) :=
      if 0 ≤ wind then runwayHeadWindFactor conf else runwayTailWindFactor conf
    let weightDelta := 1000 * (runwayLength * w0 + w1) * wind
    let weightDelta := weightDelta +
      (if tRef < temp then 1000 * w2 * wind * (min temp tMax - tRef) else 0)
    let weightDelta := weightDelta +
      (if tMax < temp then 1000 * w3 * wind * (temp - tMax) else 0)
    if jsSign weightDelta = jsSign wind then some 0 else some weightDelta

/-- `calculateSecondSegmentWindDelta`. -/
def calculateSecondSegmentWindDelta (temp : ℚ) (conf : Conf)
    (isaTemp tRef tMax tFlexMax runwayLength wind : ℚ) : Option ℚ :=
  if tFlexMax < temp then Option.none
  else
    let (w0, w1, w2, w3) :=
      if 0 ≤ wind then secondSegmentHeadWindFactor conf else secondSegmentTailWindFactor conf
    let weightDelta := 1000 * (runwayLength * w0 + w1) * wind
    let weightDelta := weightDelta +
      (if tRef < temp then 1000 * w2 * wind * (min temp tMax - tRef) else 0)
    let weightDelta := weightDelta +
      (if tMax < temp then 1000 * w3 * wind * (temp - tMax) else 0)
    if jsSign weightDelta = jsSign wind then some 0 else some weightDelta

/-- `calculateBrakeEnergyWindDelta`. -/
def calculateBrakeEnergyWindDelta (temp : ℚ) (conf : Conf)
    (isaTemp tRef tMax tFlexMax runwayLength wind : ℚ) : Option ℚ :=
  if tFlexMax < temp then Option.none
  else
    let (w0, w1, w2, w3) :=
      if 0 ≤ wind then brakeEnergyHeadWindFactor conf else brakeEnergyTailWindFactor conf
    let weightDelta := 1000 * (runwayLength * w0 + w1) * wind
    let weightDelta := weightDelta +
      (if tRef < temp then 1000 * w2 * wind * (min temp tMax - tRef) else 0)
    let weightDelta := weightDelta +
      (if tMax < temp then 1000 * w3 * wind * (temp - tMax) else 0)
    if jsSign weightDelta = jsSign wind then some 0 else some weightDelta

/-- `calculateVmcgWindDelta` (note the asymmetry of the source: the headwind arm
adds its last segment for `temp >= tMax`, the tailwind arm for `temp > tMax`). -/
def calculateVmcgWindDelta (temp : ℚ) (conf : Conf)
    (isaTemp tRef tMax tFlexMax runwayLength wind : ℚ) : Option ℚ :=
  if tFlexMax < temp then Option.none
  else
    let weightDelta :=
      if 0 ≤ wind then
        let (w0, w1, w2, w3, w4, w5, w6, w7) := vmcgHeadWindFactor conf
        let d := 1000 * (runwayLength * w0 + w1) * wind
        let d := d +
          (if isaTemp < temp then
            1000 * (runwayLength * w2 + w3) * wind * (min temp tRef - isaTemp) else 0)
        let d := d +
          (if tRef < temp then
            1000 * (runwayLength * w4 + w5) * wind * (min temp tMax - tRef) else 0)
        let d := d +
          (if tMax ≤ temp then 1000 * (runwayLength * w6 + w7) * wind * (temp - tMax) else 0)
        d
      else
        let (w0, w1, w2, w3, w4, w5) := vmcgTailWindFactor conf
        let d := 1000 * (runwayLength * w0 + w1) * wind
        let d := d +
          (if isaTemp < temp then
            1000 * (runwayLength * w2 + w3) * wind * (min temp tRef - isaTemp) else 0)
        let d := d +
          (if tRef < temp then 1000 * w4 * wind * (min temp tMax - tRef) else 0)
        let d := d +
          (if tMax < temp then 1000 * w5 * wind * (temp - tMax) else 0)
        d
    if jsSign weightDelta = jsSign wind then some 0 else some weightDelta

/-- The per-factor temperature-delta dispatch of `calculateWeightLimits`. -/
def tempDeltaFor (factor : LimitingFactor) (temp : ℚ) (conf : Conf)
    (params : TakeoffPerformanceParameters) : Option ℚ :=
  match factor with
  | .runway => calculateRunwayTempDelta temp conf params.tRef params.tMax params.tFlexMax
      params.adjustedTora params.pressureAlt params.isaTemp
  | .secondSegment => calculateSecondSegmentTempDelta temp conf params.tRef params.tMax
      params.tFlexMax params.adjustedTora params.pressureAlt params.isaTemp
  | .brakeEnergy => calculateBrakeEnergyTempDelta temp conf params.tRef params.tMax
      params.tFlexMax params.adjustedTora params.pressureAlt params.isaTemp
  | .vmcg => calculateVmcgTempDelta temp conf params.tRef params.tMax params.tFlexMax
      params.adjustedTora params.pressureAlt params.isaTemp

/-- The per-factor wind-delta dispatch of `calculateWeightLimits`. -/
def windDeltaFor (factor : LimitingFactor) (temp : ℚ) (conf : Conf)
    (params : TakeoffPerformanceParameters) : Option ℚ :=
  match factor with
  | .runway => calculateRunwayWindDelta temp conf params.isaTemp params.tRef params.tMax
      params.tFlexMax params.adjustedTora params.headwind
  | .secondSegment => calculateSecondSegmentWindDelta temp conf params.isaTemp params.tRef
      params.tMax params.tFlexMax params.adjustedTora params.headwind
  | .brakeEnergy => calculateBrakeEnergyWindDelta temp conf params.isaTemp params.tRef
      params.tMax params.tFlexMax params.adjustedTora params.headwind
  | .vmcg => calculateVmcgWindDelta temp conf params.isaTemp params.tRef params.tMax
      params.tFlexMax params.adjustedTora params.headwind

/-- The bleed deduction of `calculateWeightLimits` (+1600 kg wing anti-ice,
+1500 kg packs). -/
def deltaBleedOf (inputs : TakeoffPerformanceInputs) : ℚ :=
  (if inputs.antiIce = TakeoffAntiIceSetting.engineWing then 1600 else 0) +
    (if inputs.packs then 1500 else 0)

/-- `calculateWeightLimits` for one limiting factor. -/
def calculateWeightLimits (factor : LimitingFactor) (inputs : TakeoffPerformanceInputs)
    (params : TakeoffPerformanceParameters) (conf : Conf) : LimitWeight :=
  let slopeFactor :=
    match factor with
    | .runway => runwaySlopeFactor conf
    | .secondSegment => secondSegmentSlopeFactor conf
    | .brakeEnergy => brakeEnergySlopeFactor conf
    | .vmcg => vmcgSlopeFactor conf
  let altFactors :=
    match factor with
    | .runway => runwayPressureAltFactor conf
    | .secondSegment => secondSegmentPressureAltFactor conf
    | .brakeEnergy => brakeEnergyPressureAltFactor conf
    | .vmcg => vmcgPressureAltFactor conf
  let baseLimit :=
    match factor with
    | .runway => calculateBaseRunwayPerfLimit params.adjustedTora conf
    | .secondSegment => calculateBaseLimit params.adjustedTora conf secondSegmentBaseFactor
    | .brakeEnergy => calculateBaseLimit params.adjustedTora conf brakeEnergyBaseFactor
    | .vmcg => calculateBaseLimit params.adjustedTora conf vmcgBaseFactor
  -- correction for runway slope (downhill = increased weight limit)
  let deltaSlope := 1000 * slopeFactor * params.adjustedTora * inputs.slope
  let slopeLimit := baseLimit - deltaSlope
  -- correction for pressure altitude
  let (altFactor1, altFactor2) := altFactors
  let deltaAlt := 1000 * params.pressureAlt * (params.pressureAlt * altFactor1 + altFactor2)
  let altLimit := slopeLimit - deltaAlt
  -- correction for bleeds
  let deltaBleed := deltaBleedOf inputs
  -- correction for air temperature and wind, at the four reference temperatures
  let oatDeltaTemp := tempDeltaFor factor inputs.oat conf params
  let oatDeltaWind := windDeltaFor factor inputs.oat conf params
  let oatLimitNoBleed := oSub (oSub (some altLimit) oatDeltaTemp) oatDeltaWind
  let oatLimit := oSub oatLimitNoBleed (some deltaBleed)
  let tRefDeltaTemp := tempDeltaFor factor params.tRef conf params
  let tRefDeltaWind := windDeltaFor factor params.tRef conf params
  let tRefLimitNoBleed := oSub (oSub (some altLimit) tRefDeltaTemp) tRefDeltaWind
  let tRefLimit := oSub tRefLimitNoBleed (some deltaBleed)
  let tMaxDeltaTemp := tempDeltaFor factor params.tMax conf params
  let tMaxDeltaWind := windDeltaFor factor params.tMax conf params
  let tMaxLimitNoBleed := oSub (oSub (some altLimit) tMaxDeltaTemp) tMaxDeltaWind
  let tMaxLimit := oSub tMaxLimitNoBleed (some deltaBleed)
  let tFlexMaxDeltaTemp := tempDeltaFor factor params.tFlexMax conf params
  let tFlexMaxDeltaWind := windDeltaFor factor params.tFlexMax conf params
  let tFlexMaxLimitNoBleed := oSub (oSub (some altLimit) tFlexMaxDeltaTemp) tFlexMaxDeltaWind
  let tFlexMaxLimit := oSub tFlexMaxLimitNoBleed (some deltaBleed)
  { baseLimit := baseLimit
    deltaSlope := deltaSlope
    slopeLimit := slopeLimit
    deltaAlt := deltaAlt
    altLimit := altLimit
    oatDeltaTemp := oatDeltaTemp
    oatDeltaWind := oatDeltaWind
    oatLimitNoBleed := oatLimitNoBleed
    oatLimit := oatLimit
    tRefDeltaTemp := tRefDeltaTemp
    tRefDeltaWind := tRefDeltaWind
    tRefLimitNoBleed := tRefLimitNoBleed
    tRefLimit := tRefLimit
    tMaxDeltaTemp := tMaxDeltaTemp
    tMaxDeltaWind := tMaxDeltaWind
    tMaxLimitNoBleed := tMaxLimitNoBleed
    tMaxLimit := tMaxLimit
    tFlexMaxDeltaTemp := tFlexMaxDeltaTemp
    tFlexMaxDeltaWind := tFlexMaxDeltaWind
    tFlexMaxLimitNoBleed := tFlexMaxLimitNoBleed
    tFlexMaxLimit := tFlexMaxLimit }

/-- All four weight-limit breakdowns (source: the `result.limits` assignment). -/
def computeLimits (inputs : TakeoffPerformanceInputs) (params : TakeoffPerformanceParameters)
    (conf : Conf) : LimitsRecord :=
  { runway := calculateWeightLimits .runway inputs params conf
    secondSegment := calculateWeightLimits .secondSegment inputs params conf
    brakeEnergy := calculateWeightLimits .brakeEnergy inputs params conf
    vmcg := calculateWeightLimits .vmcg inputs params conf }

/-! ## Limiting-factor selector -/

/-- The enumeration order of `LimitingFactor` (modelled from the spec's
"Runway-first ordering", §4.5; the enum itself is declared in the external
fbw-sdk and `Object.values` iterates it in declaration order). -/
def limitingFactorOrder : List LimitingFactor := [.runway, .secondSegment, .brakeEnergy, .vmcg]

/-- `getLimitingFactor`: scans the four factors in order, keeping the first one
whose with-bleed ceiling at `temp` is strictly below the best so far (initial
best = `Infinity`, modelled by the `Option.none` accumulator state; a `NaN`
ceiling never wins a `<` comparison). -/
def getLimitingFactor (temp : LimitKey) (limits : LimitsRecord) : LimitingFactor :=
  (limitingFactorOrder.foldl
    (fun st factor =>
      match (limits.get factor).limitAt temp with
      | Option.none => st
      | some w =>
        match st.1 with
        | Option.none => (some w, factor)
        | some limitingWeight => if w < limitingWeight then (some w, factor) else st)
    (Option.none, LimitingFactor.runway)).2

/-! ## T-VMCG and MTOW resolution -/

/-- `calculateTvmcg`. -/
def calculateTvmcg (params : TakeoffPerformanceParameters) (conf : Conf) : ℚ :=
  let (factor1, factor2) := lerpGetVec2 (tvmcgFactors conf) (max params.headwind (-15))
  factor1 * (params.adjustedTora - params.pressureAlt / 10) + factor2

/-- The MTOW resolution switch of `calculateTakeoffPerformance` (dry / wet /
nine contamination states), returning the possibly-updated error and the MTOW. -/
def resolveMtow (inputs : TakeoffPerformanceInputs) (params : TakeoffPerformanceParameters)
    (conf : Conf) (dryMtow : Option ℚ) (tvmcg : ℚ) (error0 : TakeoffPerfomanceError) :
    TakeoffPerfomanceError × Option ℚ :=
  let contam := fun (correctionFactors : Conf → List (ℚ × ℚ))
      (mtowFactors : Conf → List (ℚ × ℚ)) (minCorrectedWeight : Conf → ℚ) =>
    let correctedWeight :=
      oSub dryMtow (some (lerpGet (correctionFactors conf) params.adjustedTora))
    let mtow := correctedWeight.map fun w => lerpGet (mtowFactors conf) w
    let minimumTow := minCorrectedWeight conf
    ((if oLtL correctedWeight minimumTow then TakeoffPerfomanceError.tooLight else error0), mtow)
  match inputs.runwayCondition with
  | .dry => (error0, dryMtow)
  | .wet =>
    let fq :=
      lerpGetVec4
        ((if tvmcg < inputs.oat then wetTowAdjustmentFactorsAboveTvmcg
          else wetTowAdjustmentFactorsAtOrBelowTvmcg) conf)
        params.headwind
    let lengthAltCoef := params.adjustedTora - params.pressureAlt / 20
    let wetMtowAdjustment :=
      min 0 (min (fq.1 * lengthAltCoef + fq.2.1) (fq.2.2.1 * lengthAltCoef + fq.2.2.2))
    (error0, oSub dryMtow (some wetMtowAdjustment))
  | .contaminated6mmWater =>
    contam weightCorrectionContaminated6mmWater mtowContaminated6mmWater
      minCorrectedTowContaminated6mmWater
  | .contaminated13mmWater =>
    contam weightCorrectionContaminated13mmWater mtowContaminated13mmWater
      minCorrectedTowContaminated13mmWater
  | .contaminated6mmSlush =>
    contam weightCorrectionContaminated6mmSlush mtowContaminated6mmSlush
      minCorrectedTowContaminated6mmSlush
  | .contaminated13mmSlush =>
    contam weightCorrectionContaminated13mmSlush mtowContaminated13mmSlush
      minCorrectedTowContaminated13mmSlush
  | .contaminatedCompactedSnow =>
    contam weightCorrectionContaminatedCompactedSnow mtowContaminatedCompactedSnow
      minCorrectedTowContaminatedCompactedSnow
  | .contaminated5mmWetSnow =>
    contam weightCorrectionContaminated5mmWetSnow mtowContaminated5mmWetSnow
      minCorrectedTowContaminated5mmWetSnow
  | .contaminated15mmWetSnow =>
    contam weightCorrectionContaminated15mmWetSnow mtowContaminated15mmWetSnow
      minCorrectedTowContaminated15mmWetSnow
  | .contaminated30mmWetSnow =>
    contam weightCorrectionContaminated30mmWetSnow mtowContaminated30mmWetSnow
      minCorrectedTowContaminated30mmWetSnow
  | .contaminated10mmDrySnow =>
    contam weightCorrectionContaminated10mmDrySnow mtowContaminated10mmDrySnow
      minCorrectedTowContaminated10mmDrySnow
  | .contaminated100mmDrySnow =>
    contam weightCorrectionContaminated100mmDrySnow mtowContaminated100mmDrySnow
      minCorrectedTowContaminated100mmDrySnow

/-! ## Flex-temperature search -/

/-- `calculateFlexTow`: the weight ceiling of `limitingFactor` re-evaluated at a
probe `temperature` (altitude-corrected limit minus temperature and wind deltas;
`NaN` above the flex envelope). -/
def calculateFlexTow (params : TakeoffPerformanceParameters) (conf : Conf)
    (limitingFactor : LimitingFactor) (limitingWeights : LimitWeight) (temperature : ℚ) :
    Option ℚ :=
  oSub (oSub (some limitingWeights.altLimit) (tempDeltaFor limitingFactor temperature conf params))
    (windDeltaFor limitingFactor temperature conf params)

/-- `calculateFlexTemp`: returns `(flexTemp?, flexLimitingFactor?)`. -/
def calculateFlexTemp (inputs : TakeoffPerformanceInputs) (params : TakeoffPerformanceParameters)
    (conf : Conf) (limits : LimitsRecord)
    (tRefLF tMaxLF tFlexMaxLF : LimitingFactor) (tvmcg : ℚ) :
    Option ℚ × Option LimitingFactor :=
  -- we can use flex if TOW is below the tRef limit weight
  if oLtR inputs.tow (limits.get tRefLF).tRefLimit then
    let sel :=
      if oLtL (limits.get tMaxLF).tMaxLimitNoBleed inputs.tow then
        -- interpolate between tRefLimit and tMaxLimit
        (params.tRef, params.tMax, tRefLF, limits.get tRefLF, tMaxLF, limits.get tMaxLF)
      else if oLtL (limits.get tFlexMaxLF).tFlexMaxLimitNoBleed inputs.tow then
        -- interpolate between tMaxLimit and tFlexMaxLimit
        (params.tMax, params.tFlexMax, tMaxLF, limits.get tMaxLF, tFlexMaxLF,
          limits.get tFlexMaxLF)
      else
        -- interpolate between tFlexMax and tFlexMax + the maximum bleed increment
        (params.tFlexMax, params.tFlexMax + 8, tFlexMaxLF, limits.get tFlexMaxLF, tFlexMaxLF,
          limits.get tFlexMaxLF)
    let iterFrom := sel.1
    let iterTo := sel.2.1
    let fromLimitingFactor := sel.2.2.1
    let fromLimitingWeights := sel.2.2.2.1
    let toLimitingFactor := sel.2.2.2.2.1
    let toLimitingWeights := sel.2.2.2.2.2
    -- the integer-step scan `for (let t = iterFrom; t <= iterTo; t++)`
    let iterations := (⌊iterTo - iterFrom⌋ + 1).toNat
    let scan := (List.range iterations).foldl
      (fun (st : Option ℚ × Option LimitingFactor) k =>
        let t := iterFrom + (k : ℚ)
        let fromLimitTow := calculateFlexTow params conf fromLimitingFactor fromLimitingWeights t
        let toLimitTow := calculateFlexTow params conf toLimitingFactor toLimitingWeights t
        match fromLimitTow, toLimitTow with
        | some ft, some tt =>
          if inputs.tow ≤ min ft tt then
            (some t, some (if ft ≤ tt then fromLimitingFactor else toLimitingFactor))
          else st
        | _, _ => st)
      (Option.none, Option.none)
    match scan with
    | (some flexTemp0, some flexLimitingFactor) =>
      let flexTemp1 := flexTemp0 -
        (if inputs.antiIce = TakeoffAntiIceSetting.engine then 2
         else if inputs.antiIce = TakeoffAntiIceSetting.engineWing then 6 else 0)
      let flexTemp2 := flexTemp1 - (if inputs.packs then 2 else 0)
      let flexTemp3 := min flexTemp2 params.tFlexMax
      let flexTemp4 := jsTrunc flexTemp3
      let flexTemp5 :=
        if inputs.runwayCondition = RunwayCondition.wet then
          let fq :=
            lerpGetVec4
              ((if tvmcg < inputs.oat then wetFlexAdjustmentFactorsAboveTvmcg
                else wetFlexAdjustmentFactorsAtOrBelowTvmcg) conf)
              params.headwind
          let lengthAltCoef := params.adjustedTora - params.pressureAlt / 20
          let wetFlexAdjustment :=
            min 0 (min (fq.1 * lengthAltCoef + fq.2.1) (fq.2.2.1 * lengthAltCoef + fq.2.2.2))
          flexTemp4 - wetFlexAdjustment
        else flexTemp4
      if inputs.oat < flexTemp5 then (some flexTemp5, some flexLimitingFactor)
      else (Option.none, Option.none)
    | _ => (Option.none, Option.none)
  else (Option.none, Option.none)

/-! ## Speed reconciliation -/

/-- `reconcileVSpeeds`: enforces the VMCG/VMCA/VMU floors, the ordering
constraints and the tire-speed ceiling, rounding to integers; returns the
possibly-updated error together with the final `(v1, vR, v2)`. -/
def reconcileVSpeeds (conf : Conf) (inputs : TakeoffPerformanceInputs)
    (params : TakeoffPerformanceParameters) (errIn : TakeoffPerfomanceError)
    (v1 vR v2 : ℚ) : TakeoffPerfomanceError × ℚ × ℚ × ℚ :=
  let minV1Vmc := jsCeil (lerpGet minimumV1Vmc params.pressureAlt)
  let minVrVmc := jsCeil (lerpGet minimumVrVmc params.pressureAlt)
  let minV2Vmc := jsCeil (lerpGet (minimumV2Vmc conf) params.pressureAlt)
  let minv2Vmu := jsCeil (lerpGet2 (minimumV2Vmu conf) params.pressureAlt inputs.tow)
  -- VMCG/VMCA/VMU limits, and rounding
  let v1Corrected := jsRound (max v1 minV1Vmc)
  let vRCorrected0 := jsRound (max vR minVrVmc)
  let v2Corrected := jsRound (max (max v2 minV2Vmc) minv2Vmu)
  -- Vr must be less than or equal to v2
  let err1 :=
    if v2Corrected < vRCorrected0 then
      if v2Corrected < minVrVmc then TakeoffPerfomanceError.vmcgVmcaLimits else errIn
    else errIn
  let vRCorrected1 := if v2Corrected < vRCorrected0 then v2Corrected else vRCorrected0
  -- Vr limited by tire speed
  let maxVr := jsTrunc (195 - (v2Corrected - 195))
  let err2 :=
    if 195 < v2Corrected then
      if 195 < vRCorrected1 then TakeoffPerfomanceError.maximumTireSpeed
      else if maxVr < vRCorrected1 then
        if maxVr < minVrVmc then TakeoffPerfomanceError.vmcgVmcaLimits else err1
      else err1
    else err1
  let vRCorrected2 :=
    if 195 < v2Corrected then
      if 195 < vRCorrected1 then vRCorrected1
      else if maxVr < vRCorrected1 then maxVr
      else vRCorrected1
    else vRCorrected1
  -- V1 must be less than or equal to vr
  let err3 :=
    if vRCorrected2 < v1Corrected then
      if vRCorrected2 < minV1Vmc then TakeoffPerfomanceError.vmcgVmcaLimits else err2
    else err2
  let v1Final := if vRCorrected2 < v1Corrected then vRCorrected2 else v1Corrected
  (err3, v1Final, vRCorrected2, v2Corrected)

/-! ## V-speed regression evaluator -/

/-- `calculateSecondSegBrakeV2`: fills the scratch fields and returns the V2
candidate. -/
def calculateSecondSegBrakeV2 (speeds : TakeoffPerformanceSpeeds)
    (inputs : TakeoffPerformanceInputs) (params : TakeoffPerformanceParameters) (conf : Conf)
    (correctWind useTable2 : Bool) : TakeoffPerformanceSpeeds × ℚ :=
  let (v2BaseFactor1, v2BaseFactor2) := v2SecondSegBrakeBaseTable1 conf
  let v2Base := (inputs.tow / 1000) * v2BaseFactor1 + v2BaseFactor2
  let v2Base :=
    if useTable2 then
      let (v2BaseFactor1, v2BaseFactor2) := v2SecondSegBrakeBaseTable2 conf
      (inputs.tow / 1000) * v2BaseFactor1 + v2BaseFactor2
    else v2Base
  let (v2BaseRunwayLength, v2RunwayFactor) :=
    if useTable2 then v2SecondSegBrakeRunwayTable2 conf else v2SecondSegBrakeRunwayTable1 conf
  let v2DeltaRunway := (v2BaseRunwayLength - params.adjustedTora) * v2RunwayFactor
  let (v2AltFactor1, v2AltFactor2, v2AltFactor3, v2AltFactor4) := v2SecondSegBrakeAltFactors conf
  let v2DeltaAlt :=
    params.pressureAlt * ((inputs.tow / 1000) * v2AltFactor1 + v2AltFactor2) *
      (params.adjustedTora * v2AltFactor3 + v2AltFactor4)
  let (v2SlopeFactor1, v2SlopeFactor2) := v2SecondSegBrakeSlopeFactors conf
  let v2DeltaSlope :=
    inputs.slope * params.adjustedTora * ((inputs.tow / 1000) * v2SlopeFactor1 + v2SlopeFactor2)
  let v2DeltaWind :=
    if correctWind then
      let v2WindFactor :=
        if 0 ≤ params.headwind then v2SecondSegBrakeHeadwindFactors conf
        else v2SecondSegBrakeTailwindFactors conf
      params.headwind * v2WindFactor
    else 0
  ({ speeds with
      v2Base := some v2Base
      v2DeltaRunway := some v2DeltaRunway
      v2DeltaAlt := some v2DeltaAlt
      v2DeltaSlope := some v2DeltaSlope
      v2DeltaWind := some v2DeltaWind },
    v2Base + v2DeltaRunway + v2DeltaAlt + v2DeltaSlope + v2DeltaWind)

/-- `calculateSecondSegBrakeV1`. -/
def calculateSecondSegBrakeV1 (speeds : TakeoffPerformanceSpeeds)
    (inputs : TakeoffPerformanceInputs) (params : TakeoffPerformanceParameters) (conf : Conf)
    (useTable2 : Bool) : TakeoffPerformanceSpeeds × ℚ :=
  let (v1BaseFactor1, v1BaseFactor2) :=
    if useTable2 then v1SecondSegBrakeBaseTable2 conf else v1SecondSegBrakeBaseTable1 conf
  let v1Base := (inputs.tow / 1000) * v1BaseFactor1 + v1BaseFactor2
  let (v1BaseLength, v1RunwayFactor1, v1RunwayFactor2) :=
    if useTable2 then v1SecondSegBrakeRunwayTable2 conf else v1SecondSegBrakeRunwayTable1 conf
  let v1DeltaRunway :=
    (v1BaseLength - params.adjustedTora) * ((inputs.tow / 1000) * v1RunwayFactor1 + v1RunwayFactor2)
  let (v1AltFactor1, v1AltFactor2, v1AltFactor3, v1AltFactor4) :=
    if useTable2 then v1SecondSegBrakeAltTable2 conf else v1SecondSegBrakeAltTable1 conf
  let v1DeltaAlt :=
    params.pressureAlt * ((inputs.tow / 1000) * v1AltFactor1 + v1AltFactor2) *
      (params.adjustedTora * v1AltFactor3 + v1AltFactor4)
  let (v1SlopeFactor1, v1SlopeFactor2) := v1SecondSegBrakeSlopeFactors conf
  let v1DeltaSlope :=
    inputs.slope * params.adjustedTora * ((inputs.tow / 1000) * v1SlopeFactor1 + v1SlopeFactor2)
  let (v1WindFactor1, v1WindFactor2) :=
    if 0 ≤ params.headwind then v1SecondSegBrakeHeadwindFactors conf
    else v1SecondSegBrakeTailwindFactors conf
  let v1DeltaWind := params.headwind * ((inputs.tow / 1000) * v1WindFactor1 + v1WindFactor2)
  ({ speeds with
      v1Base := some v1Base
      v1DeltaRunway := some v1DeltaRunway
      v1DeltaAlt := some v1DeltaAlt
      v1DeltaSlope := some v1DeltaSlope
      v1DeltaWind := some v1DeltaWind },
    v1Base + v1DeltaRunway + v1DeltaAlt + v1DeltaSlope + v1DeltaWind)

/-- `calculateDryVSpeeds`: computes the dry (or pre-wet-correction) speeds,
reconciles them, and stores them as `intermediateSpeeds` (possibly updating the
error). -/
def calculateDryVSpeeds (r : TakeoffPerformanceResult) (conf : Conf)
    (applyForwardCgSpeedCorrection : Bool) : TakeoffPerformanceResult :=
  let inputs := r.inputs
  let params := r.params
  let limitingFactor :=
    match params.flexLimitingFactor with
    | some f => some f
    | Option.none => r.oatLimitingFactor
  let quad :=
    if limitingFactor = some LimitingFactor.runway ∨ limitingFactor = some LimitingFactor.vmcg then
      -- v2
      let (v2BaseFactor1, v2BaseFactor2) := v2RunwayVmcgBaseFactors conf
      let v2Base := (inputs.tow / 1000) * v2BaseFactor1 + v2BaseFactor2
      let (v2AltFactor1, v2AltFactor2) := v2RunwayVmcgAltFactors conf
      let v2DeltaAlt := ((inputs.tow / 1000) * v2AltFactor1 + v2AltFactor2) * params.pressureAlt
      let v2 := v2Base + v2DeltaAlt
      -- vr
      let (vRBaseFactor1, vRBaseFactor2) := vRRunwayVmcgBaseFactors conf
      let vRBase := (inputs.tow / 1000) * vRBaseFactor1 + vRBaseFactor2
      let (vRBaseLength, vRRunwayFactor1, vRRunwayFactor2) := vRRunwayVmcgRunwayFactors conf
      let vRDeltaRunway :=
        (vRBaseLength - params.adjustedTora) *
          ((inputs.tow / 1000) * vRRunwayFactor1 + vRRunwayFactor2)
      let (vRFactorAlt1, vRFactorAlt2) := vRRunwayVmcgAltFactors conf
      let vRDeltaAlt := params.pressureAlt * ((inputs.tow / 1000) * vRFactorAlt1 + vRFactorAlt2)
      let vRFactorSlope := vRRunwayVmcgSlopeFactors conf
      let vRDeltaSlope := inputs.slope * params.adjustedTora * vRFactorSlope
      let (vRWindFactor1, vRWindFactor2) :=
        if 0 ≤ params.headwind then vRRunwayVmcgHeadwindFactors conf
        else vRRunwayVmcgTailwindFactors conf
      let vRDeltaWind := params.headwind * ((inputs.tow / 1000) * vRWindFactor1 + vRWindFactor2)
      let vR := vRBase + vRDeltaRunway + vRDeltaAlt + vRDeltaSlope + vRDeltaWind +
        (if applyForwardCgSpeedCorrection then -1 else 0)
      -- v1
      let (v1BaseFactor1, v1BaseFactor2) := v1RunwayVmcgBaseFactors conf
      let v1Base := (inputs.tow / 1000) * v1BaseFactor1 + v1BaseFactor2
      let (v1BaseLength, v1RunwayFactor1, v1RunwayFactor2) := v1RunwayVmcgRunwayFactors conf
      let v1DeltaRunway :=
        (v1BaseLength - params.adjustedTora) *
          ((inputs.tow / 1000) * v1RunwayFactor1 + v1RunwayFactor2)
      let (v1FactorAlt1, v1FactorAlt2) := v1RunwayVmcgAltFactors conf
      let v1DeltaAlt := params.pressureAlt * ((inputs.tow / 1000) * v1FactorAlt1 + v1FactorAlt2)
      let v1FactorSlope := v1RunwayVmcgSlopeFactors conf
      let v1DeltaSlope := inputs.slope * params.adjustedTora * v1FactorSlope
      let (v1WindFactor1, v1WindFactor2) :=
        if 0 ≤ params.headwind then v1RunwayVmcgHeadwindFactors conf
        else v1RunwayVmcgTailwindFactors conf
      let v1DeltaWind := params.headwind * ((inputs.tow / 1000) * v1WindFactor1 + v1WindFactor2)
      let v1 := v1Base + v1DeltaRunway + v1DeltaAlt + v1DeltaSlope + v1DeltaWind
      ({ emptySpeeds with
          v2Base := some v2Base
          v2DeltaAlt := some v2DeltaAlt
          vRBase := some vRBase
          vRDeltaRunway := some vRDeltaRunway
          vRDeltaAlt := some vRDeltaAlt
          vRDeltaSlope := some vRDeltaSlope
          vRDeltaWind := some vRDeltaWind
          v1Base := some v1Base
          v1DeltaRunway := some v1DeltaRunway
          v1DeltaAlt := some v1DeltaAlt
          v1DeltaSlope := some v1DeltaSlope
          v1DeltaWind := some v1DeltaWind },
        v1, vR, v2)
    else
      -- 2nd seg or brake energy limited
      let (speeds, v2NoWind) := calculateSecondSegBrakeV2 emptySpeeds inputs params conf false false
      let (v2ThresholdFactor1, v2ThresholdFactor2) := v2SecondSegBrakeThresholds conf
      let v2Table2Threshold := params.adjustedTora * v2ThresholdFactor1 + v2ThresholdFactor2
      let speeds := { speeds with v2Table2Threshold := some v2Table2Threshold }
      let useTable2 := decide (v2Table2Threshold ≤ v2NoWind)
      let speeds := if useTable2 then { speeds with v2Table1NoWind := some v2NoWind } else speeds
      let (speeds, v2) := calculateSecondSegBrakeV2 speeds inputs params conf true useTable2
      -- vr
      let (vRBaseFactor1, vRBaseFactor2) :=
        if useTable2 then vRSecondSegBrakeBaseTable2 conf else vRSecondSegBrakeBaseTable1 conf
      let vRBase := (inputs.tow / 1000) * vRBaseFactor1 + vRBaseFactor2
      let (vRBaseLength, vRRunwayFactor1, vRRunwayFactor2) :=
        if useTable2 then vRSecondSegBrakeRunwayTable2 conf else vRSecondSegBrakeRunwayTable1 conf
      let vRDeltaRunway :=
        (vRBaseLength - params.adjustedTora) *
          ((inputs.tow / 1000) * vRRunwayFactor1 + vRRunwayFactor2)
      let (vRAltFactor1, vRAltFactor2, vRAltFactor3, vRAltFactor4) :=
        if useTable2 then vRSecondSegBrakeAltTable2 conf else vRSecondSegBrakeAltTable1 conf
      let vRDeltaAlt :=
        params.pressureAlt * ((inputs.tow / 1000) * vRAltFactor1 + vRAltFactor2) *
          (params.adjustedTora * vRAltFactor3 + vRAltFactor4)
      let (vRSlopeFactor1, vRSlopeFactor2) := vRSecondSegBrakeSlopeFactors conf
      let vRDeltaSlope :=
        inputs.slope * params.adjustedTora *
          ((inputs.tow / 1000) * vRSlopeFactor1 + vRSlopeFactor2)
      let (vRWindFactor1, vRWindFactor2) :=
        if 0 ≤ params.headwind then vRSecondSegBrakeHeadwindFactors conf
        else vRSecondSegBrakeTailwindFactors conf
      let vRDeltaWind := params.headwind * ((inputs.tow / 1000) * vRWindFactor1 + vRWindFactor2)
      let vR := vRBase + vRDeltaRunway + vRDeltaAlt + vRDeltaSlope + vRDeltaWind
      let speeds := { speeds with
        vRBase := some vRBase
        vRDeltaRunway := some vRDeltaRunway
        vRDeltaAlt := some vRDeltaAlt
        vRDeltaSlope := some vRDeltaSlope
        vRDeltaWind := some vRDeltaWind }
      -- v1 (with the documented workaround: recompute with table 1 when the
      -- table-2 V2−V1 spread exceeds 8 knots)
      let (speeds, v1) := calculateSecondSegBrakeV1 speeds inputs params conf useTable2
      let (speeds, v1) :=
        if useTable2 ∧ 8 < v2 - v1 then
          let speeds := { speeds with v1Table2 := some v1 }
          calculateSecondSegBrakeV1 speeds inputs params conf false
        else (speeds, v1)
      (speeds, v1, vR, v2)
  let rec0 := reconcileVSpeeds conf inputs params r.error quad.2.1 quad.2.2.1 quad.2.2.2
  { r with
      error := rec0.1
      intermediateSpeeds := some
        { quad.1 with dryV1 := rec0.2.1, dryVR := rec0.2.2.1, dryV2 := rec0.2.2.2 } }

/-- `calculateVSpeeds`: dispatches on the runway condition, applies the wet
deltas where applicable, and stores the final `v1`, `vR`, `v2`. -/
def calculateVSpeeds (r : TakeoffPerformanceResult) (conf : Conf)
    (applyForwardCgSpeedCorrection : Bool) (tvmcg : ℚ) : TakeoffPerformanceResult :=
  if r.inputs.runwayCondition = RunwayCondition.dry ∨
      r.inputs.runwayCondition = RunwayCondition.wet then
    let r1 := calculateDryVSpeeds r conf applyForwardCgSpeedCorrection
    if r.inputs.runwayCondition = RunwayCondition.dry then
      { r1 with
          v1 := r1.intermediateSpeeds.map fun s => s.dryV1
          vR := r1.intermediateSpeeds.map fun s => s.dryVR
          v2 := r1.intermediateSpeeds.map fun s => s.dryV2 }
    else
      -- the source throws 'No dry speeds!' when absent; `calculateDryVSpeeds`
      -- always populates the field
      let sp := r1.intermediateSpeeds.getD emptySpeeds
      let aq :=
        lerpGetVec4
          ((if tvmcg < r.inputs.oat then wetV1AdjustmentFactorsAboveTvmcg
            else wetV1AdjustmentFactorsAtOrBelowTvmcg) conf)
          r.params.headwind
      let vRFactors : Option (ℚ × ℚ × ℚ × ℚ) :=
        if tvmcg < r.inputs.oat then Option.none
        else some (lerpGetVec4 (wetVRAdjustmentFactorsAtOrBelowTvmcg conf) r.params.headwind)
      let v2Factors : Option (ℚ × ℚ × ℚ × ℚ) :=
        if tvmcg < r.inputs.oat then Option.none
        else some (lerpGetVec4 (wetV2AdjustmentFactorsAtOrBelowTvmcg conf) r.params.headwind)
      let lengthAltCoef := r.params.adjustedTora - r.params.pressureAlt / 20
      let wetV1Adjustment :=
        min 0 (min (aq.1 * lengthAltCoef + aq.2.1) (aq.2.2.1 * lengthAltCoef + aq.2.2.2))
      let wetVRAdjustment :=
        match vRFactors with
        | some bq =>
          min 0 (min (bq.1 * lengthAltCoef + bq.2.1) (bq.2.2.1 * lengthAltCoef + bq.2.2.2))
        | Option.none => 0
      let wetV2Adjustment :=
        match v2Factors with
        | some cq =>
          min 0 (min (cq.1 * lengthAltCoef + cq.2.1) (cq.2.2.1 * lengthAltCoef + cq.2.2.2))
        | Option.none => 0
      let rq :=
        reconcileVSpeeds conf r.inputs r.params r1.error
          (sp.dryV1 - wetV1Adjustment) (sp.dryVR - wetVRAdjustment) (sp.dryV2 - wetV2Adjustment)
      { r1 with error := rq.1, v1 := some rq.2.1, vR := some rq.2.2.1, v2 := some rq.2.2.2 }
  else
    -- otherwise the runway is contaminated
    let contamVSpeeds : Option (Conf → List ((ℚ × ℚ × ℚ) × ℚ)) :=
      match r.inputs.runwayCondition with
      | .contaminated6mmWater => some vSpeedsContaminated6mmWater
      | .contaminated13mmWater => some vSpeedsContaminated13mmWater
      | .contaminated6mmSlush => some vSpeedsContaminated6mmSlush
      | .contaminated13mmSlush => some vSpeedsContaminated13mmSlush
      | .contaminatedCompactedSnow => some vSpeedsContaminatedCompactedSnow
      | .contaminated5mmWetSnow => some vSpeedsContaminated5mmWetSnow
      | .contaminated15mmWetSnow => some vSpeedsContaminated15mmWetSnow
      | .contaminated30mmWetSnow => some vSpeedsContaminated30mmWetSnow
      | .contaminated10mmDrySnow => some vSpeedsContaminated10mmDrySnow
      | .contaminated100mmDrySnow => some vSpeedsContaminated100mmDrySnow
      | _ => Option.none   -- source throws 'Invalid runway condition'; unreachable here
    match contamVSpeeds with
    | Option.none => r
    | some tbl =>
      let vq := lerpGetVec3 (tbl conf) r.inputs.tow
      let rq := reconcileVSpeeds conf r.inputs r.params r.error vq.1 vq.2.1 vq.2.2
      { r with error := rq.1, v1 := some rq.2.1, vR := some rq.2.2.1, v2 := some rq.2.2.2 }

/-! ## Stabilizer trim -/

/-- msfs-sdk `MathUtils.round(value, quantum)` (modelled from the external
library's contract: round to the nearest multiple of `quantum`). -/
def mathUtilsRound (value quantum : ℚ) : ℚ := jsRound (value / quantum) * quantum

/-- `calculateStabTrim`. -/
def calculateStabTrim (cg : ℚ) : ℚ :=
  mathUtilsRound (mathUtilsLerp cg 17 40 3.8 (-2.5) true true) 0.1

/-! ## Main entry point -/

/-- The result skeleton before the limits pipeline runs (`result.inputs`,
`result.params` and `result.error` are always populated; everything else is
`undefined`). -/
def baseResult (inputs : TakeoffPerformanceInputs) (params : TakeoffPerformanceParameters)
    (error : TakeoffPerfomanceError) : TakeoffPerformanceResult :=
  { inputs := inputs
    params := params
    error := error
    limits := Option.none
    oatLimitingFactor := Option.none
    tRefLimitingFactor := Option.none
    tMaxLimitingFactor := Option.none
    tFlexMaxLimitingFactor := Option.none
    tvmcg := Option.none
    mtow := Option.none
    flex := Option.none
    v1 := Option.none
    vR := Option.none
    v2 := Option.none
    intermediateSpeeds := Option.none
    stabTrim := Option.none }

/-- The flex/V-speed phase of `calculateTakeoffPerformance`, entered once the
actual weight is within the (possibly forward-CG-bumped) MTOW. -/
def calcSpeedsPhase (recurse : TakeoffPerformanceInputs → TakeoffPerformanceResult)
    (inputs : TakeoffPerformanceInputs) (params : TakeoffPerformanceParameters) (conf : Conf)
    (limits : LimitsRecord) (tRefLimitingFactor tMaxLimitingFactor tFlexMaxLimitingFactor :
      LimitingFactor) (tvmcg : ℚ) (applyForwardCgSpeedCorrection : Bool)
    (r : TakeoffPerformanceResult) : TakeoffPerformanceResult :=
  let r := { r with flex := Option.none }
  if inputs.forceToga then
    -- find the speeds for a flex takeoff with 15 knot tailwind
    let tailwindResult := recurse { inputs with wind := -15, forceToga := false }
    if tailwindResult.error = TakeoffPerfomanceError.none then
      { r with
          v1 := tailwindResult.v1
          vR := tailwindResult.vR
          v2 := tailwindResult.v2
          intermediateSpeeds := tailwindResult.intermediateSpeeds }
    else
      -- else we use the higher speeds below...
      calculateVSpeeds r conf applyForwardCgSpeedCorrection tvmcg
  else
    let r :=
      if !isContaminated inputs.runwayCondition then
        let flexPair :=
          calculateFlexTemp inputs params conf limits tRefLimitingFactor
            tMaxLimitingFactor tFlexMaxLimitingFactor tvmcg
        { r with
            flex := flexPair.1
            params := { r.params with flexLimitingFactor := flexPair.2 } }
      else r
    calculateVSpeeds r conf applyForwardCgSpeedCorrection tvmcg

/-- The successful-validation path of `calculateTakeoffPerformance`: weight
limits, limiting factors, MTOW resolution, forward-CG bump, and the flex/speed
phase (or `TooHeavy`). -/
def calcWithConf (recurse : TakeoffPerformanceInputs → TakeoffPerformanceResult)
    (inputs : TakeoffPerformanceInputs) (params : TakeoffPerformanceParameters)
    (error0 : TakeoffPerfomanceError) (r0 : TakeoffPerformanceResult) (conf : Conf) :
    TakeoffPerformanceResult :=
  let limits := computeLimits inputs params conf
  let oatLimitingFactor := getLimitingFactor .oatLimit limits
  let tRefLimitingFactor := getLimitingFactor .tRefLimit limits
  let tMaxLimitingFactor := getLimitingFactor .tMaxLimit limits
  let tFlexMaxLimitingFactor := getLimitingFactor .tFlexMaxLimit limits
  let dryMtow := (limits.get tRefLimitingFactor).oatLimit
  let tvmcg := calculateTvmcg params conf
  let em := resolveMtow inputs params conf dryMtow tvmcg error0
  let r := { r0 with
    limits := some limits
    oatLimitingFactor := some oatLimitingFactor
    tRefLimitingFactor := some tRefLimitingFactor
    tMaxLimitingFactor := some tMaxLimitingFactor
    tFlexMaxLimitingFactor := some tFlexMaxLimitingFactor
    tvmcg := some tvmcg
    error := em.1
    mtow := em.2 }
  let applyForwardCgWeightCorrection :=
    inputs.forwardCg &&
      (decide (oatLimitingFactor = LimitingFactor.runway) ||
        decide (oatLimitingFactor = LimitingFactor.vmcg))
  let applyForwardCgSpeedCorrection :=
    applyForwardCgWeightCorrection && oLeL em.2 473114
  let mtow :=
    if applyForwardCgWeightCorrection then
      em.2.map fun m => m + max 0 ((cgFactors conf).1 * m + (cgFactors conf).2)
    else em.2
  if oLeR inputs.tow mtow then
    calcSpeedsPhase recurse inputs params conf limits tRefLimitingFactor tMaxLimitingFactor
      tFlexMaxLimitingFactor tvmcg applyForwardCgSpeedCorrection r
  else { r with error := TakeoffPerfomanceError.tooHeavy }

/-- The trailing stabilizer-trim assignment of `calculateTakeoffPerformance`. -/
def setStabTrim (cg : Option ℚ) (r9 : TakeoffPerformanceResult) : TakeoffPerformanceResult :=
  match cg with
  | some cgValue => { r9 with stabTrim := some (calculateStabTrim cgValue) }
  | Option.none => { r9 with stabTrim := Option.none }

/-- The body of `calculateTakeoffPerformance`; `recurse` stands for the
recursive self-call used by the `forceToga` path (which re-evaluates with a
synthetic 15-knot tailwind and `forceToga` cleared). -/
def calcBody (recurse : TakeoffPerformanceInputs → TakeoffPerformanceResult)
    (inputs : TakeoffPerformanceInputs) : TakeoffPerformanceResult :=
  let params := computeParams inputs
  let error0 := checkInputs inputs params
  let r0 := baseResult inputs params error0
  let r9 :=
    if error0 = TakeoffPerfomanceError.none then
      match confOf inputs.conf with
      | Option.none => r0   -- unreachable: `checkInputs` validated the configuration
      | some conf => calcWithConf recurse inputs params error0 r0 conf
    else r0
  setStabTrim inputs.cg r9

/-- `calculateTakeoffPerformance`.  The self-recursion of the source has depth
exactly one: the `forceToga` path re-enters with `forceToga = false`, which never
recurses again, so the innermost fallback (which ignores the recursion entirely)
is never reached. -/
def calculateTakeoffPerformance (inputs : TakeoffPerformanceInputs) :
    TakeoffPerformanceResult :=
  calcBody (calcBody fun i => baseResult i (computeParams i) (checkInputs i (computeParams i)))
    inputs

/-! ## Configuration optimizer -/

/-- The sort comparator of `calculateTakeoffPerformanceOptConf`: prefer the
higher flex temperature (absent flex coalesced to 0 by `?? 0`), then the lower
V1. -/
def optCmp (a b : TakeoffPerformanceResult) : ℚ :=
  if a.flex = b.flex then (a.v1.getD 0) - (b.v1.getD 0)
  else (b.flex.getD 0) - (a.flex.getD 0)

/-- Stable insertion of `x` into a sorted list (`x` precedes the first element it
does not compare greater than). -/
def sortInsert (cmp : TakeoffPerformanceResult → TakeoffPerformanceResult → ℚ)
    (x : TakeoffPerformanceResult) :
    List TakeoffPerformanceResult → List TakeoffPerformanceResult
  | [] => [x]
  | y :: ys => if cmp x y ≤ 0 then x :: y :: ys else y :: sortInsert cmp x ys

/-- `Array.prototype.sort` (a stable comparison sort per ES2019), modelled as
stable insertion sort. -/
def sortByCmp (cmp : TakeoffPerformanceResult → TakeoffPerformanceResult → ℚ) :
    List TakeoffPerformanceResult → List TakeoffPerformanceResult
  | [] => []
  | x :: xs => sortInsert cmp x (sortByCmp cmp xs)

/-- `calculateTakeoffPerformanceOptConf`: runs the pipeline once per
configuration (the `conf` field of `inputs` is overridden), returns the last
result if none succeeded, else the best by `optCmp` (the source's
serialization-based `deepCopy` is the identity on values). -/
def calculateTakeoffPerformanceOptConf (inputs : TakeoffPerformanceInputs) :
    TakeoffPerformanceResult :=
  let results :=
    [calculateTakeoffPerformance { inputs with conf := 1 },
      calculateTakeoffPerformance { inputs with conf := 2 },
      calculateTakeoffPerformance { inputs with conf := 3 }]
  let filteredResults := results.filter fun r => r.error = TakeoffPerfomanceError.none
  -- if all the results failed, return the highest conf
  if filteredResults.isEmpty then (results.getLast?).getD (baseResult inputs (computeParams inputs) (checkInputs inputs (computeParams inputs)))
  else
    -- pick the result with the highest flex temp, and the lowest speeds on a tie
    match sortByCmp optCmp filteredResults with
    | [] => (results.getLast?).getD (baseResult inputs (computeParams inputs) (checkInputs inputs (computeParams inputs)))
    | best :: _ => best

/-! ## Shared helper lemmas -/

/-- A rational that is an integer. -/
def IsIntQ (q : ℚ) : Prop := ∃ n : ℤ, q = (n : ℚ)

lemma isIntQ_intCast (n : ℤ) : IsIntQ ((n : ℤ) : ℚ) := ⟨n, rfl⟩

lemma jsRound_isInt (x : ℚ) : IsIntQ (jsRound x) := ⟨_, rfl⟩

lemma jsCeil_isInt (x : ℚ) : IsIntQ (jsCeil x) := ⟨_, rfl⟩

lemma jsTrunc_isInt (x : ℚ) : IsIntQ (jsTrunc x) := by
  unfold jsTrunc
  split
  · exact ⟨_, rfl⟩
  · exact ⟨_, rfl⟩

lemma oLtR_eq_true_iff (a : ℚ) (b : Option ℚ) : oLtR a b = true ↔ ∃ y, b = some y ∧ a < y := by
  cases b <;> simp [oLtR]

lemma lerp1_bounds (lo hi x x0 x1 y0 y1 : ℚ) (h0 : lo ≤ y0 ∧ y0 ≤ hi) (h1 : lo ≤ y1 ∧ y1 ≤ hi)
    (hx0 : x0 < x) (hx1 : x ≤ x1) : lo ≤ lerp1 x x0 x1 y0 y1 ∧ lerp1 x x0 x1 y0 y1 ≤ hi := by
  unfold lerp1
  split_ifs with he
  · exact h0
  · have hlt : x0 < x1 := lt_of_lt_of_le hx0 hx1
    have hd : 0 < x1 - x0 := by linarith
    have ht0 : 0 ≤ (x - x0) / (x1 - x0) := div_nonneg (by linarith) (le_of_lt hd)
    have ht1 : (x - x0) / (x1 - x0) ≤ 1 := by
      rw [div_le_one hd]; linarith
    rw [mul_div_assoc]
    constructor <;> nlinarith [mul_nonneg (sub_nonneg.mpr h1.1) ht0,
      mul_nonneg (sub_nonneg.mpr h0.1) (sub_nonneg.mpr ht1),
      mul_nonneg (sub_nonneg.mpr h1.2) ht0,
      mul_nonneg (sub_nonneg.mpr h0.2) (sub_nonneg.mpr ht1)]

/-- A scalar lookup stays within the bounds of its sample values. -/
lemma lerpGet_bounds (lo hi : ℚ) :
    ∀ (tbl : List (ℚ × ℚ)), tbl ≠ [] → (∀ p ∈ tbl, lo ≤ p.1 ∧ p.1 ≤ hi) →
      ∀ key, lo ≤ lerpGet tbl key ∧ lerpGet tbl key ≤ hi := by
  intro tbl
  induction tbl with
  | nil => intro h; exact absurd rfl h
  | cons hd tl ih =>
    intro _ hmem key
    cases tl with
    | nil =>
      obtain ⟨v, k⟩ := hd
      simpa [lerpGet] using hmem (v, k) (by simp)
    | cons hd2 tl2 =>
      obtain ⟨v0, k0⟩ := hd
      obtain ⟨v1, k1⟩ := hd2
      rw [lerpGet]
      split_ifs with hk0 hk1
      · exact hmem (v0, k0) (by simp)
      · exact lerp1_bounds lo hi key k0 k1 v0 v1 (hmem (v0, k0) (by simp))
          (hmem (v1, k1) (by simp)) (lt_of_not_le hk0) hk1
      · exact ih (by simp) (fun p hp => hmem p (List.mem_cons_of_mem _ hp)) key
  termination_by tbl => tbl.length

lemma jsCeil_le {x : ℚ} {n : ℤ} (h : x ≤ (n : ℚ)) : jsCeil x ≤ (n : ℚ) := by
  unfold jsCeil
  exact_mod_cast Int.ceil_le.mpr h

lemma jsTrunc_le {x c : ℚ} (h : x ≤ c) (hc : 0 ≤ c) : jsTrunc x ≤ c := by
  unfold jsTrunc
  split_ifs with hx
  · exact le_trans (Int.floor_le x) h
  · calc ((⌈x⌉ : ℤ) : ℚ) ≤ ((0 : ℤ) : ℚ) := by
          exact_mod_cast Int.ceil_le.mpr (by exact_mod_cast le_of_not_le hx)
      _ ≤ c := by exact_mod_cast hc

/-- The minimum-V1 VMC floor never exceeds 122 knots (the table's largest value). -/
lemma minV1Vmc_le (pa : ℚ) : jsCeil (lerpGet minimumV1Vmc pa) ≤ 122 := by
  have h := (lerpGet_bounds 106 122 minimumV1Vmc (by simp [minimumV1Vmc])
    (by intro p hp; fin_cases hp <;> norm_num) pa).2
  exact_mod_cast jsCeil_le (n := 122) (by exact_mod_cast h)

/-- The minimum-VR VMC floor never exceeds 123 knots (the table's largest value). -/
lemma minVrVmc_le (pa : ℚ) : jsCeil (lerpGet minimumVrVmc pa) ≤ 123 := by
  have h := (lerpGet_bounds 106 123 minimumVrVmc (by simp [minimumVrVmc])
    (by intro p hp; fin_cases hp <;> norm_num) pa).2
  exact_mod_cast jsCeil_le (n := 123) (by exact_mod_cast h)

lemma oLeR_eq_true_iff (a : ℚ) (b : Option ℚ) : oLeR a b = true ↔ ∃ y, b = some y ∧ a ≤ y := by
  cases b <;> simp [oLeR]

/-- The with-bleed ceilings of a weight-limit breakdown differ from the no-bleed
ones by the factor-independent bleed deduction. -/
lemma calculateWeightLimits_limitAt (factor : LimitingFactor)
    (inputs : TakeoffPerformanceInputs) (params : TakeoffPerformanceParameters) (conf : Conf)
    (key : LimitKey) :
    (calculateWeightLimits factor inputs params conf).limitAt key =
      oSub ((calculateWeightLimits factor inputs params conf).limitAtNoBleed key)
        (some (deltaBleedOf inputs)) := by
  cases key <;> rfl

/-! ## C4 — tire-speed handling in `reconcileVSpeeds` -/

/-- Concrete inputs for the reconciliation counterexample and witness (only
`tow`, `conf` and the derived pressure altitude are read by `reconcileVSpeeds`). -/
def reconcileProbeInputs : TakeoffPerformanceInputs :=
  { tow := 280000, forwardCg := false, cg := Option.none, conf := 1, tora := 3500, slope := 0,
    lineupAngle := .deg0, wind := 0, elevation := 0, qnh := 1013.25, oat := 15,
    antiIce := .off, packs := false, forceToga := false, runwayCondition := .dry }

/-- C4: the claim says "whenever the corrected V2 exceeds the 195-knot
tire-speed ceiling the result is flagged `MaximumTireSpeed`".  False: with raw
speeds (160, 190, 220) at sea level the corrected V2 is 220 > 195, yet no error
is flagged — instead VR is clamped down to 170 = 195 − (220 − 195). -/
theorem reconcile_tireSpeed_counterexample :
    reconcileVSpeeds Conf.one reconcileProbeInputs (computeParams reconcileProbeInputs)
        TakeoffPerfomanceError.none 160 190 220 =
      (TakeoffPerfomanceError.none, 160, 170, 220) ∧ (195 : ℚ) < 220 := by
  constructor
  · with_unfolding_all rfl
  · norm_num

set_option maxHeartbeats 2000000 in
/-- C4 (amended): in speed reconciliation, `MaximumTireSpeed` is flagged exactly
when both the corrected V2 and the (V2-clamped) corrected VR exceed 195 knots;
when V2 exceeds 195 but VR does not, VR is instead clamped down to the derived
ceiling `195 − (V2 − 195)` (re-checked against the VR floor, which can flag
`VmcgVmcaLimits`); when V2 is at most 195 no tire-speed error is raised. -/
theorem reconcile_tireSpeed_amended (conf : Conf) (inputs : TakeoffPerformanceInputs)
    (params : TakeoffPerformanceParameters) (errIn : TakeoffPerfomanceError) (v1 vR v2 : ℚ)
    (hIn : errIn ≠ TakeoffPerfomanceError.maximumTireSpeed) :
    let out := reconcileVSpeeds conf inputs params errIn v1 vR v2
    (out.1 = TakeoffPerfomanceError.maximumTireSpeed ↔ (195 < out.2.2.2 ∧ 195 < out.2.2.1)) ∧
    (195 < out.2.2.2 → out.1 = TakeoffPerfomanceError.maximumTireSpeed ∨
      out.2.2.1 ≤ jsTrunc (195 - (out.2.2.2 - 195))) ∧
    (out.2.2.2 ≤ 195 → out.1 = errIn ∨ out.1 = TakeoffPerfomanceError.vmcgVmcaLimits) := by
  simp only [reconcileVSpeeds]
  have hm1 : jsCeil (lerpGet minimumV1Vmc params.pressureAlt) < 195 :=
    lt_of_le_of_lt (minV1Vmc_le params.pressureAlt) (by norm_num)
  have hmvr : jsCeil (lerpGet minimumVrVmc params.pressureAlt) < 195 :=
    lt_of_le_of_lt (minVrVmc_le params.pressureAlt) (by norm_num)
  revert hm1
  generalize jsCeil (lerpGet minimumV1Vmc params.pressureAlt) = m1
  intro hm1
  revert hmvr
  generalize jsCeil (lerpGet minimumVrVmc params.pressureAlt) = mvr
  intro hmvr
  generalize jsRound (max v1 m1) = A
  generalize jsRound (max vR mvr) = B
  generalize jsRound (max (max v2 (jsCeil (lerpGet (minimumV2Vmc conf) params.pressureAlt)))
    (jsCeil (lerpGet2 (minimumV2Vmu conf) params.pressureAlt inputs.tow))) = C
  have hM195 : 195 < C → jsTrunc (195 - (C - 195)) < 195 := by
    intro hC
    unfold jsTrunc
    split_ifs with hx
    · have h1 : ((⌊195 - (C - 195)⌋ : ℤ) : ℚ) ≤ 195 - (C - 195) := Int.floor_le _
      linarith
    · have h1 : (⌈195 - (C - 195)⌉ : ℤ) ≤ 0 := Int.ceil_le.mpr (by push_cast; linarith)
      have h2 : ((⌈195 - (C - 195)⌉ : ℤ) : ℚ) ≤ 0 := by exact_mod_cast h1
      linarith
  revert hM195
  generalize jsTrunc (195 - (C - 195)) = M
  intro hM195
  refine ⟨?_, ?_, ?_⟩
  · -- the error is MaximumTireSpeed iff both corrected V2 and VR exceed 195
    by_cases hC : 195 < C
    · have hM := hM195 hC
      constructor
      · intro h
        split_ifs at h ⊢ <;>
          first
            | contradiction
            | exact absurd h hIn
            | (exfalso; tauto)
            | (exfalso; linarith)
            | (constructor <;> first | assumption | tauto | linarith)
      · rintro ⟨-, hB2⟩
        split_ifs at hB2 ⊢ <;>
          first
            | rfl
            | (exfalso; tauto)
            | (exfalso; linarith)
    · constructor
      · intro h
        split_ifs at h <;>
          first
            | contradiction
            | exact absurd h hIn
            | (exfalso; tauto)
            | (exfalso; linarith)
      · rintro ⟨hC2, -⟩
        exact absurd hC2 hC
  · -- when corrected V2 exceeds 195, either the error is flagged or VR is clamped
    intro hC
    have hM := hM195 hC
    split_ifs <;>
      first
        | exact Or.inl rfl
        | exact Or.inr le_rfl
        | (exfalso; tauto)
        | (exfalso; linarith)
        | (right; linarith)
        | (right; apply le_of_not_lt; tauto)
  · -- when corrected V2 is at most 195, no tire-speed error is raised
    intro hC3
    have hC : ¬195 < C := not_lt.mpr hC3
    split_ifs <;>
      first
        | exact Or.inl rfl
        | exact Or.inr rfl
        | (exfalso; tauto)
        | (exfalso; linarith)

/-- C4 witness: the amended theorem applied at the counterexample input. -/
theorem reconcile_tireSpeed_amended_witness :
    let out := reconcileVSpeeds Conf.one reconcileProbeInputs (computeParams reconcileProbeInputs)
      TakeoffPerfomanceError.none 160 190 220
    (out.1 = TakeoffPerfomanceError.maximumTireSpeed ↔ (195 < out.2.2.2 ∧ 195 < out.2.2.1)) ∧
    (195 < out.2.2.2 → out.1 = TakeoffPerfomanceError.maximumTireSpeed ∨
      out.2.2.1 ≤ jsTrunc (195 - (out.2.2.2 - 195))) ∧
    (out.2.2.2 ≤ 195 → out.1 = TakeoffPerfomanceError.none ∨ out.1 = TakeoffPerfomanceError.vmcgVmcaLimits) := by
  exact reconcile_tireSpeed_amended Conf.one reconcileProbeInputs
    (computeParams reconcileProbeInputs) TakeoffPerfomanceError.none 160 190 220 (by simp)

/-! ## C6 — the input validator -/

/-- The eight validation conditions as the spec lists them (§4.2), each paired
with its error code: a condition is `true` when satisfied. -/
def specChecks (inputs : TakeoffPerformanceInputs) (params : TakeoffPerformanceParameters) :
    List (Bool × TakeoffPerfomanceError) :=
  [(decide (inputs.conf = 1 ∨ inputs.conf = 2 ∨ inputs.conf = 3),
      TakeoffPerfomanceError.invalidData),
    (decide (inputs.tow ≤ structuralMtow), TakeoffPerfomanceError.structuralMtow),
    (decide (params.pressureAlt ≤ maxPressureAlt), TakeoffPerfomanceError.maximumPressureAlt),
    (decide (inputs.oat ≤ params.tMax), TakeoffPerfomanceError.maximumTemperature),
    (decide (oew ≤ inputs.tow), TakeoffPerfomanceError.operatingEmptyWeight),
    ((match inputs.cg with
      | some c => isCgWithinLimits c inputs.tow
      | Option.none => true), TakeoffPerfomanceError.cgOutOfLimits),
    (decide (-inputs.wind ≤ maxTailwind), TakeoffPerfomanceError.maximumTailwind),
    (decide (|inputs.slope| ≤ 2), TakeoffPerfomanceError.maximumRunwaySlope)]

/-- The error of the first violated condition, else `None` (spec §4.2). -/
def firstViolation : List (Bool × TakeoffPerfomanceError) → TakeoffPerfomanceError
  | [] => TakeoffPerfomanceError.none
  | (ok, e) :: rest => if ok then firstViolation rest else e

/-- C6: the validator checks exactly the eight listed conditions in the listed
order and returns the error of the first violated one, else `None`. -/
theorem checkInputs_eq_firstViolation (inputs : TakeoffPerformanceInputs)
    (params : TakeoffPerformanceParameters) :
    checkInputs inputs params = firstViolation (specChecks inputs params) := by
  have e6 : cgSuppliedAndOutOfLimits inputs.cg inputs.tow = true ↔
      ¬((match inputs.cg with
        | some c => isCgWithinLimits c inputs.tow
        | Option.none => true) = true) := by
    cases inputs.cg <;> simp [cgSuppliedAndOutOfLimits]
  unfold checkInputs
  simp only [specChecks, firstViolation, decide_eq_true_eq]
  rw [if_congr (show (inputs.conf ≠ 1 ∧ inputs.conf ≠ 2 ∧ inputs.conf ≠ 3) ↔
        ¬(inputs.conf = 1 ∨ inputs.conf = 2 ∨ inputs.conf = 3) by tauto) rfl rfl,
    if_congr (show structuralMtow < inputs.tow ↔ ¬inputs.tow ≤ structuralMtow from
      not_le.symm) rfl rfl,
    if_congr (show maxPressureAlt < params.pressureAlt ↔ ¬params.pressureAlt ≤ maxPressureAlt from
      not_le.symm) rfl rfl,
    if_congr (show params.tMax < inputs.oat ↔ ¬inputs.oat ≤ params.tMax from
      not_le.symm) rfl rfl,
    if_congr (show inputs.tow < oew ↔ ¬oew ≤ inputs.tow from not_le.symm) rfl rfl,
    if_congr e6 rfl rfl,
    if_congr (show inputs.wind < -maxTailwind ↔ ¬(-inputs.wind ≤ maxTailwind) by
      rw [not_le]; exact lt_neg) rfl rfl,
    if_congr (show 2 < |inputs.slope| ↔ ¬(|inputs.slope| ≤ 2) from not_le.symm) rfl rfl]
  simp only [ite_not]

/-! ## C7 — the limiting-factor selector -/

/-- The minimum of the four per-factor values. -/
def specMin4 (v : LimitingFactor → ℚ) : ℚ :=
  min (min (v .runway) (v .secondSegment)) (min (v .brakeEnergy) (v .vmcg))

/-- Spec §4.5: the first factor, in Runway-first enumeration order, achieving
the minimal ceiling. -/
def specArgminFirst (v : LimitingFactor → ℚ) : LimitingFactor :=
  if v .runway = specMin4 v then .runway
  else if v .secondSegment = specMin4 v then .secondSegment
  else if v .brakeEnergy = specMin4 v then .brakeEnergy
  else .vmcg

set_option maxHeartbeats 1600000 in
/-- C7: whenever the four no-bleed ceilings at a reference temperature are real
numbers (not `NaN`), the selector returns the factor whose no-bleed ceiling is
minimal, ties resolved in favour of the first factor in Runway-first order.
(The code compares the with-bleed fields, which differ from the no-bleed ones by
the factor-independent bleed deduction, so the selection coincides.) -/
theorem getLimitingFactor_eq_argmin_noBleed (inputs : TakeoffPerformanceInputs)
    (params : TakeoffPerformanceParameters) (conf : Conf) (key : LimitKey)
    (v : LimitingFactor → ℚ)
    (h : ∀ f, ((computeLimits inputs params conf).get f).limitAtNoBleed key = some (v f)) :
    getLimitingFactor key (computeLimits inputs params conf) = specArgminFirst v := by
  have hb : ∀ f, ((computeLimits inputs params conf).get f).limitAt key =
      some (v f - deltaBleedOf inputs) := by
    intro f
    have h1 : (computeLimits inputs params conf).get f =
        calculateWeightLimits f inputs params conf := by
      cases f <;> rfl
    rw [h1, calculateWeightLimits_limitAt, ← h1, h f]
    rfl
  unfold getLimitingFactor limitingFactorOrder
  simp only [List.foldl, hb]
  unfold specArgminFirst specMin4
  simp only [min_def]
  generalize deltaBleedOf inputs = d
  generalize v LimitingFactor.runway = a
  generalize v LimitingFactor.secondSegment = b
  generalize v LimitingFactor.brakeEnergy = c
  generalize v LimitingFactor.vmcg = e
  by_cases h1 : b - d < a - d
  · simp only [if_pos h1]
    by_cases h2 : c - d < b - d
    · simp only [if_pos h2]
      by_cases h3 : e - d < c - d
      · simp only [if_pos h3]
        split_ifs <;> first | rfl | contradiction | (exfalso; linarith)
      · simp only [if_neg h3]
        split_ifs <;> first | rfl | contradiction | (exfalso; linarith)
    · simp only [if_neg h2]
      by_cases h3 : e - d < b - d
      · simp only [if_pos h3]
        split_ifs <;> first | rfl | contradiction | (exfalso; linarith)
      · simp only [if_neg h3]
        split_ifs <;> first | rfl | contradiction | (exfalso; linarith)
  · simp only [if_neg h1]
    by_cases h2 : c - d < a - d
    · simp only [if_pos h2]
      by_cases h3 : e - d < c - d
      · simp only [if_pos h3]
        split_ifs <;> first | rfl | contradiction | (exfalso; linarith)
      · simp only [if_neg h3]
        split_ifs <;> first | rfl | contradiction | (exfalso; linarith)
    · simp only [if_neg h2]
      by_cases h3 : e - d < a - d
      · simp only [if_pos h3]
        split_ifs <;> first | rfl | contradiction | (exfalso; linarith)
      · simp only [if_neg h3]
        split_ifs <;> first | rfl | contradiction | (exfalso; linarith)

/-! ## Concrete probe inputs for the remaining claims -/

/-- A short-runway probe: conf 1, 280 t, 1000 m TORA, ISA sea level, dry. -/
def c1Inputs : TakeoffPerformanceInputs :=
  { tow := 280000, forwardCg := false, cg := Option.none, conf := 1, tora := 1000, slope := 0,
    lineupAngle := .deg0, wind := 0, elevation := 0, qnh := 1013.25, oat := 15,
    antiIce := .off, packs := false, forceToga := false, runwayCondition := .dry }

/-- The same probe on a wet runway. -/
def c1WetInputs : TakeoffPerformanceInputs := { c1Inputs with runwayCondition := .wet }

/-- The short-runway probe at OAT 25 °C. -/
def c2Inputs : TakeoffPerformanceInputs := { c1Inputs with oat := 25 }

/-- The short-runway probe on a 6 mm-water contaminated runway. -/
def c3Inputs : TakeoffPerformanceInputs := { c1Inputs with runwayCondition := .contaminated6mmWater }

/-- A zero-TORA forward-CG probe. -/
def c8Inputs : TakeoffPerformanceInputs := { c1Inputs with tora := 0, tow := 275443, forwardCg := true }

/-- A probe that runs to completion: 70 km TORA, −2 % slope. -/
def successInputs : TakeoffPerformanceInputs := { c1Inputs with tora := 70000, slope := -2 }

/-- The completing probe with an out-of-limits 3 % slope. -/
def slope3Inputs : TakeoffPerformanceInputs := { successInputs with slope := 3 }

lemma sub_nonpos_le (w x : ℚ) (h : x ≤ 0) : w ≤ w - x := by linarith

/-! ## C7 witness data -/

/-- The four no-bleed OAT ceilings of the reconciliation probe. -/
def probeNoBleedV : LimitingFactor → ℚ
  | .runway => 19363324/31
  | .secondSegment => 89051
  | .brakeEnergy => 90129
  | .vmcg => 205874

/-- C7 witness: the selector theorem applied at a concrete input. -/
theorem getLimitingFactor_eq_argmin_noBleed_witness :
    getLimitingFactor LimitKey.oatLimit
        (computeLimits reconcileProbeInputs (computeParams reconcileProbeInputs) Conf.one) =
      specArgminFirst probeNoBleedV :=
  getLimitingFactor_eq_argmin_noBleed reconcileProbeInputs (computeParams reconcileProbeInputs)
    Conf.one LimitKey.oatLimit probeNoBleedV
    (fun f => by cases f <;> with_unfolding_all rfl)

/-! ## C1 — wet-runway MTOW versus dry MTOW -/

/-- C1: the claim says the wet-runway MTOW is never greater than the dry MTOW.
False: at 1000 m TORA the wet MTOW is 44899.03 kg, above the dry 44874 kg (the
code subtracts a non-positive adjustment, which raises the MTOW). -/
theorem wetMtow_counterexample :
    checkInputs c1WetInputs (computeParams c1WetInputs) = TakeoffPerfomanceError.none ∧
    (calculateTakeoffPerformance c1Inputs).mtow = some 44874 ∧
    (calculateTakeoffPerformance c1WetInputs).mtow = some (4489903/100) ∧
    (44874 : ℚ) < 4489903/100 := by
  refine ⟨?_, ?_, ?_, by norm_num⟩ <;> with_unfolding_all rfl

/-- C1 (amended): on a wet runway the resolved MTOW is the dry MTOW minus a
wet adjustment clamped non-positive, so it is never BELOW the dry MTOW (the
claim asserts the opposite direction). -/
theorem resolveMtow_wet_amended (inputs : TakeoffPerformanceInputs)
    (params : TakeoffPerformanceParameters) (conf : Conf) (w tvmcg : ℚ)
    (error0 : TakeoffPerfomanceError) (hw : inputs.runwayCondition = RunwayCondition.wet) :
    ∃ adj : ℚ, adj ≤ 0 ∧
      resolveMtow inputs params conf (some w) tvmcg error0 = (error0, some (w - adj)) ∧
      w ≤ w - adj := by
  unfold resolveMtow
  rw [hw]
  rcases hv : lerpGetVec4 ((if tvmcg < inputs.oat then wetTowAdjustmentFactorsAboveTvmcg
      else wetTowAdjustmentFactorsAtOrBelowTvmcg) conf) params.headwind with ⟨f0, f1, f2, f3⟩
  simp only [hv]
  exact ⟨_, min_le_left _ _, rfl, sub_nonpos_le _ _ (min_le_left _ _)⟩

/-- C1 witness: the amended theorem applied at the wet probe input. -/
theorem resolveMtow_wet_amended_witness :
    ∃ adj : ℚ, adj ≤ 0 ∧
      resolveMtow c1WetInputs (computeParams c1WetInputs) Conf.one (some 44874)
          (calculateTvmcg (computeParams c1WetInputs) Conf.one) TakeoffPerfomanceError.none =
        (TakeoffPerfomanceError.none, some (44874 - adj)) ∧
      (44874 : ℚ) ≤ 44874 - adj :=
  resolveMtow_wet_amended c1WetInputs (computeParams c1WetInputs) Conf.one 44874
    (calculateTvmcg (computeParams c1WetInputs) Conf.one) TakeoffPerfomanceError.none rfl

/-! ## C2 — the dry MTOW reads the OAT ceiling, not the Tref ceiling -/

/-- C2: the spec says the dry MTOW is the Tref-ceiling of the Tref-governing
factor, but the code reads that factor's OAT-ceiling (`limits[tRefLF].oatLimit`).
At 1000 m TORA and OAT 25 °C the two ceilings differ (37134 vs 22428) and the
resolved MTOW equals the OAT one. -/
theorem dryMtow_tref_oat_bug :
    checkInputs c2Inputs (computeParams c2Inputs) = TakeoffPerfomanceError.none ∧
    getLimitingFactor LimitKey.tRefLimit
        (computeLimits c2Inputs (computeParams c2Inputs) Conf.one) = LimitingFactor.vmcg ∧
    (calculateTakeoffPerformance c2Inputs).mtow =
      ((computeLimits c2Inputs (computeParams c2Inputs) Conf.one).get
        LimitingFactor.vmcg).oatLimit ∧
    ((computeLimits c2Inputs (computeParams c2Inputs) Conf.one).get
        LimitingFactor.vmcg).oatLimit = some 37134 ∧
    ((computeLimits c2Inputs (computeParams c2Inputs) Conf.one).get
        LimitingFactor.vmcg).tRefLimit = some 22428 ∧
    (37134 : ℚ) ≠ 22428 := by
  refine ⟨?_, ?_, ?_, ?_, ?_, by norm_num⟩ <;> with_unfolding_all rfl

/-! ## C3 — counterexample: TooLight leaves the speeds populated -/

/-- C3: the claim says any non-`None` error implies the speed fields are not
asserted.  False: on the contaminated short runway the result is `TooLight`
with V1/VR/V2 all populated. -/
theorem errorSpeeds_counterexample :
    (calculateTakeoffPerformance c3Inputs).error = TakeoffPerfomanceError.tooLight ∧
    TakeoffPerfomanceError.tooLight ≠ TakeoffPerfomanceError.none ∧
    (calculateTakeoffPerformance c3Inputs).v1 = some 122 ∧
    (calculateTakeoffPerformance c3Inputs).vR = some 125 ∧
    (calculateTakeoffPerformance c3Inputs).v2 = some 127 := by
  refine ⟨?_, by decide, ?_, ?_, ?_⟩ <;> with_unfolding_all rfl

/-! ## C8 — counterexample: the result carries the un-bumped MTOW -/

/-- C8: the claim says the forward-CG bump increases the MTOW carried in the
result.  False: the result stores the MTOW before the bump — with and without
`forwardCg` the stored value is identical even though the bump is positive. -/
theorem forwardCgMtow_counterexample :
    checkInputs c8Inputs (computeParams c8Inputs) = TakeoffPerfomanceError.none ∧
    c8Inputs.forwardCg = true ∧
    getLimitingFactor LimitKey.oatLimit
        (computeLimits c8Inputs (computeParams c8Inputs) Conf.one) = LimitingFactor.vmcg ∧
    (calculateTakeoffPerformance c8Inputs).mtow = some (-19526) ∧
    (calculateTakeoffPerformance { c8Inputs with forwardCg := false }).mtow = some (-19526) ∧
    0 < max 0 ((cgFactors Conf.one).1 * (-19526) + (cgFactors Conf.one).2) := by
  refine ⟨?_, rfl, ?_, ?_, ?_, by with_unfolding_all decide⟩ <;> with_unfolding_all rfl
/-! ## Structural lemmas for the main pipeline -/

/-- Three speed fields holding integers in nondecreasing order. -/
def OrderedIntSpeeds (v1 vR v2 : Option ℚ) : Prop :=
  ∃ a b c : ℤ, v1 = some (a : ℚ) ∧ vR = some (b : ℚ) ∧ v2 = some (c : ℚ) ∧
    (a : ℚ) ≤ b ∧ (b : ℚ) ≤ c

lemma orderedIntSpeeds_some (x y z : ℚ) (hx : ∃ a : ℤ, x = (a : ℚ))
    (hy : ∃ b : ℤ, y = (b : ℚ)) (hz : ∃ c : ℤ, z = (c : ℚ)) (h1 : x ≤ y) (h2 : y ≤ z) :
    OrderedIntSpeeds (some x) (some y) (some z) := by
  obtain ⟨a, rfl⟩ := hx
  obtain ⟨b, rfl⟩ := hy
  obtain ⟨c, rfl⟩ := hz
  exact ⟨a, b, c, rfl, rfl, rfl, h1, h2⟩

lemma errChain (e0 e1 e2 : TakeoffPerfomanceError)
    (h1 : e1 = e0 ∨ e1 = TakeoffPerfomanceError.vmcgVmcaLimits ∨
      e1 = TakeoffPerfomanceError.maximumTireSpeed)
    (h2 : e2 = e1 ∨ e2 = TakeoffPerfomanceError.vmcgVmcaLimits ∨
      e2 = TakeoffPerfomanceError.maximumTireSpeed) :
    e2 = e0 ∨ e2 = TakeoffPerfomanceError.vmcgVmcaLimits ∨
      e2 = TakeoffPerfomanceError.maximumTireSpeed := by
  rcases h2 with h | h | h
  · rw [h]
    exact h1
  · exact Or.inr (Or.inl h)
  · exact Or.inr (Or.inr h)

/-- The reconciled speeds are always integers in order `v1 ≤ vR ≤ v2`, and the
outgoing error is the incoming one or one of the two reconciliation errors. -/
lemma reconcileVSpeeds_spec (conf : Conf) (inputs : TakeoffPerformanceInputs)
    (params : TakeoffPerformanceParameters) (errIn : TakeoffPerfomanceError) (v1 vR v2 : ℚ) :
    ∀ out, out = reconcileVSpeeds conf inputs params errIn v1 vR v2 →
    (out.1 = errIn ∨ out.1 = TakeoffPerfomanceError.vmcgVmcaLimits ∨
      out.1 = TakeoffPerfomanceError.maximumTireSpeed) ∧
    (∃ a : ℤ, out.2.1 = (a : ℚ)) ∧ (∃ b : ℤ, out.2.2.1 = (b : ℚ)) ∧
    (∃ c : ℤ, out.2.2.2 = (c : ℚ)) ∧ out.2.1 ≤ out.2.2.1 ∧ out.2.2.1 ≤ out.2.2.2 := by
  intro out hout
  subst hout
  simp only [reconcileVSpeeds]
  have hAi := jsRound_isInt (max v1 (jsCeil (lerpGet minimumV1Vmc params.pressureAlt)))
  have hBi := jsRound_isInt (max vR (jsCeil (lerpGet minimumVrVmc params.pressureAlt)))
  have hCi := jsRound_isInt (max (max v2 (jsCeil (lerpGet (minimumV2Vmc conf) params.pressureAlt)))
    (jsCeil (lerpGet2 (minimumV2Vmu conf) params.pressureAlt inputs.tow)))
  revert hAi
  generalize jsRound (max v1 (jsCeil (lerpGet minimumV1Vmc params.pressureAlt))) = A
  intro hAi
  revert hBi
  generalize jsRound (max vR (jsCeil (lerpGet minimumVrVmc params.pressureAlt))) = B
  intro hBi
  revert hCi
  generalize jsRound (max (max v2 (jsCeil (lerpGet (minimumV2Vmc conf) params.pressureAlt)))
    (jsCeil (lerpGet2 (minimumV2Vmu conf) params.pressureAlt inputs.tow))) = C
  intro hCi
  have hMi := jsTrunc_isInt (195 - (C - 195))
  have hMC : 195 < C → jsTrunc (195 - (C - 195)) ≤ C := by
    intro hC
    unfold jsTrunc
    split_ifs with hx
    · have hfl : ((⌊195 - (C - 195)⌋ : ℤ) : ℚ) ≤ 195 - (C - 195) := Int.floor_le _
      linarith
    · have hcl : (⌈195 - (C - 195)⌉ : ℤ) ≤ 0 := Int.ceil_le.mpr (by push_cast; linarith)
      have hcl2 : ((⌈195 - (C - 195)⌉ : ℤ) : ℚ) ≤ 0 := by exact_mod_cast hcl
      linarith
  revert hMi hMC
  generalize jsTrunc (195 - (C - 195)) = M
  intro hMi hMC
  obtain ⟨na, hna⟩ := hAi
  obtain ⟨nb, hnb⟩ := hBi
  obtain ⟨nc, hnc⟩ := hCi
  obtain ⟨nm, hnm⟩ := hMi
  refine ⟨?_, ?_, ?_, ?_, ?_, ?_⟩
  · split_ifs <;>
      first
        | (left; rfl)
        | (right; left; rfl)
        | (right; right; rfl)
  · split_ifs <;>
      first
        | exact ⟨na, hna⟩
        | exact ⟨nb, hnb⟩
        | exact ⟨nc, hnc⟩
        | exact ⟨nm, hnm⟩
  · split_ifs <;>
      first
        | exact ⟨na, hna⟩
        | exact ⟨nb, hnb⟩
        | exact ⟨nc, hnc⟩
        | exact ⟨nm, hnm⟩
  · exact ⟨nc, hnc⟩
  · split_ifs <;>
      first
        | exact le_rfl
        | contradiction
        | linarith
  · by_cases hC : 195 < C
    · have hM := hMC hC
      split_ifs <;>
        first
          | exact le_rfl
          | contradiction
          | linarith
    · split_ifs <;>
        first
          | exact le_rfl
          | contradiction
          | linarith

/-- The MTOW resolver keeps the incoming error or raises `TooLight`. -/
lemma resolveMtow_error (inputs : TakeoffPerformanceInputs)
    (params : TakeoffPerformanceParameters) (conf : Conf) (dm : Option ℚ) (tv : ℚ)
    (e0 : TakeoffPerfomanceError) :
    (resolveMtow inputs params conf dm tv e0).1 = e0 ∨
      (resolveMtow inputs params conf dm tv e0).1 = TakeoffPerfomanceError.tooLight := by
  unfold resolveMtow
  cases hrc : inputs.runwayCondition <;>
    dsimp only <;>
    first
      | (left; rfl)
      | (split_ifs <;> first | (left; rfl) | (right; rfl))

/-- A validated configuration resolves to one of the three `Conf` values. -/
lemma checkInputs_confOf (inputs : TakeoffPerformanceInputs)
    (params : TakeoffPerformanceParameters)
    (h : checkInputs inputs params = TakeoffPerfomanceError.none) :
    ∃ c, confOf inputs.conf = some c := by
  by_cases h1 : inputs.conf = 1
  · exact ⟨Conf.one, by simp [confOf, h1]⟩
  by_cases h2 : inputs.conf = 2
  · exact ⟨Conf.two, by simp [confOf, h1, h2]⟩
  by_cases h3 : inputs.conf = 3
  · exact ⟨Conf.three, by simp [confOf, h1, h2, h3]⟩
  exfalso
  unfold checkInputs at h
  rw [if_pos ⟨h1, h2, h3⟩] at h
  exact absurd h (by decide)

/-- `calculateDryVSpeeds` only rewrites `error` and `intermediateSpeeds`, the
latter always to `some` of a record whose dry speeds are a reconciliation
output. -/
lemma calculateDryVSpeeds_shape (r : TakeoffPerformanceResult) (conf : Conf) (fwd : Bool) :
    ∃ (sp : TakeoffPerformanceSpeeds) (x1 x2 x3 : ℚ),
      calculateDryVSpeeds r conf fwd =
        { r with
            error := (reconcileVSpeeds conf r.inputs r.params r.error x1 x2 x3).1,
            intermediateSpeeds := some
              { sp with
                  dryV1 := (reconcileVSpeeds conf r.inputs r.params r.error x1 x2 x3).2.1,
                  dryVR := (reconcileVSpeeds conf r.inputs r.params r.error x1 x2 x3).2.2.1,
                  dryV2 := (reconcileVSpeeds conf r.inputs r.params r.error x1 x2 x3).2.2.2 } } :=
  ⟨_, _, _, _, rfl⟩

/-- Projection facts of `calculateDryVSpeeds` used by the speed dispatcher. -/
lemma calculateDryVSpeeds_dry123 (r : TakeoffPerformanceResult) (conf : Conf) (fwd : Bool) :
    ∃ x1 x2 x3,
      (calculateDryVSpeeds r conf fwd).error =
        (reconcileVSpeeds conf r.inputs r.params r.error x1 x2 x3).1 ∧
      ((calculateDryVSpeeds r conf fwd).intermediateSpeeds.getD emptySpeeds).dryV1 =
        (reconcileVSpeeds conf r.inputs r.params r.error x1 x2 x3).2.1 ∧
      ((calculateDryVSpeeds r conf fwd).intermediateSpeeds.getD emptySpeeds).dryVR =
        (reconcileVSpeeds conf r.inputs r.params r.error x1 x2 x3).2.2.1 ∧
      ((calculateDryVSpeeds r conf fwd).intermediateSpeeds.getD emptySpeeds).dryV2 =
        (reconcileVSpeeds conf r.inputs r.params r.error x1 x2 x3).2.2.2 ∧
      (calculateDryVSpeeds r conf fwd).intermediateSpeeds =
        some ((calculateDryVSpeeds r conf fwd).intermediateSpeeds.getD emptySpeeds) ∧
      (calculateDryVSpeeds r conf fwd).flex = r.flex ∧
      (calculateDryVSpeeds r conf fwd).mtow = r.mtow := by
  obtain ⟨sp, x1, x2, x3, h⟩ := calculateDryVSpeeds_shape r conf fwd
  refine ⟨x1, x2, x3, ?_, ?_, ?_, ?_, ?_, ?_, ?_⟩ <;> (rw [h]; try rfl)

/-- The common record tail of the dry dispatcher branch. -/
lemma dryTail_spec (rBase r1 : TakeoffPerformanceResult)
    (hmem1 : r1.error = rBase.error ∨ r1.error = TakeoffPerfomanceError.vmcgVmcaLimits ∨
      r1.error = TakeoffPerfomanceError.maximumTireSpeed)
    (hflex1 : r1.flex = rBase.flex) (hmtow1 : r1.mtow = rBase.mtow)
    (hOIS : OrderedIntSpeeds (r1.intermediateSpeeds.map fun s => s.dryV1)
      (r1.intermediateSpeeds.map fun s => s.dryVR)
      (r1.intermediateSpeeds.map fun s => s.dryV2)) :
    ∀ r', r' = ({ r1 with
        v1 := r1.intermediateSpeeds.map fun s => s.dryV1
        vR := r1.intermediateSpeeds.map fun s => s.dryVR
        v2 := r1.intermediateSpeeds.map fun s => s.dryV2 } : TakeoffPerformanceResult) →
    (r'.error = rBase.error ∨ r'.error = TakeoffPerfomanceError.vmcgVmcaLimits ∨
      r'.error = TakeoffPerfomanceError.maximumTireSpeed) ∧
    OrderedIntSpeeds r'.v1 r'.vR r'.v2 ∧ r'.flex = rBase.flex ∧ r'.mtow = rBase.mtow := by
  intro r' h
  subst h
  exact ⟨hmem1, hOIS, hflex1, hmtow1⟩

/-- The common record tail of the wet dispatcher branch. -/
lemma wetTail_spec (rBase r1 : TakeoffPerformanceResult) (conf : Conf)
    (inb : TakeoffPerformanceInputs) (pb : TakeoffPerformanceParameters) (x1 x2 x3 : ℚ)
    (hmem1 : r1.error = rBase.error ∨ r1.error = TakeoffPerfomanceError.vmcgVmcaLimits ∨
      r1.error = TakeoffPerfomanceError.maximumTireSpeed)
    (hflex1 : r1.flex = rBase.flex) (hmtow1 : r1.mtow = rBase.mtow) :
    ∀ r', r' = ({ r1 with
        error := (reconcileVSpeeds conf inb pb r1.error x1 x2 x3).1
        v1 := some (reconcileVSpeeds conf inb pb r1.error x1 x2 x3).2.1
        vR := some (reconcileVSpeeds conf inb pb r1.error x1 x2 x3).2.2.1
        v2 := some (reconcileVSpeeds conf inb pb r1.error x1 x2 x3).2.2.2 } :
      TakeoffPerformanceResult) →
    (r'.error = rBase.error ∨ r'.error = TakeoffPerfomanceError.vmcgVmcaLimits ∨
      r'.error = TakeoffPerfomanceError.maximumTireSpeed) ∧
    OrderedIntSpeeds r'.v1 r'.vR r'.v2 ∧ r'.flex = rBase.flex ∧ r'.mtow = rBase.mtow := by
  intro r' h
  subst h
  obtain ⟨hm, ha, hb, hc, l1, l2⟩ := reconcileVSpeeds_spec conf inb pb r1.error x1 x2 x3 _ rfl
  exact ⟨errChain _ _ _ hmem1 hm, orderedIntSpeeds_some _ _ _ ha hb hc l1 l2, hflex1, hmtow1⟩

/-- The common record tail of the contaminated dispatcher branch. -/
lemma contamTail_spec (r : TakeoffPerformanceResult) (conf : Conf) (x1 x2 x3 : ℚ) :
    ∀ r', r' = ({ r with
        error := (reconcileVSpeeds conf r.inputs r.params r.error x1 x2 x3).1
        v1 := some (reconcileVSpeeds conf r.inputs r.params r.error x1 x2 x3).2.1
        vR := some (reconcileVSpeeds conf r.inputs r.params r.error x1 x2 x3).2.2.1
        v2 := some (reconcileVSpeeds conf r.inputs r.params r.error x1 x2 x3).2.2.2 } :
      TakeoffPerformanceResult) →
    (r'.error = r.error ∨ r'.error = TakeoffPerfomanceError.vmcgVmcaLimits ∨
      r'.error = TakeoffPerfomanceError.maximumTireSpeed) ∧
    OrderedIntSpeeds r'.v1 r'.vR r'.v2 ∧ r'.flex = r.flex ∧ r'.mtow = r.mtow := by
  intro r' h
  subst h
  obtain ⟨hm, ha, hb, hc, l1, l2⟩ := reconcileVSpeeds_spec conf r.inputs r.params r.error x1 x2 x3 _ rfl
  exact ⟨hm, orderedIntSpeeds_some _ _ _ ha hb hc l1 l2, rfl, rfl⟩

/-- The speed dispatcher: the error survives or becomes a reconciliation error,
the final speeds are ordered integers, and `flex`/`mtow` are untouched. -/
lemma calculateVSpeeds_spec (r : TakeoffPerformanceResult) (conf : Conf) (fwd : Bool) (tv : ℚ) :
    ∀ r', r' = calculateVSpeeds r conf fwd tv →
    (r'.error = r.error ∨ r'.error = TakeoffPerfomanceError.vmcgVmcaLimits ∨
      r'.error = TakeoffPerfomanceError.maximumTireSpeed) ∧
    OrderedIntSpeeds r'.v1 r'.vR r'.v2 ∧ r'.flex = r.flex ∧ r'.mtow = r.mtow := by
  intro r' hr'
  subst hr'
  obtain ⟨x1, x2, x3, he, h1, h2, h3, hsome, hflex1, hmtow1⟩ :=
    calculateDryVSpeeds_dry123 r conf fwd
  obtain ⟨hm, ha, hb, hc, l1, l2⟩ := reconcileVSpeeds_spec conf r.inputs r.params r.error x1 x2 x3 _ rfl
  have hmem1 : (calculateDryVSpeeds r conf fwd).error = r.error ∨
      (calculateDryVSpeeds r conf fwd).error = TakeoffPerfomanceError.vmcgVmcaLimits ∨
      (calculateDryVSpeeds r conf fwd).error = TakeoffPerfomanceError.maximumTireSpeed := by
    rw [he]
    exact hm
  unfold calculateVSpeeds
  by_cases hdw : r.inputs.runwayCondition = RunwayCondition.dry ∨
      r.inputs.runwayCondition = RunwayCondition.wet
  · rw [if_pos hdw]
    by_cases hd : r.inputs.runwayCondition = RunwayCondition.dry
    · rw [if_pos hd]
      have hOIS : OrderedIntSpeeds
          ((calculateDryVSpeeds r conf fwd).intermediateSpeeds.map fun s => s.dryV1)
          ((calculateDryVSpeeds r conf fwd).intermediateSpeeds.map fun s => s.dryVR)
          ((calculateDryVSpeeds r conf fwd).intermediateSpeeds.map fun s => s.dryV2) := by
        rw [hsome, Option.map_some', Option.map_some', Option.map_some', h1, h2, h3]
        exact orderedIntSpeeds_some _ _ _ ha hb hc l1 l2
      exact dryTail_spec r (calculateDryVSpeeds r conf fwd) hmem1 hflex1 hmtow1 hOIS _ rfl
    · rw [if_neg hd]
      exact wetTail_spec r (calculateDryVSpeeds r conf fwd) conf r.inputs r.params _ _ _
        hmem1 hflex1 hmtow1 _ rfl
  · rw [if_neg hdw]
    cases hrc : r.inputs.runwayCondition
    · exact absurd (Or.inl hrc) hdw
    · exact absurd (Or.inr hrc) hdw
    all_goals exact contamTail_spec r conf _ _ _ _ rfl
/-- Extraction from a successful flex computation: it only fires when the
takeoff weight is under the Tref ceiling, and the final flex strictly exceeds
the OAT. -/
lemma ite_pair_some {c : Prop} [Decidable c] (t5 : ℚ) (lfac : LimitingFactor) (f : ℚ)
    (lf : Option LimitingFactor)
    (h : (if c then ((some t5 : Option ℚ), (some lfac : Option LimitingFactor))
      else (Option.none, Option.none)) = (some f, lf)) :
    c ∧ t5 = f := by
  split at h
  · next hc =>
      simp only [Prod.mk.injEq, Option.some.injEq] at h
      exact ⟨hc, h.1⟩
  · next =>
      exact absurd h (by simp)

lemma calculateFlexTemp_some (inputs : TakeoffPerformanceInputs)
    (params : TakeoffPerformanceParameters) (conf : Conf) (limits : LimitsRecord)
    (tRefLF tMaxLF tFlexMaxLF : LimitingFactor) (tvmcg : ℚ) (f : ℚ)
    (lf : Option LimitingFactor)
    (h : calculateFlexTemp inputs params conf limits tRefLF tMaxLF tFlexMaxLF tvmcg =
      (some f, lf)) :
    oLtR inputs.tow (limits.get tRefLF).tRefLimit = true ∧ inputs.oat < f := by
  unfold calculateFlexTemp at h
  by_cases h0 : oLtR inputs.tow (limits.get tRefLF).tRefLimit = true
  · refine ⟨h0, ?_⟩
    rw [if_pos h0] at h
    dsimp only at h
    split at h
    · obtain ⟨hc, ht⟩ := ite_pair_some _ _ _ _ h
      exact ht ▸ hc
    · exact absurd h (by simp)
  · rw [if_neg h0] at h
    exact absurd h (by simp)

/-- The flex/V-speed phase: the error survives or becomes a reconciliation
error, `mtow` is untouched, a populated flex implies the non-contaminated
non-TOGA path with the weight below the Tref ceiling and flex above OAT, and
the speeds are ordered integers unless copied verbatim from the tailwind
re-evaluation. -/
lemma calcSpeedsPhase_spec (recurse : TakeoffPerformanceInputs → TakeoffPerformanceResult)
    (inputs : TakeoffPerformanceInputs) (params : TakeoffPerformanceParameters) (conf : Conf)
    (limits : LimitsRecord) (lf1 lf2 lf3 : LimitingFactor) (tv : ℚ) (fwd : Bool)
    (r : TakeoffPerformanceResult) :
    ∀ r', r' = calcSpeedsPhase recurse inputs params conf limits lf1 lf2 lf3 tv fwd r →
    (r'.error = r.error ∨ r'.error = TakeoffPerfomanceError.vmcgVmcaLimits ∨
      r'.error = TakeoffPerfomanceError.maximumTireSpeed) ∧
    r'.mtow = r.mtow ∧
    (∀ f, r'.flex = some f →
      isContaminated inputs.runwayCondition = false ∧ inputs.forceToga = false ∧
      oLtR inputs.tow (limits.get lf1).tRefLimit = true ∧ inputs.oat < f) ∧
    (OrderedIntSpeeds r'.v1 r'.vR r'.v2 ∨
      (inputs.forceToga = true ∧
        (recurse { inputs with wind := -15, forceToga := false }).error =
          TakeoffPerfomanceError.none ∧
        r'.v1 = (recurse { inputs with wind := -15, forceToga := false }).v1 ∧
        r'.vR = (recurse { inputs with wind := -15, forceToga := false }).vR ∧
        r'.v2 = (recurse { inputs with wind := -15, forceToga := false }).v2)) := by
  intro r' hr'
  subst hr'
  unfold calcSpeedsPhase
  cases hft : inputs.forceToga
  case false =>
    rw [if_neg (by simp)]
    by_cases hcont : isContaminated inputs.runwayCondition = true
    · rw [hcont, if_neg (by simp)]
      obtain ⟨hmem, hOIS, hflex, hmtow⟩ :=
        calculateVSpeeds_spec ({ r with flex := Option.none }) conf fwd tv _ rfl
      refine ⟨hmem, hmtow, ?_, Or.inl hOIS⟩
      intro f hf
      have h2 : (calculateVSpeeds ({ r with flex := Option.none }) conf fwd tv).flex =
          Option.none := hflex
      exact Option.noConfusion (h2.symm.trans hf)
    · have hcf : isContaminated inputs.runwayCondition = false := by
        cases hq : isContaminated inputs.runwayCondition
        · rfl
        · exact absurd hq hcont
      rw [hcf, if_pos (by decide)]
      obtain ⟨hmem, hOIS, hflex, hmtow⟩ :=
        calculateVSpeeds_spec
          ({ r with
              flex := (calculateFlexTemp inputs params conf limits lf1 lf2 lf3 tv).1,
              params := { r.params with
                flexLimitingFactor :=
                  (calculateFlexTemp inputs params conf limits lf1 lf2 lf3 tv).2 } })
          conf fwd tv _ rfl
      refine ⟨hmem, hmtow, ?_, Or.inl hOIS⟩
      intro f hf
      have h2 : (calculateVSpeeds
          ({ r with
              flex := (calculateFlexTemp inputs params conf limits lf1 lf2 lf3 tv).1,
              params := { r.params with
                flexLimitingFactor :=
                  (calculateFlexTemp inputs params conf limits lf1 lf2 lf3 tv).2 } })
          conf fwd tv).flex =
          (calculateFlexTemp inputs params conf limits lf1 lf2 lf3 tv).1 := hflex
      have hf2 : (calculateFlexTemp inputs params conf limits lf1 lf2 lf3 tv).1 = some f :=
        h2.symm.trans hf
      rcases hp : calculateFlexTemp inputs params conf limits lf1 lf2 lf3 tv with ⟨p1, p2⟩
      rw [hp] at hf2
      simp only at hf2
      subst hf2
      obtain ⟨hA, hB⟩ :=
        calculateFlexTemp_some inputs params conf limits lf1 lf2 lf3 tv f p2 hp
      exact ⟨rfl, rfl, hA, hB⟩
  case true =>
    rw [if_pos rfl]
    by_cases htw : (recurse { inputs with wind := -15, forceToga := false }).error =
        TakeoffPerfomanceError.none
    · rw [if_pos htw]
      refine ⟨Or.inl rfl, rfl, ?_, Or.inr ⟨rfl, htw, rfl, rfl, rfl⟩⟩
      intro f hf
      exact Option.noConfusion (show (Option.none : Option ℚ) = some f from hf)
    · rw [if_neg htw]
      obtain ⟨hmem, hOIS, hflex, hmtow⟩ :=
        calculateVSpeeds_spec ({ r with flex := Option.none }) conf fwd tv _ rfl
      refine ⟨hmem, hmtow, ?_, Or.inl hOIS⟩
      intro f hf
      have h2 : (calculateVSpeeds ({ r with flex := Option.none }) conf fwd tv).flex =
          Option.none := hflex
      exact Option.noConfusion (h2.symm.trans hf)

/-- The post-validation error codes that abort the computation before any
speed or flex is produced: the eight validation errors and `TooHeavy`. -/
def hardErrors : List TakeoffPerfomanceError :=
  [TakeoffPerfomanceError.invalidData, TakeoffPerfomanceError.structuralMtow,
    TakeoffPerfomanceError.maximumPressureAlt, TakeoffPerfomanceError.maximumTemperature,
    TakeoffPerfomanceError.operatingEmptyWeight, TakeoffPerfomanceError.cgOutOfLimits,
    TakeoffPerfomanceError.maximumTailwind, TakeoffPerfomanceError.maximumRunwaySlope,
    TakeoffPerfomanceError.tooHeavy]

/-- The MTOW resolved and stored in the result (before the forward-CG bump). -/
def preBumpMtow (inputs : TakeoffPerformanceInputs) (params : TakeoffPerformanceParameters)
    (conf : Conf) : Option ℚ :=
  (resolveMtow inputs params conf
    ((computeLimits inputs params conf).get
      (getLimitingFactor LimitKey.tRefLimit (computeLimits inputs params conf))).oatLimit
    (calculateTvmcg params conf) (checkInputs inputs params)).2

/-- The MTOW actually compared against the takeoff weight: the stored MTOW plus
the forward-CG bump when that correction applies. -/
def bumpedMtow (inputs : TakeoffPerformanceInputs) (params : TakeoffPerformanceParameters)
    (conf : Conf) : Option ℚ :=
  if inputs.forwardCg &&
      (decide (getLimitingFactor LimitKey.oatLimit (computeLimits inputs params conf) =
        LimitingFactor.runway) ||
       decide (getLimitingFactor LimitKey.oatLimit (computeLimits inputs params conf) =
        LimitingFactor.vmcg)) then
    (preBumpMtow inputs params conf).map fun m =>
      m + max 0 ((cgFactors conf).1 * m + (cgFactors conf).2)
  else preBumpMtow inputs params conf

/-- The flex/V-speed phase entered from `calcWithConf`, packaged for the
result-level invariants. -/
lemma speedsPhaseBranch_spec (recurse : TakeoffPerformanceInputs → TakeoffPerformanceResult)
    (inputs : TakeoffPerformanceInputs) (conf : Conf) (limits : LimitsRecord)
    (lf1 lf2 lf3 : LimitingFactor) (tv : ℚ) (fwd : Bool) (rB : TakeoffPerformanceResult) :
    ∀ r', r' = calcSpeedsPhase recurse inputs (computeParams inputs) conf limits lf1 lf2 lf3
        tv fwd rB →
    (rB.error = TakeoffPerfomanceError.none ∨ rB.error = TakeoffPerfomanceError.tooLight) →
    rB.mtow = preBumpMtow inputs (computeParams inputs) conf →
    limits = computeLimits inputs (computeParams inputs) conf →
    lf1 = getLimitingFactor LimitKey.tRefLimit (computeLimits inputs (computeParams inputs) conf) →
    oLeR inputs.tow (bumpedMtow inputs (computeParams inputs) conf) = true →
    (inputs.forceToga = true →
      (recurse { inputs with wind := -15, forceToga := false }).error =
        TakeoffPerfomanceError.none →
      OrderedIntSpeeds (recurse { inputs with wind := -15, forceToga := false }).v1
        (recurse { inputs with wind := -15, forceToga := false }).vR
        (recurse { inputs with wind := -15, forceToga := false }).v2) →
    (r'.error = TakeoffPerfomanceError.none → OrderedIntSpeeds r'.v1 r'.vR r'.v2) ∧
    (r'.error ∈ hardErrors → r'.v1 = Option.none ∧ r'.vR = Option.none ∧
      r'.v2 = Option.none ∧ r'.flex = Option.none) ∧
    (∀ f, r'.flex = some f →
      isContaminated inputs.runwayCondition = false ∧ inputs.forceToga = false ∧
      oLtR inputs.tow ((computeLimits inputs (computeParams inputs) conf).get
        (getLimitingFactor LimitKey.tRefLimit
          (computeLimits inputs (computeParams inputs) conf))).tRefLimit = true ∧
      inputs.oat < f) ∧
    r'.mtow = preBumpMtow inputs (computeParams inputs) conf ∧
    (r'.error = TakeoffPerfomanceError.tooHeavy ↔
      oLeR inputs.tow (bumpedMtow inputs (computeParams inputs) conf) = false) := by
  intro r' hr' hrBerr hrBmtow hlim hlf1 hbum hrec
  obtain ⟨hm, hmtow, hflex, hspd⟩ :=
    calcSpeedsPhase_spec recurse inputs (computeParams inputs) conf limits lf1 lf2 lf3 tv fwd
      rB r' hr'
  refine ⟨?_, ?_, ?_, ?_, ?_⟩
  · intro hnone
    rcases hspd with hOIS | ⟨hf2, htw, hv1, hvR, hv2⟩
    · exact hOIS
    · rw [hv1, hvR, hv2]
      exact hrec hf2 htw
  · intro hmem2
    exfalso
    rcases hm with h | h | h
    · rcases hrBerr with hb | hb <;> (rw [h, hb] at hmem2; exact absurd hmem2 (by decide))
    · rw [h] at hmem2
      exact absurd hmem2 (by decide)
    · rw [h] at hmem2
      exact absurd hmem2 (by decide)
  · intro f hf
    obtain ⟨ha, hb2, hoL, hlt⟩ := hflex f hf
    refine ⟨ha, hb2, ?_, hlt⟩
    rw [hlim, hlf1] at hoL
    exact hoL
  · rw [hmtow, hrBmtow]
  · constructor
    · intro hth
      exfalso
      rcases hm with h | h | h
      · rcases hrBerr with hb | hb <;> (rw [hth] at h; rw [hb] at h; exact absurd h (by decide))
      · rw [hth] at h
        exact absurd h (by decide)
      · rw [hth] at h
        exact absurd h (by decide)
    · intro hF
      rw [hbum] at hF
      exact absurd hF (by decide)

/-- The successful-validation path: the five result-level invariants of a
single-configuration run. -/
lemma calcWithConf_spec (recurse : TakeoffPerformanceInputs → TakeoffPerformanceResult)
    (inputs : TakeoffPerformanceInputs) (conf : Conf)
    (herr0 : checkInputs inputs (computeParams inputs) = TakeoffPerfomanceError.none)
    (hrec : inputs.forceToga = true →
      (recurse { inputs with wind := -15, forceToga := false }).error =
        TakeoffPerfomanceError.none →
      OrderedIntSpeeds (recurse { inputs with wind := -15, forceToga := false }).v1
        (recurse { inputs with wind := -15, forceToga := false }).vR
        (recurse { inputs with wind := -15, forceToga := false }).v2) :
    ∀ r', r' = calcWithConf recurse inputs (computeParams inputs)
        (checkInputs inputs (computeParams inputs))
        (baseResult inputs (computeParams inputs) (checkInputs inputs (computeParams inputs)))
        conf →
    (r'.error = TakeoffPerfomanceError.none → OrderedIntSpeeds r'.v1 r'.vR r'.v2) ∧
    (r'.error ∈ hardErrors → r'.v1 = Option.none ∧ r'.vR = Option.none ∧
      r'.v2 = Option.none ∧ r'.flex = Option.none) ∧
    (∀ f, r'.flex = some f →
      isContaminated inputs.runwayCondition = false ∧ inputs.forceToga = false ∧
      oLtR inputs.tow ((computeLimits inputs (computeParams inputs) conf).get
        (getLimitingFactor LimitKey.tRefLimit
          (computeLimits inputs (computeParams inputs) conf))).tRefLimit = true ∧
      inputs.oat < f) ∧
    r'.mtow = preBumpMtow inputs (computeParams inputs) conf ∧
    (r'.error = TakeoffPerfomanceError.tooHeavy ↔
      oLeR inputs.tow (bumpedMtow inputs (computeParams inputs) conf) = false) := by
  intro r' h
  subst h
  unfold calcWithConf
  dsimp only
  have herr1 := resolveMtow_error inputs (computeParams inputs) conf
    ((computeLimits inputs (computeParams inputs) conf).get
      (getLimitingFactor LimitKey.tRefLimit (computeLimits inputs (computeParams inputs) conf))).oatLimit
    (calculateTvmcg (computeParams inputs) conf) (checkInputs inputs (computeParams inputs))
  have hrBerr : (resolveMtow inputs (computeParams inputs) conf
      ((computeLimits inputs (computeParams inputs) conf).get
        (getLimitingFactor LimitKey.tRefLimit
          (computeLimits inputs (computeParams inputs) conf))).oatLimit
      (calculateTvmcg (computeParams inputs) conf)
      (checkInputs inputs (computeParams inputs))).1 = TakeoffPerfomanceError.none ∨
      (resolveMtow inputs (computeParams inputs) conf
      ((computeLimits inputs (computeParams inputs) conf).get
        (getLimitingFactor LimitKey.tRefLimit
          (computeLimits inputs (computeParams inputs) conf))).oatLimit
      (calculateTvmcg (computeParams inputs) conf)
      (checkInputs inputs (computeParams inputs))).1 = TakeoffPerfomanceError.tooLight := by
    rcases herr1 with h | h
    · exact Or.inl (h.trans herr0)
    · exact Or.inr h
  by_cases hfw : (inputs.forwardCg &&
      (decide (getLimitingFactor LimitKey.oatLimit
        (computeLimits inputs (computeParams inputs) conf) = LimitingFactor.runway) ||
       decide (getLimitingFactor LimitKey.oatLimit
        (computeLimits inputs (computeParams inputs) conf) = LimitingFactor.vmcg))) = true
  · rw [if_pos hfw]
    have hbm : bumpedMtow inputs (computeParams inputs) conf =
        (preBumpMtow inputs (computeParams inputs) conf).map
          (fun m => m + max 0 ((cgFactors conf).1 * m + (cgFactors conf).2)) := by
      unfold bumpedMtow
      rw [if_pos hfw]
    split_ifs with hheavy
    · refine speedsPhaseBranch_spec recurse inputs conf _ _ _ _ _ _ _ _ rfl hrBerr rfl rfl rfl
        ?_ hrec
      rw [hbm]
      exact hheavy
    · refine ⟨?_, ?_, ?_, rfl, ?_⟩
      · intro hnone
        exact absurd hnone (by decide)
      · intro _
        exact ⟨rfl, rfl, rfl, rfl⟩
      · intro f hf
        exact Option.noConfusion (show (Option.none : Option ℚ) = some f from hf)
      · constructor
        · intro _
          rw [hbm]
          exact Bool.eq_false_iff.mpr hheavy
        · intro _
          rfl
  · rw [if_neg hfw]
    have hbm : bumpedMtow inputs (computeParams inputs) conf =
        preBumpMtow inputs (computeParams inputs) conf := by
      unfold bumpedMtow
      rw [if_neg hfw]
    split_ifs with hheavy
    · refine speedsPhaseBranch_spec recurse inputs conf _ _ _ _ _ _ _ _ rfl hrBerr rfl rfl rfl
        ?_ hrec
      rw [hbm]
      exact hheavy
    · refine ⟨?_, ?_, ?_, rfl, ?_⟩
      · intro hnone
        exact absurd hnone (by decide)
      · intro _
        exact ⟨rfl, rfl, rfl, rfl⟩
      · intro f hf
        exact Option.noConfusion (show (Option.none : Option ℚ) = some f from hf)
      · constructor
        · intro _
          rw [hbm]
          exact Bool.eq_false_iff.mpr hheavy
        · intro _
          rfl

/-- The result-level invariants established for every run of the calculator. -/
def ResultSpec (inputs : TakeoffPerformanceInputs) (r : TakeoffPerformanceResult) : Prop :=
  (r.error = TakeoffPerfomanceError.none → OrderedIntSpeeds r.v1 r.vR r.v2) ∧
  (r.error ∈ hardErrors → r.v1 = Option.none ∧ r.vR = Option.none ∧ r.v2 = Option.none ∧
    r.flex = Option.none) ∧
  (∀ f, r.flex = some f →
    isContaminated inputs.runwayCondition = false ∧ inputs.forceToga = false ∧
    (∃ conf, confOf inputs.conf = some conf ∧
      oLtR inputs.tow ((computeLimits inputs (computeParams inputs) conf).get
        (getLimitingFactor LimitKey.tRefLimit
          (computeLimits inputs (computeParams inputs) conf))).tRefLimit = true) ∧
    inputs.oat < f) ∧
  (checkInputs inputs (computeParams inputs) = TakeoffPerfomanceError.none →
    ∀ conf, confOf inputs.conf = some conf →
      r.mtow = preBumpMtow inputs (computeParams inputs) conf ∧
      (r.error = TakeoffPerfomanceError.tooHeavy ↔
        oLeR inputs.tow (bumpedMtow inputs (computeParams inputs) conf) = false))

lemma setStabTrim_resultSpec (inputs : TakeoffPerformanceInputs) (cg : Option ℚ)
    (r : TakeoffPerformanceResult) (h : ResultSpec inputs r) :
    ResultSpec inputs (setStabTrim cg r) := by
  cases cg
  · exact h
  · exact h

/-- The invariants hold of one `calculate` body, given them for the tailwind
re-evaluation that the `forceToga` path may consult. -/
lemma calcBody_spec (recurse : TakeoffPerformanceInputs → TakeoffPerformanceResult)
    (inputs : TakeoffPerformanceInputs)
    (hrec : inputs.forceToga = true →
      (recurse { inputs with wind := -15, forceToga := false }).error =
        TakeoffPerfomanceError.none →
      OrderedIntSpeeds (recurse { inputs with wind := -15, forceToga := false }).v1
        (recurse { inputs with wind := -15, forceToga := false }).vR
        (recurse { inputs with wind := -15, forceToga := false }).v2) :
    ResultSpec inputs (calcBody recurse inputs) := by
  unfold calcBody
  apply setStabTrim_resultSpec
  by_cases herr : checkInputs inputs (computeParams inputs) = TakeoffPerfomanceError.none
  · rw [if_pos herr]
    obtain ⟨c, hc⟩ := checkInputs_confOf inputs (computeParams inputs) herr
    rw [hc]
    obtain ⟨h5, h3, h9, h8⟩ := calcWithConf_spec recurse inputs c herr hrec _ rfl
    refine ⟨h5, h3, ?_, ?_⟩
    · intro f hf
      obtain ⟨ha, hb, hcv, hd⟩ := h9 f hf
      exact ⟨ha, hb, ⟨c, hc, hcv⟩, hd⟩
    · intro _ conf hconf
      rw [hc] at hconf
      have hcc : c = conf := Option.some_injective _ hconf
      subst hcc
      exact h8
  · rw [if_neg herr]
    refine ⟨?_, ?_, ?_, ?_⟩
    · intro hnone
      exact absurd hnone herr
    · intro _
      exact ⟨rfl, rfl, rfl, rfl⟩
    · intro f hf
      exact Option.noConfusion (show (Option.none : Option ℚ) = some f from hf)
    · intro hck _ _
      exact absurd hck herr

/-- The invariants hold of every result of `calculateTakeoffPerformance`. -/
lemma takeoff_resultSpec (inputs : TakeoffPerformanceInputs) :
    ResultSpec inputs (calculateTakeoffPerformance inputs) := by
  unfold calculateTakeoffPerformance
  apply calcBody_spec
  intro _ htw
  refine (calcBody_spec _ { inputs with wind := -15, forceToga := false } ?_).1 htw
  intro hcontra _
  exact Bool.noConfusion hcontra
/-! ## C3 (amended), C5, C8 (amended), C9 — result-level theorems -/

/-- C3 (amended): the result carries exactly one error code, and whenever it is
one of the eight validation errors or `TooHeavy`, the V1/VR/V2 and flex fields
are not asserted.  (The original claim — that ANY non-`None` error leaves them
unset — is refuted by `errorSpeeds_counterexample`: `TooLight` and the two
reconciliation errors leave the speeds populated.) -/
theorem hardError_fields_unset (inputs : TakeoffPerformanceInputs)
    (h : (calculateTakeoffPerformance inputs).error ∈ hardErrors) :
    (calculateTakeoffPerformance inputs).v1 = Option.none ∧
    (calculateTakeoffPerformance inputs).vR = Option.none ∧
    (calculateTakeoffPerformance inputs).v2 = Option.none ∧
    (calculateTakeoffPerformance inputs).flex = Option.none :=
  (takeoff_resultSpec inputs).2.1 h

/-- C3 witness: the amended theorem applied at an input that fails validation
with `MaximumRunwaySlope`. -/
theorem hardError_fields_unset_witness :
    (calculateTakeoffPerformance slope3Inputs).v1 = Option.none ∧
    (calculateTakeoffPerformance slope3Inputs).vR = Option.none ∧
    (calculateTakeoffPerformance slope3Inputs).v2 = Option.none ∧
    (calculateTakeoffPerformance slope3Inputs).flex = Option.none :=
  hardError_fields_unset slope3Inputs (by with_unfolding_all decide)

/-- C5: every result with error `None` carries speeds that are integers and
satisfy V1 ≤ VR ≤ V2, on every runway condition and thrust mode. -/
theorem success_speeds_ordered_ints (inputs : TakeoffPerformanceInputs)
    (h : (calculateTakeoffPerformance inputs).error = TakeoffPerfomanceError.none) :
    OrderedIntSpeeds (calculateTakeoffPerformance inputs).v1
      (calculateTakeoffPerformance inputs).vR (calculateTakeoffPerformance inputs).v2 :=
  (takeoff_resultSpec inputs).1 h

/-- C5 witness: the theorem applied at an input whose run succeeds. -/
theorem success_speeds_ordered_ints_witness :
    OrderedIntSpeeds (calculateTakeoffPerformance successInputs).v1
      (calculateTakeoffPerformance successInputs).vR
      (calculateTakeoffPerformance successInputs).v2 :=
  success_speeds_ordered_ints successInputs (by with_unfolding_all rfl)

/-- C9: a flex temperature is present in a result only if the runway is not
contaminated, maximum thrust was not forced, the takeoff weight is strictly
below the Tref ceiling of the Tref-governing factor, and the final flex
temperature strictly exceeds the OAT. -/
theorem flex_presence_conditions (inputs : TakeoffPerformanceInputs) (f : ℚ)
    (h : (calculateTakeoffPerformance inputs).flex = some f) :
    isContaminated inputs.runwayCondition = false ∧ inputs.forceToga = false ∧
    (∃ conf, confOf inputs.conf = some conf ∧
      oLtR inputs.tow ((computeLimits inputs (computeParams inputs) conf).get
        (getLimitingFactor LimitKey.tRefLimit
          (computeLimits inputs (computeParams inputs) conf))).tRefLimit = true) ∧
    inputs.oat < f :=
  (takeoff_resultSpec inputs).2.2.1 f h

/-- C9 witness: the theorem applied at a run that produces flex 50. -/
theorem flex_presence_conditions_witness :
    isContaminated successInputs.runwayCondition = false ∧
    successInputs.forceToga = false ∧
    (∃ conf, confOf successInputs.conf = some conf ∧
      oLtR successInputs.tow
        ((computeLimits successInputs (computeParams successInputs) conf).get
          (getLimitingFactor LimitKey.tRefLimit
            (computeLimits successInputs (computeParams successInputs) conf))).tRefLimit =
        true) ∧
    successInputs.oat < 50 :=
  flex_presence_conditions successInputs 50 (by with_unfolding_all rfl)

/-- C8 (amended): when validation passes, the result carries the MTOW resolved
BEFORE the forward-CG bump (so the stored value is never increased by the bump
— refuting the claim's first half), while the `TooHeavy` comparison uses the
bumped MTOW, and the bump itself is a non-negative increment `max(0, a·m+b)`. -/
theorem forwardCg_mtow_amended (inputs : TakeoffPerformanceInputs) (conf : Conf)
    (h0 : checkInputs inputs (computeParams inputs) = TakeoffPerfomanceError.none)
    (hc : confOf inputs.conf = some conf) :
    (calculateTakeoffPerformance inputs).mtow =
      preBumpMtow inputs (computeParams inputs) conf ∧
    ((calculateTakeoffPerformance inputs).error = TakeoffPerfomanceError.tooHeavy ↔
      oLeR inputs.tow (bumpedMtow inputs (computeParams inputs) conf) = false) ∧
    (∀ m, preBumpMtow inputs (computeParams inputs) conf = some m →
      ∃ d, 0 ≤ d ∧ bumpedMtow inputs (computeParams inputs) conf = some (m + d)) := by
  obtain ⟨hm, hiff⟩ := (takeoff_resultSpec inputs).2.2.2 h0 conf hc
  refine ⟨hm, hiff, ?_⟩
  intro m hm2
  unfold bumpedMtow
  split_ifs
  · exact ⟨max 0 ((cgFactors conf).1 * m + (cgFactors conf).2), le_max_left _ _,
      by rw [hm2, Option.map_some']⟩
  · exact ⟨0, le_rfl, by rw [hm2, add_zero]⟩

/-- C8 witness: the amended theorem applied at the forward-CG probe. -/
theorem forwardCg_mtow_amended_witness :
    (calculateTakeoffPerformance c8Inputs).mtow =
      preBumpMtow c8Inputs (computeParams c8Inputs) Conf.one ∧
    ((calculateTakeoffPerformance c8Inputs).error = TakeoffPerfomanceError.tooHeavy ↔
      oLeR c8Inputs.tow (bumpedMtow c8Inputs (computeParams c8Inputs) Conf.one) = false) ∧
    (∀ m, preBumpMtow c8Inputs (computeParams c8Inputs) Conf.one = some m →
      ∃ d, 0 ≤ d ∧
        bumpedMtow c8Inputs (computeParams c8Inputs) Conf.one = some (m + d)) :=
  forwardCg_mtow_amended c8Inputs Conf.one (by with_unfolding_all rfl)
    (by with_unfolding_all rfl)
/-! ## C10 — the configuration optimizer -/

lemma optCmp_le_flex {a b : TakeoffPerformanceResult} (h : optCmp a b ≤ 0) :
    b.flex.getD 0 ≤ a.flex.getD 0 := by
  unfold optCmp at h
  split_ifs at h with hf
  · rw [hf]
  · linarith

lemma optCmp_pos_flex {a b : TakeoffPerformanceResult} (h : 0 < optCmp a b) :
    a.flex.getD 0 ≤ b.flex.getD 0 := by
  unfold optCmp at h
  split_ifs at h with hf
  · rw [hf]
  · linarith

lemma optCmp_le_tie {a b : TakeoffPerformanceResult} (h : optCmp a b ≤ 0)
    (hf : a.flex = b.flex) : a.v1.getD 0 ≤ b.v1.getD 0 := by
  unfold optCmp at h
  rw [if_pos hf] at h
  linarith

lemma optCmp_pos_tie {a b : TakeoffPerformanceResult} (h : 0 < optCmp a b)
    (hf : a.flex = b.flex) : b.v1.getD 0 ≤ a.v1.getD 0 := by
  unfold optCmp at h
  rw [if_pos hf] at h
  linarith

/-- C10: the optimizer runs the pipeline once per configuration 1, 2, 3; when no
run succeeds it returns the configuration-3 result; otherwise it returns a
successful result whose flex (absent flex coalesced to 0 by the comparator's
`?? 0`) is maximal, and — provided the coalesced flex values do not conflate
distinct `flex` fields — ties are broken towards the lowest V1; in particular a
lone successful configuration is returned exactly. -/
theorem optConf_selection (inputs : TakeoffPerformanceInputs) :
    ∀ r1 r2 r3 succ best,
      r1 = calculateTakeoffPerformance { inputs with conf := 1 } →
      r2 = calculateTakeoffPerformance { inputs with conf := 2 } →
      r3 = calculateTakeoffPerformance { inputs with conf := 3 } →
      succ = List.filter (fun r => decide (r.error = TakeoffPerfomanceError.none))
        [r1, r2, r3] →
      best = calculateTakeoffPerformanceOptConf inputs →
      (succ = [] → best = r3) ∧
      (succ ≠ [] → best ∈ succ ∧
        (∀ s ∈ succ, s.flex.getD 0 ≤ best.flex.getD 0) ∧
        ((∀ a ∈ succ, ∀ b ∈ succ, a.flex.getD 0 = b.flex.getD 0 → a.flex = b.flex) →
          ∀ s ∈ succ, s.flex = best.flex → best.v1.getD 0 ≤ s.v1.getD 0)) ∧
      (∀ s, succ = [s] → best = s) := by
  intro r1 r2 r3 succ best h1 h2 h3 hs hb
  have hb2 : best =
      (if (List.filter (fun r => decide (r.error = TakeoffPerfomanceError.none))
          [r1, r2, r3]).isEmpty = true
        then r3
        else
          match sortByCmp optCmp
            (List.filter (fun r => decide (r.error = TakeoffPerfomanceError.none))
              [r1, r2, r3]) with
          | [] => r3
          | b :: _ => b) := by
    rw [hb]
    unfold calculateTakeoffPerformanceOptConf
    rw [← h1, ← h2, ← h3]
    rfl
  clear hb h1 h2 h3
  subst hs
  by_cases e1 : r1.error = TakeoffPerfomanceError.none <;>
    by_cases e2 : r2.error = TakeoffPerfomanceError.none <;>
      by_cases e3 : r3.error = TakeoffPerfomanceError.none
  · have hfilt : List.filter (fun r => decide (r.error = TakeoffPerfomanceError.none))
        [r1, r2, r3] = [r1, r2, r3] := by
      simp [List.filter, decide_eq_true e1, decide_eq_true e2, decide_eq_true e3]
    rw [hfilt] at hb2 ⊢
    by_cases hyz : optCmp r2 r3 ≤ 0
    · by_cases hxy : optCmp r1 r2 ≤ 0
      · have hsort : sortByCmp optCmp [r1, r2, r3] = [r1, r2, r3] := by
          simp only [sortByCmp, sortInsert, if_pos hyz, if_pos hxy]
        rw [hsort] at hb2
        have hbx : best = r1 := hb2
        rw [hbx]
        refine ⟨?_, ?_, ?_⟩
        · intro hE
          exact absurd hE (by simp)
        · intro _
          refine ⟨by simp, ?_, ?_⟩
          · intro s hs2
            simp only [List.mem_cons, List.not_mem_nil, or_false] at hs2
            rcases hs2 with h | h | h <;> rw [h] <;>
              first
                | exact optCmp_le_flex hxy
                | exact le_trans (optCmp_le_flex hyz) (optCmp_le_flex hxy)
          · intro H s hs2 hfeq
            simp only [List.mem_cons, List.not_mem_nil, or_false] at hs2
            rcases hs2 with h | h | h <;> rw [h] at hfeq ⊢ <;>
              first
                | exact optCmp_le_tie hxy hfeq.symm
                | (have d1 : r2.flex.getD 0 ≤ r1.flex.getD 0 := optCmp_le_flex hxy;
                   have d2 : r3.flex.getD 0 ≤ r2.flex.getD 0 := optCmp_le_flex hyz;
                   have d3 : r1.flex.getD 0 = r3.flex.getD 0 := by rw [hfeq];
                   have d4 : r2.flex.getD 0 = r1.flex.getD 0 := le_antisymm d1 (by rw [d3]; exact d2);
                   have hyx : r2.flex = r1.flex := H r2 (by simp) r1 (by simp) d4;
                   have hyzf : r2.flex = r3.flex := by rw [hyx, ← hfeq];
                   exact le_trans (optCmp_le_tie hxy hyx.symm) (optCmp_le_tie hyz hyzf))
        · intro s hEq
          simp at hEq
      · have hxy2 : 0 < optCmp r1 r2 := lt_of_not_le hxy
        have hsort : sortByCmp optCmp [r1, r2, r3] = r2 :: sortInsert optCmp r1 [r3] := by
          simp only [sortByCmp, sortInsert, if_pos hyz, if_neg hxy]
        rw [hsort] at hb2
        have hbx : best = r2 := hb2
        rw [hbx]
        refine ⟨?_, ?_, ?_⟩
        · intro hE
          exact absurd hE (by simp)
        · intro _
          refine ⟨by simp, ?_, ?_⟩
          · intro s hs2
            simp only [List.mem_cons, List.not_mem_nil, or_false] at hs2
            rcases hs2 with h | h | h <;> rw [h] <;>
              first
                | exact optCmp_pos_flex hxy2
                | exact optCmp_le_flex hyz
          · intro H s hs2 hfeq
            simp only [List.mem_cons, List.not_mem_nil, or_false] at hs2
            rcases hs2 with h | h | h <;> rw [h] at hfeq ⊢ <;>
              first
                | exact optCmp_pos_tie hxy2 hfeq
                | exact optCmp_le_tie hyz hfeq.symm
        · intro s hEq
          simp at hEq
    · have hyz2 : 0 < optCmp r2 r3 := lt_of_not_le hyz
      by_cases hxz : optCmp r1 r3 ≤ 0
      · have hsort : sortByCmp optCmp [r1, r2, r3] = [r1, r3, r2] := by
          simp only [sortByCmp, sortInsert, if_neg hyz, if_pos hxz]
        rw [hsort] at hb2
        have hbx : best = r1 := hb2
        rw [hbx]
        refine ⟨?_, ?_, ?_⟩
        · intro hE
          exact absurd hE (by simp)
        · intro _
          refine ⟨by simp, ?_, ?_⟩
          · intro s hs2
            simp only [List.mem_cons, List.not_mem_nil, or_false] at hs2
            rcases hs2 with h | h | h <;> rw [h] <;>
              first
                | exact le_trans (optCmp_pos_flex hyz2) (optCmp_le_flex hxz)
                | exact optCmp_le_flex hxz
          · intro H s hs2 hfeq
            simp only [List.mem_cons, List.not_mem_nil, or_false] at hs2
            rcases hs2 with h | h | h <;> rw [h] at hfeq ⊢ <;>
              first
                | (have d1 : r3.flex.getD 0 ≤ r1.flex.getD 0 := optCmp_le_flex hxz;
                   have d2 : r2.flex.getD 0 ≤ r3.flex.getD 0 := optCmp_pos_flex hyz2;
                   have d3 : r1.flex.getD 0 = r2.flex.getD 0 := by rw [hfeq];
                   have d4 : r3.flex.getD 0 = r1.flex.getD 0 := le_antisymm d1 (by rw [d3]; exact d2);
                   have hzx : r3.flex = r1.flex := H r3 (by simp) r1 (by simp) d4;
                   have hzy : r2.flex = r3.flex := by rw [hfeq, ← hzx];
                   exact le_trans (optCmp_le_tie hxz hzx.symm) (optCmp_pos_tie hyz2 hzy))
                | exact optCmp_le_tie hxz hfeq.symm
        · intro s hEq
          simp at hEq
      · have hxz2 : 0 < optCmp r1 r3 := lt_of_not_le hxz
        have hsort : sortByCmp optCmp [r1, r2, r3] = r3 :: sortInsert optCmp r1 [r2] := by
          simp only [sortByCmp, sortInsert, if_neg hyz, if_neg hxz]
        rw [hsort] at hb2
        have hbx : best = r3 := hb2
        rw [hbx]
        refine ⟨?_, ?_, ?_⟩
        · intro hE
          exact absurd hE (by simp)
        · intro _
          refine ⟨by simp, ?_, ?_⟩
          · intro s hs2
            simp only [List.mem_cons, List.not_mem_nil, or_false] at hs2
            rcases hs2 with h | h | h <;> rw [h] <;>
              first
                | exact optCmp_pos_flex hxz2
                | exact optCmp_pos_flex hyz2
          · intro H s hs2 hfeq
            simp only [List.mem_cons, List.not_mem_nil, or_false] at hs2
            rcases hs2 with h | h | h <;> rw [h] at hfeq ⊢ <;>
              first
                | exact optCmp_pos_tie hxz2 hfeq
                | exact optCmp_pos_tie hyz2 hfeq
        · intro s hEq
          simp at hEq
  · have hfilt : List.filter (fun r => decide (r.error = TakeoffPerfomanceError.none))
        [r1, r2, r3] = [r1, r2] := by
      simp [List.filter, decide_eq_true e1, decide_eq_true e2, decide_eq_false e3]
    rw [hfilt] at hb2 ⊢
    by_cases hxy : optCmp r1 r2 ≤ 0
    · have hsort : sortByCmp optCmp [r1, r2] = [r1, r2] := by
        simp only [sortByCmp, sortInsert, if_pos hxy]
      rw [hsort] at hb2
      have hbx : best = r1 := hb2
      rw [hbx]
      refine ⟨?_, ?_, ?_⟩
      · intro hE
        exact absurd hE (by simp)
      · intro _
        refine ⟨by simp, ?_, ?_⟩
        · intro s hs2
          simp only [List.mem_cons, List.not_mem_nil, or_false] at hs2
          rcases hs2 with h | h <;> rw [h] <;>
            first
              | exact optCmp_le_flex hxy
        · intro H s hs2 hfeq
          simp only [List.mem_cons, List.not_mem_nil, or_false] at hs2
          rcases hs2 with h | h <;> rw [h] at hfeq ⊢ <;>
            first
              | exact optCmp_le_tie hxy hfeq.symm
      · intro s hEq
        simp at hEq
    · have hxy2 : 0 < optCmp r1 r2 := lt_of_not_le hxy
      have hsort : sortByCmp optCmp [r1, r2] = [r2, r1] := by
        simp only [sortByCmp, sortInsert, if_neg hxy]
      rw [hsort] at hb2
      have hbx : best = r2 := hb2
      rw [hbx]
      refine ⟨?_, ?_, ?_⟩
      · intro hE
        exact absurd hE (by simp)
      · intro _
        refine ⟨by simp, ?_, ?_⟩
        · intro s hs2
          simp only [List.mem_cons, List.not_mem_nil, or_false] at hs2
          rcases hs2 with h | h <;> rw [h] <;>
            first
              | exact optCmp_pos_flex hxy2
        · intro H s hs2 hfeq
          simp only [List.mem_cons, List.not_mem_nil, or_false] at hs2
          rcases hs2 with h | h <;> rw [h] at hfeq ⊢ <;>
            first
              | exact optCmp_pos_tie hxy2 hfeq
      · intro s hEq
        simp at hEq
  · have hfilt : List.filter (fun r => decide (r.error = TakeoffPerfomanceError.none))
        [r1, r2, r3] = [r1, r3] := by
      simp [List.filter, decide_eq_true e1, decide_eq_false e2, decide_eq_true e3]
    rw [hfilt] at hb2 ⊢
    by_cases hxz : optCmp r1 r3 ≤ 0
    · have hsort : sortByCmp optCmp [r1, r3] = [r1, r3] := by
        simp only [sortByCmp, sortInsert, if_pos hxz]
      rw [hsort] at hb2
      have hbx : best = r1 := hb2
      rw [hbx]
      refine ⟨?_, ?_, ?_⟩
      · intro hE
        exact absurd hE (by simp)
      · intro _
        refine ⟨by simp, ?_, ?_⟩
        · intro s hs2
          simp only [List.mem_cons, List.not_mem_nil, or_false] at hs2
          rcases hs2 with h | h <;> rw [h] <;>
            first
              | exact optCmp_le_flex hxz
        · intro H s hs2 hfeq
          simp only [List.mem_cons, List.not_mem_nil, or_false] at hs2
          rcases hs2 with h | h <;> rw [h] at hfeq ⊢ <;>
            first
              | exact optCmp_le_tie hxz hfeq.symm
      · intro s hEq
        simp at hEq
    · have hxz2 : 0 < optCmp r1 r3 := lt_of_not_le hxz
      have hsort : sortByCmp optCmp [r1, r3] = [r3, r1] := by
        simp only [sortByCmp, sortInsert, if_neg hxz]
      rw [hsort] at hb2
      have hbx : best = r3 := hb2
      rw [hbx]
      refine ⟨?_, ?_, ?_⟩
      · intro hE
        exact absurd hE (by simp)
      · intro _
        refine ⟨by simp, ?_, ?_⟩
        · intro s hs2
          simp only [List.mem_cons, List.not_mem_nil, or_false] at hs2
          rcases hs2 with h | h <;> rw [h] <;>
            first
              | exact optCmp_pos_flex hxz2
        · intro H s hs2 hfeq
          simp only [List.mem_cons, List.not_mem_nil, or_false] at hs2
          rcases hs2 with h | h <;> rw [h] at hfeq ⊢ <;>
            first
              | exact optCmp_pos_tie hxz2 hfeq
      · intro s hEq
        simp at hEq
  · have hfilt : List.filter (fun r => decide (r.error = TakeoffPerfomanceError.none))
        [r1, r2, r3] = [r1] := by
      simp [List.filter, decide_eq_true e1, decide_eq_false e2, decide_eq_false e3]
    rw [hfilt] at hb2 ⊢
    have hbx : best = r1 := hb2
    rw [hbx]
    refine ⟨?_, ?_, ?_⟩
    · intro hE
      exact absurd hE (by simp)
    · intro _
      refine ⟨by simp, ?_, ?_⟩
      · intro s hs2
        simp only [List.mem_cons, List.not_mem_nil, or_false] at hs2
        rw [hs2]
      · intro H s hs2 hfeq
        simp only [List.mem_cons, List.not_mem_nil, or_false] at hs2
        rw [hs2]
    · intro s hEq
      simp at hEq
      exact hEq
  · have hfilt : List.filter (fun r => decide (r.error = TakeoffPerfomanceError.none))
        [r1, r2, r3] = [r2, r3] := by
      simp [List.filter, decide_eq_false e1, decide_eq_true e2, decide_eq_true e3]
    rw [hfilt] at hb2 ⊢
    by_cases hyz : optCmp r2 r3 ≤ 0
    · have hsort : sortByCmp optCmp [r2, r3] = [r2, r3] := by
        simp only [sortByCmp, sortInsert, if_pos hyz]
      rw [hsort] at hb2
      have hbx : best = r2 := hb2
      rw [hbx]
      refine ⟨?_, ?_, ?_⟩
      · intro hE
        exact absurd hE (by simp)
      · intro _
        refine ⟨by simp, ?_, ?_⟩
        · intro s hs2
          simp only [List.mem_cons, List.not_mem_nil, or_false] at hs2
          rcases hs2 with h | h <;> rw [h] <;>
            first
              | exact optCmp_le_flex hyz
        · intro H s hs2 hfeq
          simp only [List.mem_cons, List.not_mem_nil, or_false] at hs2
          rcases hs2 with h | h <;> rw [h] at hfeq ⊢ <;>
            first
              | exact optCmp_le_tie hyz hfeq.symm
      · intro s hEq
        simp at hEq
    · have hyz2 : 0 < optCmp r2 r3 := lt_of_not_le hyz
      have hsort : sortByCmp optCmp [r2, r3] = [r3, r2] := by
        simp only [sortByCmp, sortInsert, if_neg hyz]
      rw [hsort] at hb2
      have hbx : best = r3 := hb2
      rw [hbx]
      refine ⟨?_, ?_, ?_⟩
      · intro hE
        exact absurd hE (by simp)
      · intro _
        refine ⟨by simp, ?_, ?_⟩
        · intro s hs2
          simp only [List.mem_cons, List.not_mem_nil, or_false] at hs2
          rcases hs2 with h | h <;> rw [h] <;>
            first
              | exact optCmp_pos_flex hyz2
        · intro H s hs2 hfeq
          simp only [List.mem_cons, List.not_mem_nil, or_false] at hs2
          rcases hs2 with h | h <;> rw [h] at hfeq ⊢ <;>
            first
              | exact optCmp_pos_tie hyz2 hfeq
      · intro s hEq
        simp at hEq
  · have hfilt : List.filter (fun r => decide (r.error = TakeoffPerfomanceError.none))
        [r1, r2, r3] = [r2] := by
      simp [List.filter, decide_eq_false e1, decide_eq_true e2, decide_eq_false e3]
    rw [hfilt] at hb2 ⊢
    have hbx : best = r2 := hb2
    rw [hbx]
    refine ⟨?_, ?_, ?_⟩
    · intro hE
      exact absurd hE (by simp)
    · intro _
      refine ⟨by simp, ?_, ?_⟩
      · intro s hs2
        simp only [List.mem_cons, List.not_mem_nil, or_false] at hs2
        rw [hs2]
      · intro H s hs2 hfeq
        simp only [List.mem_cons, List.not_mem_nil, or_false] at hs2
        rw [hs2]
    · intro s hEq
      simp at hEq
      exact hEq
  · have hfilt : List.filter (fun r => decide (r.error = TakeoffPerfomanceError.none))
        [r1, r2, r3] = [r3] := by
      simp [List.filter, decide_eq_false e1, decide_eq_false e2, decide_eq_true e3]
    rw [hfilt] at hb2 ⊢
    have hbx : best = r3 := hb2
    rw [hbx]
    refine ⟨?_, ?_, ?_⟩
    · intro hE
      exact absurd hE (by simp)
    · intro _
      refine ⟨by simp, ?_, ?_⟩
      · intro s hs2
        simp only [List.mem_cons, List.not_mem_nil, or_false] at hs2
        rw [hs2]
      · intro H s hs2 hfeq
        simp only [List.mem_cons, List.not_mem_nil, or_false] at hs2
        rw [hs2]
    · intro s hEq
      simp at hEq
      exact hEq
  · have hfilt : List.filter (fun r => decide (r.error = TakeoffPerfomanceError.none))
        [r1, r2, r3] = [] := by
      simp [List.filter, decide_eq_false e1, decide_eq_false e2, decide_eq_false e3]
    rw [hfilt] at hb2 ⊢
    have hbx : best = r3 := hb2
    rw [hbx]
    refine ⟨?_, ?_, ?_⟩
    · intro _
      rfl
    · intro hne
      exact absurd rfl hne
    · intro s hEq
      simp at hEq

/-- C10 witness: the selection theorem applied at the completing probe input. -/
theorem optConf_selection_witness :
    (List.filter (fun r => decide (r.error = TakeoffPerfomanceError.none))
        [calculateTakeoffPerformance { successInputs with conf := 1 },
          calculateTakeoffPerformance { successInputs with conf := 2 },
          calculateTakeoffPerformance { successInputs with conf := 3 }] = [] →
      calculateTakeoffPerformanceOptConf successInputs =
        calculateTakeoffPerformance { successInputs with conf := 3 }) ∧
    (List.filter (fun r => decide (r.error = TakeoffPerfomanceError.none))
        [calculateTakeoffPerformance { successInputs with conf := 1 },
          calculateTakeoffPerformance { successInputs with conf := 2 },
          calculateTakeoffPerformance { successInputs with conf := 3 }] ≠ [] →
      calculateTakeoffPerformanceOptConf successInputs ∈
        List.filter (fun r => decide (r.error = TakeoffPerfomanceError.none))
          [calculateTakeoffPerformance { successInputs with conf := 1 },
            calculateTakeoffPerformance { successInputs with conf := 2 },
            calculateTakeoffPerformance { successInputs with conf := 3 }] ∧
      (∀ s ∈ List.filter (fun r => decide (r.error = TakeoffPerfomanceError.none))
          [calculateTakeoffPerformance { successInputs with conf := 1 },
            calculateTakeoffPerformance { successInputs with conf := 2 },
            calculateTakeoffPerformance { successInputs with conf := 3 }],
        s.flex.getD 0 ≤ (calculateTakeoffPerformanceOptConf successInputs).flex.getD 0) ∧
      ((∀ a ∈ List.filter (fun r => decide (r.error = TakeoffPerfomanceError.none))
          [calculateTakeoffPerformance { successInputs with conf := 1 },
            calculateTakeoffPerformance { successInputs with conf := 2 },
            calculateTakeoffPerformance { successInputs with conf := 3 }],
        ∀ b ∈ List.filter (fun r => decide (r.error = TakeoffPerfomanceError.none))
          [calculateTakeoffPerformance { successInputs with conf := 1 },
            calculateTakeoffPerformance { successInputs with conf := 2 },
            calculateTakeoffPerformance { successInputs with conf := 3 }],
        a.flex.getD 0 = b.flex.getD 0 → a.flex = b.flex) →
        ∀ s ∈ List.filter (fun r => decide (r.error = TakeoffPerfomanceError.none))
          [calculateTakeoffPerformance { successInputs with conf := 1 },
            calculateTakeoffPerformance { successInputs with conf := 2 },
            calculateTakeoffPerformance { successInputs with conf := 3 }],
          s.flex = (calculateTakeoffPerformanceOptConf successInputs).flex →
          (calculateTakeoffPerformanceOptConf successInputs).v1.getD 0 ≤ s.v1.getD 0)) ∧
    (∀ s, List.filter (fun r => decide (r.error = TakeoffPerfomanceError.none))
        [calculateTakeoffPerformance { successInputs with conf := 1 },
          calculateTakeoffPerformance { successInputs with conf := 2 },
          calculateTakeoffPerformance { successInputs with conf := 3 }] = [s] →
      calculateTakeoffPerformanceOptConf successInputs = s) :=
  optConf_selection successInputs _ _ _ _ _ rfl rfl rfl rfl rfl
end Takeoff
